import Mathlib

/-!
kubevoltracker: the MySQL persistence adapter, the mock manager and the watcher

A shallow embedding of `dbmanager/mysql` (the prepared statements of
`insert.go`, `delete.go`, `bind.go`, `update.go`, `resource_version.go`,
`existence.go`, the transaction wrappers of `mysql.go`), of the interning and
volume methods of `dbmanager/mock`, and of `watcher.go`: the reconciler loop,
the event handlers and `Watch`, `Stop` and `Destroy`.

Conventions of the embedding.

* A table is a list of rows in insertion order.  A nullable column is an
  `Option`.  Times are microsecond counts.
* String comparison with `=` is exact equality (a binary collation).
* `LIKE` is MySQL pattern matching: `%` matches any run of characters, `_`
  any single character and the backslash escapes the character after it.
* A statement that fails leaves the tables as they were before the statement
  (statement-level rollback of the storage engine); the transaction stays open.
* The table definitions are not among the sources.  Keys are those of the data
  model of the specification: `uid` for `pod`, `pv` and `pvc`, (pod_uid, name)
  for `container`, (pod_uid, pvc_name, container_name) for `pod_mount`,
  (resource, namespace) for `resource_version`.  Foreign keys are not modelled.
* Connection failures (`Begin`, `Commit`, `RowsAffected` errors) and deadlocks
  between concurrent transactions are outside the model: one call runs at a time.
* The ids of `nfs` and `iscsi` are generated by the table: the next id is one
  more than the greatest stored id.  (ip_addr, path) is the key of `nfs` and
  (target_portal, iqn, lun, fs_type) the key of `iscsi`, as in the data model of
  the specification.
-/

namespace KubeVolTracker

/-! ## Data model -/

/-- A point in time, in microseconds. -/
abbrev Time := Nat

/-- Row of table `pod`. -/
structure PodRow where
  uid : String
  name : String
  create_time : Time
  delete_time : Option Time
  namespace_ : String
  json : String
deriving DecidableEq, Repr

/-- Row of table `pvc`.  Every column but `uid` may be NULL: the bind statement
inserts a row that has only `uid`, `pv_uid` and `bind_time`. -/
structure PVCRow where
  uid : String
  name : Option String
  create_time : Option Time
  delete_time : Option Time
  bind_time : Option Time
  pv_uid : Option String
  namespace_ : Option String
  storage : Option Int
  access_modes : Option String
  json : Option String
deriving DecidableEq, Repr

/-- Row of table `pv`. -/
structure PVRow where
  uid : String
  name : String
  create_time : Time
  delete_time : Option Time
  storage : Int
  access_modes : String
  json : String
  nfs_id : Int
  iscsi_id : Int
deriving DecidableEq, Repr

/-- Row of table `container`. -/
structure ContainerRow where
  pod_uid : String
  name : String
  image : String
  command : String
deriving DecidableEq, Repr

/-- Row of table `pod_mount`. -/
structure MountRow where
  pod_uid : String
  pvc_uid : Option String
  container_name : String
  pvc_name : String
  read_only : Bool
deriving DecidableEq, Repr

/-- Row of table `resource_version`. -/
structure RVRow where
  resource : String
  namespace_ : String
  resource_version : String
deriving DecidableEq, Repr

/-- Row of table `nfs`: the generated id, the address as the number `INET_ATON`
returns (NULL when it returns NULL) and the exported path. -/
structure NFSRow where
  id : Int
  ip_addr : Option Nat
  path : String
deriving DecidableEq, Repr

/-- Row of table `iscsi`. -/
structure ISCSIRow where
  id : Int
  target_portal : String
  iqn : String
  lun : Int
  fs_type : String
deriving DecidableEq, Repr

/-- The tables the adapter reads and writes. -/
structure DB where
  pod : List PodRow
  pvc : List PVCRow
  pv : List PVRow
  container : List ContainerRow
  pod_mount : List MountRow
  resource_version : List RVRow
  nfs : List NFSRow := []
  iscsi : List ISCSIRow := []
deriving DecidableEq, Repr

/-- The store with no rows. -/
def DB.empty : DB :=
  { pod := [], pvc := [], pv := [], container := [], pod_mount := [], resource_version := [] }

/-- `resources.VolumeMount`. -/
structure VolumeMount where
  Name : String
  ReadOnly : Bool
deriving DecidableEq, Repr

/-- `resources.ContainerDesc`. -/
structure ContainerDesc where
  Name : String
  Image : String
  Command : String
  PVCMounts : List VolumeMount
deriving DecidableEq, Repr

/-- `resources.ResourceType`. -/
abbrev ResourceType := String

/-- `resources.Pods`. -/
def Pods : ResourceType := "pods"
/-- `resources.PVs`. -/
def PVs : ResourceType := "persistentvolumes"
/-- `resources.PVCs`. -/
def PVCs : ResourceType := "persistentvolumeclaims"
/-- `resources.PVNamespace`: persistent volumes are not namespaced. -/
def PVNamespace : String := "default"

/-- `dbmanager.Table`, restricted to the two backend tables and the empty value. -/
inductive Table where
  | NFS
  | ISCSI
  | unset
deriving DecidableEq, Repr

/-! ## Errors -/

/-- `ErrDuplicateKey` of `mysql.go`. -/
def ErrDuplicateKey : Nat := 1062
/-- `deadlockErrNo` of `mysql.go`. -/
def deadlockErrNo : Nat := 1213

/-- A Go `error` value as the adapter distinguishes them: a `*mysql.MySQLError`
with its number, or an error built with `fmt.Errorf`. -/
inductive TxError where
  | mysql (number : Nat)
  | errorf (msg : String)
deriving DecidableEq, Repr

/-! ## SQL primitives -/

/-- One element of a `LIKE` pattern. -/
inductive LikeToken where
  /-- `%`: any run of characters, the empty one included. -/
  | anyRun
  /-- `_`: any one character. -/
  | anyChar
  /-- A character matched literally. -/
  | lit (c : Char)
deriving DecidableEq, Repr

/-- Read a `LIKE` pattern: a backslash makes the next character literal (a
backslash at the very end stands for itself), `%` and `_` are wildcards. -/
def likeTokens : List Char → List LikeToken
  | [] => []
  | c :: p =>
    if c = '\\' then
      match p with
      | [] => [.lit c]
      | e :: p' => .lit e :: likeTokens p'
    else if c = '%' then .anyRun :: likeTokens p
    else if c = '_' then .anyChar :: likeTokens p
    else .lit c :: likeTokens p

/-- Match a character list against a tokenised pattern. -/
def likeMatch : List LikeToken → List Char → Bool
  | [], s => s.isEmpty
  | .anyRun :: p, s => s.tails.any (fun t => likeMatch p t)
  | .anyChar :: p, s =>
    match s with
    | [] => false
    | _ :: s' => likeMatch p s'
  | .lit c :: p, s =>
    match s with
    | [] => false
    | d :: s' => d == c && likeMatch p s'

/-- `value LIKE pattern` for a non-NULL value. -/
def sqlLike (value pattern : String) : Bool :=
  likeMatch (likeTokens pattern.toList) value.toList

/-- `column LIKE pattern` in a WHERE clause: NULL never satisfies it. -/
def sqlLikeOpt (value : Option String) (pattern : String) : Bool :=
  match value with
  | none => false
  | some v => sqlLike v pattern

/-- A character that `LIKE` does not compare literally. -/
def isLikeMeta (c : Char) : Bool :=
  c = '%' || c = '_' || c = '\\'

/-- The string has no `LIKE` metacharacter, so as a pattern it stands for itself. -/
def noLikeMeta (s : String) : Bool :=
  s.toList.all (fun c => !isLikeMeta c)

/-- `x IS NULL OR x >= t`. -/
def nullOrGe (x : Option Time) (t : Time) : Bool :=
  match x with
  | none => true
  | some d => decide (t ≤ d)

/-- `x IS NULL OR x > t`. -/
def nullOrGt (x : Option Time) (t : Time) : Bool :=
  match x with
  | none => true
  | some d => decide (t < d)

/-- `x > t` in a WHERE clause: NULL never satisfies it. -/
def sqlGt (x : Option Time) (t : Time) : Bool :=
  match x with
  | none => false
  | some c => decide (t < c)

/-- The string has no backslash, the escape character of `LIKE`. -/
def noBackslash (s : String) : Bool :=
  s.toList.all (fun c => c != '\\')

/-- `SELECT MAX(x)`: NULL on the empty set. -/
def sqlMax : List Time → Option Time
  | [] => none
  | t :: ts =>
    match sqlMax ts with
    | none => some t
    | some m => some (if m ≤ t then t else m)

/-- `SELECT MIN(x)`: NULL on the empty set. -/
def sqlMin : List Time → Option Time
  | [] => none
  | t :: ts =>
    match sqlMin ts with
    | none => some t
    | some m => some (if t ≤ m then t else m)

/-- Primary key of `pod_mount`.
Modelled from the spec: the table definitions are not among the sources; the
data model keys a mount edge by (pod_uid, pvc_name, container_name). -/
def MountRow.key (m : MountRow) : String × String × String :=
  (m.pod_uid, m.pvc_name, m.container_name)

/-- Insert rows into `pod_mount` one after the other; a row whose key is
already present fails the whole statement with error 1062. -/
def insertMountRows : List MountRow → List MountRow → Except TxError (List MountRow)
  | [], table => .ok table
  | r :: rs, table =>
    if table.any (fun m => m.key = r.key) then .error (.mysql ErrDuplicateKey)
    else insertMountRows rs (table ++ [r])

/-! ## Prepared statements of `insert.go`

Each statement takes the placeholder arguments in the order of the `?` marks
and returns the tables after the statement and the number of affected rows. -/

/-- Result of executing a statement: the tables afterwards and the affected-row
count, or the error (tables untouched). -/
abbrev ExecResult := Except TxError (DB × Int)

/-- `INSERT INTO pod (uid, name, create_time, namespace, json) VALUES (?, ?, ?, ?, ?)`.
Modelled from the spec: `uid` is the key of table `pod`. -/
def insertStatements_Pod (uid name : String) (create_time : Time)
    (namespace_ json : String) (db : DB) : ExecResult :=
  if db.pod.any (fun p => p.uid = uid) then .error (.mysql ErrDuplicateKey)
  else .ok ({ db with pod := db.pod ++ [{ uid := uid, name := name, create_time := create_time,
                                          delete_time := none, namespace_ := namespace_,
                                          json := json }] }, 1)

/-- `INSERT INTO container (pod_uid, name, image, command) VALUES (?, ?, ?, ?)`.
Modelled from the spec: (pod_uid, name) is the key of table `container`. -/
def insertStatements_Container (pod_uid name image command : String) (db : DB) : ExecResult :=
  if db.container.any (fun c => c.pod_uid = pod_uid ∧ c.name = name) then
    .error (.mysql ErrDuplicateKey)
  else .ok ({ db with container := db.container ++ [{ pod_uid := pod_uid, name := name,
                                                      image := image, command := command }] }, 1)

/-- The inner query of the pod-mount statement:
`SELECT MAX(create_time) FROM pvc WHERE create_time <= ? and
(delete_time IS NULL OR delete_time >= ?) and name like ?`. -/
def maxCreateTimeBefore (pvc : List PVCRow) (t1 t2 : Time) (pat : String) : Option Time :=
  sqlMax (pvc.filterMap (fun r =>
    match r.create_time with
    | none => none
    | some c =>
      if c ≤ t1 ∧ nullOrGe r.delete_time t2 = true ∧ sqlLikeOpt r.name pat = true
      then some c else none))

/-- The inner query of the late-PVC statement:
`SELECT MIN(create_time) FROM pvc WHERE create_time >= ? AND
(delete_time IS NULL OR delete_time > ?) AND name LIKE ?`. -/
def minCreateTimeAfter (pvc : List PVCRow) (t1 t2 : Time) (pat : String) : Option Time :=
  sqlMin (pvc.filterMap (fun r =>
    match r.create_time with
    | none => none
    | some c =>
      if t1 ≤ c ∧ nullOrGt r.delete_time t2 = true ∧ sqlLikeOpt r.name pat = true
      then some c else none))

/-- The rows of `pvc` that the outer query of both matching statements reads:
`FROM pvc WHERE create_time = (inner) and name like ?`.
A NULL inner result selects nothing. -/
def selectPVCs (pvc : List PVCRow) (inner : Option Time) (pat : String) : List PVCRow :=
  match inner with
  | none => []
  | some t => pvc.filter (fun r => r.create_time = some t ∧ sqlLikeOpt r.name pat = true)

/-- The outer query shared by both matching statements:
`SELECT ?, uid, ?, ?, ? FROM pvc WHERE create_time = (inner) and name like ?`. -/
def selectMountRows (pvc : List PVCRow) (inner : Option Time) (pod_uid container_name
    pvc_name : String) (read_only : Bool) (pat : String) : List MountRow :=
  (selectPVCs pvc inner pat).map
    (fun r => { pod_uid := pod_uid, pvc_uid := some r.uid, container_name := container_name,
                pvc_name := pvc_name, read_only := read_only })

/-- Run `INSERT INTO pod_mount ... SELECT` for the selected rows. -/
def execInsertSelect (rows : List MountRow) (db : DB) : ExecResult :=
  match insertMountRows rows db.pod_mount with
  | .error e => .error e
  | .ok table => .ok ({ db with pod_mount := table }, rows.length)

/-- `insertStatements[dbmanager.PodMount]`:
`INSERT INTO pod_mount (pod_uid, pvc_uid, container_name, pvc_name, read_only)
SELECT ?, uid, ?, ?, ? FROM pvc WHERE create_time = (SELECT MAX(create_time) FROM pvc
WHERE create_time <= ? and (delete_time IS NULL OR delete_time >= ?) and name like ?)
and name like ?`. -/
def insertStatements_PodMount (pod_uid container_name pvc_name : String) (read_only : Bool)
    (t1 t2 : Time) (pat1 pat2 : String) (db : DB) : ExecResult :=
  execInsertSelect
    (selectMountRows db.pvc (maxCreateTimeBefore db.pvc t1 t2 pat1) pod_uid container_name
      pvc_name read_only pat2) db

/-- `latePVCPodMount`: the same statement with `MIN(create_time)`,
`create_time >= ?` and `delete_time > ?`. -/
def latePVCPodMount (pod_uid container_name pvc_name : String) (read_only : Bool)
    (t1 t2 : Time) (pat1 pat2 : String) (db : DB) : ExecResult :=
  execInsertSelect
    (selectMountRows db.pvc (minCreateTimeAfter db.pvc t1 t2 pat1) pod_uid container_name
      pvc_name read_only pat2) db

/-- `fallbackPodMount`:
`INSERT INTO pod_mount (pod_uid, container_name, pvc_name, read_only) VALUES (?, ?, ?, ?)`. -/
def fallbackPodMount (pod_uid container_name pvc_name : String) (read_only : Bool)
    (db : DB) : ExecResult :=
  execInsertSelect [{ pod_uid := pod_uid, pvc_uid := none, container_name := container_name,
                      pvc_name := pvc_name, read_only := read_only }] db

/-! ## Checkpoints (`resource_version.go`) -/

/-- Table `resource_version` after `INSERT ... VALUES (resource, namespace, rv)
ON DUPLICATE KEY UPDATE resource_version = rv2`.  The table keys on
(resource, namespace). -/
def upsertRVRows (table : List RVRow) (resource namespace_ rv rv2 : String) : List RVRow :=
  if table.any (fun r => r.resource = resource ∧ r.namespace_ = namespace_) then
    table.map (fun r =>
      if r.resource = resource ∧ r.namespace_ = namespace_
      then { r with resource_version := rv2 } else r)
  else
    table ++ [{ resource := resource, namespace_ := namespace_, resource_version := rv }]

/-- `updateRVQuery`: `INSERT INTO resource_version (resource, namespace, resource_version)
VALUES (?, ?, ?) ON DUPLICATE KEY UPDATE resource_version=?`.
An insert counts one row, an update that changes the row two, one that changes
nothing zero. -/
def updateRVQuery (resource namespace_ rv rv2 : String) (db : DB) : ExecResult :=
  .ok ({ db with resource_version :=
          upsertRVRows db.resource_version resource namespace_ rv rv2 },
       if db.resource_version.any (fun r => r.resource = resource ∧ r.namespace_ = namespace_)
       then
         (if db.resource_version.any (fun r => r.resource = resource ∧ r.namespace_ = namespace_
              ∧ r.resource_version ≠ rv2) then 2 else 0)
       else 1)

/-- `updateRV`: runs `updateRVQuery`; an unexpected row count is only logged. -/
def updateRV (tx : DB) (resource : ResourceType) (namespace_ rv : String) :
    DB × Option TxError :=
  match updateRVQuery resource namespace_ rv rv tx with
  | .error e => (tx, some (.errorf ("Unable to update " ++ resource ++ ": " ++ reprStr e)))
  | .ok (tx1, _) => (tx1, none)

/-- `GetRV`: `SELECT resource_version FROM resource_version WHERE resource LIKE ? AND
namespace LIKE ?`, first row; the empty string when no row is returned. -/
def GetRV (db : DB) (resource : ResourceType) (namespace_ : String) : String :=
  match db.resource_version.find? (fun r =>
      sqlLike r.resource resource && sqlLike r.namespace_ namespace_) with
  | none => ""
  | some r => r.resource_version

/-! ## Transactions (`mysql.go`) -/

/-- What a call of the adapter does to the process. -/
inductive Outcome where
  /-- The call returned; the store is as given. -/
  | returned (db : DB)
  /-- `log.Fatal` ended the process. -/
  | fatal (msg : String)
  /-- The retry loop of `runTx` was still running when the fuel ran out. -/
  | retrying
deriving DecidableEq, Repr

/-- The store a call left behind, when it returned. -/
def Outcome.store : Outcome → Option DB
  | .returned db => some db
  | _ => none

/-- Table `pod_mount` after a call that returned. -/
def Outcome.mounts (o : Outcome) : Option (List MountRow) :=
  o.store.map (fun db => db.pod_mount)

/-- Result of a transaction body: the working tables and the returned error, or
a `log.Fatal` inside the body. -/
inductive BodyResult where
  | done (tx : DB) (err : Option TxError)
  | fatal (msg : String)
deriving DecidableEq, Repr

/-- Result of `runTxActual`: the committed or rolled-back store with the error
it returns, or a `log.Fatal` inside the body. -/
inductive TxResult where
  | done (db : DB) (err : Option TxError)
  | fatal (msg : String)
deriving DecidableEq, Repr

/-- `runTxActual`: run the body in a transaction; commit when it returns nil,
roll back otherwise, and turn a duplicate-key error into nil. -/
def runTxActual (db : DB) (txFunc : DB → BodyResult) : TxResult :=
  match txFunc db with
  | .fatal msg => .fatal msg
  | .done tx none => .done tx none
  | .done _ (some e) =>
    if e = .mysql ErrDuplicateKey then .done db none
    else .done db (some e)

/-- `runTx`: call `runTxActual` until it succeeds.  The loop tests the named
result `err`, but the body assigns a fresh `err` declared with `:=`, so the
outer one stays nil: the loop ends only on success and the function returns
nil.  `fuel` bounds the number of attempts. -/
def runTx : Nat → DB → (DB → BodyResult) → Outcome
  | 0, _, _ => .retrying
  | fuel + 1, db, txFunc =>
    match runTxActual db txFunc with
    | .fatal msg => .fatal msg
    | .done db1 none => .returned db1
    | .done db1 (some _) => runTx fuel db1 txFunc

/-! ## `InsertPod` -/

/-- The three statements `insertPodMount` can execute. -/
inductive MountStmt where
  | podMount
  | latePVCPodMount
  | fallbackPodMount
deriving DecidableEq, Repr

/-- What one `insertPodMount` call leaves: the working tables, the returned
error and the statements it executed, in order. -/
structure MountResult where
  tx : DB
  err : Option TxError
  executed : List MountStmt
deriving DecidableEq, Repr

/-- `insertPodMount`: try the pre-existing match, then the late-PVC match, then
the fallback row. -/
def insertPodMount (tx : DB) (uid containerName : String) (pvcMount : VolumeMount)
    (createTime : Time) : MountResult :=
  match insertStatements_PodMount uid containerName pvcMount.Name pvcMount.ReadOnly
      createTime createTime pvcMount.Name pvcMount.Name tx with
  | .error e => ⟨tx, some e, [.podMount]⟩
  | .ok (tx1, rows) =>
    if rows > 1 then
      ⟨tx1, some (.errorf "Pod mount insert updated rows; this is not expected"), [.podMount]⟩
    else if rows = 1 then ⟨tx1, none, [.podMount]⟩
    else
      match latePVCPodMount uid containerName pvcMount.Name pvcMount.ReadOnly
          createTime createTime pvcMount.Name pvcMount.Name tx1 with
      | .error e => ⟨tx1, some e, [.podMount, .latePVCPodMount]⟩
      | .ok (tx2, rows) =>
        if rows > 1 then
          ⟨tx2, some (.errorf "Pod mount insert updated rows; this is not expected"),
            [.podMount, .latePVCPodMount]⟩
        else if rows = 1 then ⟨tx2, none, [.podMount, .latePVCPodMount]⟩
        else
          match fallbackPodMount uid containerName pvcMount.Name pvcMount.ReadOnly tx2 with
          | .error e =>
            ⟨tx2, some (.errorf ("Unable to insert partial record: " ++ reprStr e)),
              [.podMount, .latePVCPodMount, .fallbackPodMount]⟩
          | .ok (tx3, rows) =>
            if rows ≠ 1 then
              ⟨tx3, some (.errorf "Fallback pod mount affected unexpected number of rows"),
                [.podMount, .latePVCPodMount, .fallbackPodMount]⟩
            else ⟨tx3, none, [.podMount, .latePVCPodMount, .fallbackPodMount]⟩

/-- The inner loop of `InsertPod`: `for _, pvc := range container.PVCMounts`.
The error `insertPodMount` returns is dropped by the caller. -/
def insertPodMounts (tx : DB) (uid containerName : String) (createTime : Time) :
    List VolumeMount → DB
  | [] => tx
  | pvc :: rest =>
    insertPodMounts (insertPodMount tx uid containerName pvc createTime).tx uid containerName
      createTime rest

/-- The outer loop of `InsertPod`: `for _, container := range containers`. -/
def insertContainers (tx : DB) (uid : String) (createTime : Time) :
    List ContainerDesc → DB × Option TxError
  | [] => (tx, none)
  | container :: rest =>
    match insertStatements_Container uid container.Name container.Image container.Command tx with
    | .error e => (tx, some e)
    | .ok (tx1, _) =>
      insertContainers (insertPodMounts tx1 uid container.Name createTime container.PVCMounts)
        uid createTime rest

/-- The transaction body of `InsertPod`. -/
def InsertPod.txFunc (uid name : String) (createTime : Time) (namespace_ : String)
    (containers : List ContainerDesc) (json watcherNS rv : String) (tx : DB) : BodyResult :=
  match insertStatements_Pod uid name createTime namespace_ json tx with
  | .error e => .done tx (some e)
  | .ok (tx1, _) =>
    match insertContainers tx1 uid createTime containers with
    | (tx2, some e) => .done tx2 (some e)
    | (tx2, none) =>
      match updateRV tx2 Pods watcherNS rv with
      | (_, some _) => .fatal "Unable to update pod resource version"
      | (tx3, none) => .done tx3 none

/-- `InsertPod`. -/
def InsertPod (fuel : Nat) (db : DB) (uid name : String) (createTime : Time)
    (namespace_ : String) (containers : List ContainerDesc) (json watcherNS rv : String) :
    Outcome :=
  runTx fuel db (InsertPod.txFunc uid name createTime namespace_ containers json watcherNS rv)

/-! ## `InsertPVC` -/

/-- `GetAccessModeString`: the access modes joined with commas. -/
def GetAccessModeString (accessModes : List String) : String :=
  String.intercalate "," accessModes

/-- Number of rows an `UPDATE` changed: rows whose new value differs from the old. -/
def changedRows {α : Type} [DecidableEq α] (old new : List α) : Int :=
  ((old.zip new).filter (fun p => p.1 ≠ p.2)).length

/-- Table `pvc` after `insertStatements[dbmanager.PVC]`: a new row when the uid
is not stored, else the six named columns of the stored row overwritten. -/
def upsertPVCRows (table : List PVCRow) (uid name : String) (create_time : Time)
    (namespace_ : String) (storage : Int) (access_modes json : String)
    (name2 : String) (create_time2 : Time) (namespace2 : String) (storage2 : Int)
    (access_modes2 json2 : String) : List PVCRow :=
  if table.any (fun r => r.uid = uid) then
    table.map (fun r =>
      if r.uid = uid then
        { r with name := some name2, create_time := some create_time2,
                 namespace_ := some namespace2, storage := some storage2,
                 access_modes := some access_modes2, json := some json2 }
      else r)
  else
    table ++ [{ uid := uid, name := some name, create_time := some create_time,
                delete_time := none, bind_time := none, pv_uid := none,
                namespace_ := some namespace_, storage := some storage,
                access_modes := some access_modes, json := some json }]

/-- `insertStatements[dbmanager.PVC]`:
`INSERT INTO pvc (uid, name, create_time, namespace, storage, access_modes, json)
VALUES (?, ?, ?, ?, ?, ?, ?) ON DUPLICATE KEY UPDATE name=?, create_time = ?,
namespace = ?, storage = ?, access_modes = ?, json = ?`.
An insert counts one row, an update that changes the row two, one that changes
nothing zero. -/
def insertStatements_PVC (uid name : String) (create_time : Time) (namespace_ : String)
    (storage : Int) (access_modes json : String)
    (name2 : String) (create_time2 : Time) (namespace2 : String) (storage2 : Int)
    (access_modes2 json2 : String) (db : DB) : ExecResult :=
  let table := upsertPVCRows db.pvc uid name create_time namespace_ storage access_modes json
    name2 create_time2 namespace2 storage2 access_modes2 json2
  .ok ({ db with pvc := table },
       if db.pvc.any (fun r => r.uid = uid) then
         (if changedRows db.pvc table = 0 then 0 else 2)
       else 1)

/-- The WHERE clause of `addPVCPodMount`: `m.pvc_name LIKE ? and m.pod_uid = p.uid AND
p.delete_time IS NULL` for some row `p` of `pod`. -/
def isPromoted (pod : List PodRow) (pat : String) (m : MountRow) : Bool :=
  sqlLike m.pvc_name pat &&
    pod.any (fun p => decide (m.pod_uid = p.uid) && decide (p.delete_time = none))

/-- `addPVCPodMount`: `UPDATE pod_mount m, pod p SET m.pvc_uid = ? WHERE m.pvc_name LIKE ?
and m.pod_uid = p.uid AND p.delete_time IS NULL`. -/
def addPVCPodMount (pvc_uid pat : String) (db : DB) : ExecResult :=
  let table := db.pod_mount.map (fun m =>
    if isPromoted db.pod pat m then { m with pvc_uid := some pvc_uid } else m)
  .ok ({ db with pod_mount := table }, changedRows db.pod_mount table)

/-- The transaction body of `InsertPVC`.  The error built for an unexpected
row count of the insert is overwritten by the next assignment to `err`. -/
def InsertPVC.txFunc (uid name : String) (createTime : Time) (namespace_ : String)
    (storage : Int) (accessModes : List String) (json watcherNS rv : String) (tx : DB) :
    BodyResult :=
  let modeString := GetAccessModeString accessModes
  match insertStatements_PVC uid name createTime namespace_ storage modeString json
      name createTime namespace_ storage modeString json tx with
  | .error e => .done tx (some e)
  | .ok (tx1, _) =>
    match addPVCPodMount uid name tx1 with
    | .error e => .done tx1 (some (.errorf ("Unable to update PVC mount table: " ++ reprStr e)))
    | .ok (tx2, _) =>
      match updateRV tx2 PVCs watcherNS rv with
      | (tx3, err) => .done tx3 err

/-- `InsertPVC`. -/
def InsertPVC (fuel : Nat) (db : DB) (uid name : String) (createTime : Time)
    (namespace_ : String) (storage : Int) (accessModes : List String)
    (json watcherNS rv : String) : Outcome :=
  runTx fuel db (InsertPVC.txFunc uid name createTime namespace_ storage accessModes json
    watcherNS rv)

/-! ## `delete.go` -/

/-- `deleteStatements[dbmanager.Pod]`: `UPDATE pod SET delete_time=? WHERE uid=?`. -/
def deleteStatements_Pod (delete_time : Time) (uid : String) (db : DB) : ExecResult :=
  let table := db.pod.map (fun p =>
    if p.uid = uid then { p with delete_time := some delete_time } else p)
  .ok ({ db with pod := table }, changedRows db.pod table)

/-- `deleteStatements[dbmanager.PVC]`: `UPDATE pvc SET delete_time=? WHERE uid=?`. -/
def deleteStatements_PVC (delete_time : Time) (uid : String) (db : DB) : ExecResult :=
  let table := db.pvc.map (fun r =>
    if r.uid = uid then { r with delete_time := some delete_time } else r)
  .ok ({ db with pvc := table }, changedRows db.pvc table)

/-- `deleteStatements[dbmanager.PV]`: `UPDATE pv SET delete_time=? WHERE uid=?`. -/
def deleteStatements_PV (delete_time : Time) (uid : String) (db : DB) : ExecResult :=
  let table := db.pv.map (fun r =>
    if r.uid = uid then { r with delete_time := some delete_time } else r)
  .ok ({ db with pv := table }, changedRows db.pv table)

/-- The WHERE clause of `clearBadPodMount`:
`pod_uid = ? and pvc_uid IN (SELECT uid FROM pvc WHERE pvc.create_time > ?)`. -/
def isBadPodMount (pvc : List PVCRow) (pod_uid : String) (t : Time) (m : MountRow) : Bool :=
  decide (m.pod_uid = pod_uid) &&
    match m.pvc_uid with
    | none => false
    | some u => pvc.any (fun r => decide (r.uid = u) && sqlGt r.create_time t)

/-- `clearBadPodMount`: `DELETE FROM pod_mount WHERE pod_uid = ? and pvc_uid IN
(SELECT uid FROM pvc WHERE pvc.create_time > ?)`. -/
def clearBadPodMount (pod_uid : String) (t : Time) (db : DB) : ExecResult :=
  let table := db.pod_mount.filter (fun m => !isBadPodMount db.pvc pod_uid t m)
  .ok ({ db with pod_mount := table }, (db.pod_mount.length : Int) - table.length)

/-- The unprepared statement of `DeletePod`: `DELETE FROM pod_mount WHERE pod_uid = ?`. -/
def deleteAllPodMounts (pod_uid : String) (db : DB) : ExecResult :=
  let table := db.pod_mount.filter (fun m => m.pod_uid ≠ pod_uid)
  .ok ({ db with pod_mount := table }, (db.pod_mount.length : Int) - table.length)

/-- The transaction body of `DeletePod`. -/
def DeletePod.txFunc (uid : String) (deleteTime : Time) (watcher_ns rv : String) (tx : DB) :
    BodyResult :=
  match deleteStatements_Pod deleteTime uid tx with
  | .error e => .done tx (some (.errorf ("Basic delete failed: " ++ reprStr e)))
  | .ok (tx1, _) =>
    match clearBadPodMount uid deleteTime tx1 with
    | .error e => .done tx1 (some (.errorf ("Failed to clear bad pod mounts: " ++ reprStr e)))
    | .ok (tx2, rows) =>
      if rows > 0 then
        match deleteAllPodMounts uid tx2 with
        | .error e =>
          .done tx2 (some (.errorf ("Final clean of pod entries failed: " ++ reprStr e)))
        | .ok (tx3, _) =>
          match updateRV tx3 Pods watcher_ns rv with
          | (tx4, err) => .done tx4 err
      else
        match updateRV tx2 Pods watcher_ns rv with
        | (tx4, err) => .done tx4 err

/-- `DeletePod`. -/
def DeletePod (fuel : Nat) (db : DB) (uid : String) (deleteTime : Time)
    (watcher_ns rv : String) : Outcome :=
  runTx fuel db (DeletePod.txFunc uid deleteTime watcher_ns rv)

/-- The transaction body of `DeletePV`. -/
def DeletePV.txFunc (uid : String) (deleteTime : Time) (rv : String) (tx : DB) : BodyResult :=
  match deleteStatements_PV deleteTime uid tx with
  | .error e => .done tx (some e)
  | .ok (tx1, _) =>
    match updateRV tx1 PVs PVNamespace rv with
    | (tx2, err) => .done tx2 err

/-- `DeletePV`. -/
def DeletePV (fuel : Nat) (db : DB) (uid : String) (deleteTime : Time) (rv : String) :
    Outcome :=
  runTx fuel db (DeletePV.txFunc uid deleteTime rv)

/-- The transaction body of `DeletePVC`. -/
def DeletePVC.txFunc (uid : String) (deleteTime : Time) (watcher_ns rv : String) (tx : DB) :
    BodyResult :=
  match deleteStatements_PVC deleteTime uid tx with
  | .error e => .done tx (some e)
  | .ok (tx1, _) =>
    match updateRV tx1 PVCs watcher_ns rv with
    | (tx2, err) => .done tx2 err

/-- `DeletePVC`. -/
def DeletePVC (fuel : Nat) (db : DB) (uid : String) (deleteTime : Time)
    (watcher_ns rv : String) : Outcome :=
  runTx fuel db (DeletePVC.txFunc uid deleteTime watcher_ns rv)

/-! ## `bind.go` -/

/-- Table `pvc` after `bindStatements[dbmanager.PVC]`: a new row that has only
`uid`, `pv_uid` and `bind_time` when the uid is not stored (the columns the
insert does not name are NULL), else those two columns of the stored row
overwritten. -/
def bindPVCRows (table : List PVCRow) (uid pv_uid : String) (bind_time : Time)
    (pv_uid2 : String) (bind_time2 : Time) : List PVCRow :=
  if table.any (fun r => r.uid = uid) then
    table.map (fun r =>
      if r.uid = uid then { r with pv_uid := some pv_uid2, bind_time := some bind_time2 }
      else r)
  else
    table ++ [{ uid := uid, name := none, create_time := none, delete_time := none,
                bind_time := some bind_time, pv_uid := some pv_uid, namespace_ := none,
                storage := none, access_modes := none, json := none }]

/-- `bindStatements[dbmanager.PVC]`: `INSERT INTO pvc (uid, pv_uid, bind_time) VALUES (?, ?, ?)
ON DUPLICATE KEY UPDATE pv_uid = ?, bind_time = ?`.
An insert counts one row, an update that changes the row two, one that changes
nothing zero. -/
def bindStatements_PVC (uid pv_uid : String) (bind_time : Time) (pv_uid2 : String)
    (bind_time2 : Time) (db : DB) : ExecResult :=
  let table := bindPVCRows db.pvc uid pv_uid bind_time pv_uid2 bind_time2
  .ok ({ db with pvc := table },
       if db.pvc.any (fun r => r.uid = uid) then
         (if changedRows db.pvc table = 0 then 0 else 2)
       else 1)

/-- The transaction body of `BindPVC`. -/
def BindPVC.txFunc (pvUID pvcUID : String) (bindTime : Time) (rv : String) (tx : DB) :
    BodyResult :=
  match bindStatements_PVC pvcUID pvUID bindTime pvUID bindTime tx with
  | .error e => .done tx (some e)
  | .ok (tx1, rows) =>
    if rows < 1 ∨ rows > 2 then
      .done tx1 (some (.errorf "Bind affected unexpected number of rows"))
    else
      match updateRV tx1 PVs PVNamespace rv with
      | (tx2, err) => .done tx2 err

/-- `BindPVC`. -/
def BindPVC (fuel : Nat) (db : DB) (pvUID pvcUID : String) (bindTime : Time) (rv : String) :
    Outcome :=
  runTx fuel db (BindPVC.txFunc pvUID pvcUID bindTime rv)

/-! ## `InsertPV`, `update.go` -/

/-- `insertStatements[dbmanager.PV]`: `INSERT INTO pv (uid, name, create_time, storage,
access_modes, json, nfs_id, iscsi_id) VALUES (?, ?, ?, ?, ?, ?, ?, ?)`.
Modelled from the spec: `uid` is the key of table `pv`. -/
def insertStatements_PV (uid name : String) (create_time : Time) (storage : Int)
    (access_modes json : String) (nfs_id iscsi_id : Int) (db : DB) : ExecResult :=
  if db.pv.any (fun r => r.uid = uid) then .error (.mysql ErrDuplicateKey)
  else .ok ({ db with pv := db.pv ++ [{ uid := uid, name := name, create_time := create_time,
                                        delete_time := none, storage := storage,
                                        access_modes := access_modes, json := json,
                                        nfs_id := nfs_id, iscsi_id := iscsi_id }] }, 1)

/-- The transaction body of `InsertPV`. -/
def InsertPV.txFunc (uid name : String) (createTime : Time) (backendID : Int)
    (backendType : Table) (storage : Int) (accessModes : List String) (json rv : String)
    (tx : DB) : BodyResult :=
  match backendType with
  | .unset => .fatal "Unknown backend type"
  | _ =>
    let nfsID : Int := if backendType = .NFS then backendID else 0
    let iscsiID : Int := if backendType = .ISCSI then backendID else 0
    match insertStatements_PV uid name createTime storage (GetAccessModeString accessModes)
        json nfsID iscsiID tx with
    | .error e => .done tx (some e)
    | .ok (tx1, _) =>
      match updateRV tx1 PVs PVNamespace rv with
      | (tx2, err) => .done tx2 err

/-- `InsertPV`. -/
def InsertPV (fuel : Nat) (db : DB) (uid name : String) (createTime : Time) (backendID : Int)
    (backendType : Table) (storage : Int) (accessModes : List String) (json rv : String) :
    Outcome :=
  runTx fuel db (InsertPV.txFunc uid name createTime backendID backendType storage accessModes
    json rv)

/-- `updateStatements[dbmanager.PV]`: `UPDATE pv SET nfs_id = ?, iscsi_id = ?, storage = ?,
access_modes = ?, json = ? WHERE uid = ?`. -/
def updateStatements_PV (nfs_id iscsi_id storage : Int) (access_modes json uid : String)
    (db : DB) : ExecResult :=
  let table := db.pv.map (fun r =>
    if r.uid = uid then
      { r with nfs_id := nfs_id, iscsi_id := iscsi_id, storage := storage,
               access_modes := access_modes, json := json }
    else r)
  .ok ({ db with pv := table }, changedRows db.pv table)

/-- `updateStatements[dbmanager.PVC]`: `UPDATE pvc SET storage = ?, access_modes = ?,
json = ? WHERE uid = ?`. -/
def updateStatements_PVC (storage : Int) (access_modes json uid : String) (db : DB) :
    ExecResult :=
  let table := db.pvc.map (fun r =>
    if r.uid = uid then
      { r with storage := some storage, access_modes := some access_modes, json := some json }
    else r)
  .ok ({ db with pvc := table }, changedRows db.pvc table)

/-- The transaction body of `UpdatePV`. -/
def UpdatePV.txFunc (uid : String) (nfsID iscsiID storage : Int) (accessModes : List String)
    (json rv : String) (tx : DB) : BodyResult :=
  match updateStatements_PV nfsID iscsiID storage (GetAccessModeString accessModes) json uid
      tx with
  | .error e => .done tx (some e)
  | .ok (tx1, _) =>
    match updateRV tx1 PVs PVNamespace rv with
    | (tx2, err) => .done tx2 err

/-- `UpdatePV`: the backend switch runs before the transaction. -/
def UpdatePV (fuel : Nat) (db : DB) (uid : String) (backendID : Int) (backendType : Table)
    (storage : Int) (accessModes : List String) (json rv : String) : Outcome :=
  match backendType with
  | .unset => .fatal "Unrecognized backend type for update"
  | _ =>
    runTx fuel db (UpdatePV.txFunc uid (if backendType = .NFS then backendID else 0)
      (if backendType = .ISCSI then backendID else 0) storage accessModes json rv)

/-- The transaction body of `UpdatePVC`. -/
def UpdatePVC.txFunc (uid : String) (storage : Int) (accessModes : List String)
    (json watcherNS rv : String) (tx : DB) : BodyResult :=
  match updateStatements_PVC storage (GetAccessModeString accessModes) json uid tx with
  | .error e => .done tx (some e)
  | .ok (tx1, _) =>
    match updateRV tx1 PVCs watcherNS rv with
    | (tx2, err) => .done tx2 err

/-- `UpdatePVC`. -/
def UpdatePVC (fuel : Nat) (db : DB) (uid : String) (storage : Int)
    (accessModes : List String) (json watcherNS rv : String) : Outcome :=
  runTx fuel db (UpdatePVC.txFunc uid storage accessModes json watcherNS rv)

/-! ## Derived views of `InsertPod` used in the statements below -/

/-- The mounts a pod declares, as (container name, mount) pairs in the order
in which the two loops of `InsertPod` visit them. -/
def declaredMounts : List ContainerDesc → List (String × VolumeMount)
  | [] => []
  | c :: rest => c.PVCMounts.map (fun v => (c.Name, v)) ++ declaredMounts rest

/-- The first mount of claim `N` that container `C` declares. -/
def firstDeclared (containers : List ContainerDesc) (C N : String) : Option VolumeMount :=
  ((declaredMounts containers).find? (fun d => d.1 = C ∧ d.2.Name = N)).map (fun d => d.2)

/-- The row `insertPodMount` adds to `pod_mount` when the key of the mount is
still free: the single row of the pre-existing match, else the single row of
the late-PVC match, else the name-only row; nothing when a match selects
several rows (they share one key, so the insert fails). -/
def pickMount (pvc : List PVCRow) (uid C : String) (v : VolumeMount) (T : Time) :
    Option MountRow :=
  match selectMountRows pvc (maxCreateTimeBefore pvc T T v.Name) uid C v.Name v.ReadOnly
      v.Name with
  | [r] => some r
  | _ :: _ :: _ => none
  | [] =>
    match selectMountRows pvc (minCreateTimeAfter pvc T T v.Name) uid C v.Name v.ReadOnly
        v.Name with
    | [r] => some r
    | _ :: _ :: _ => none
    | [] => some { pod_uid := uid, pvc_uid := none, container_name := C, pvc_name := v.Name,
                   read_only := v.ReadOnly }

/-- The `pvc_uid` of the row `insertPodMount` adds for claim name `N` when the
key of the mount is free: `some (some u)` for a matched PVC, `some none` for
the name-only row, `none` when no row is added. -/
def pickUid (pvc : List PVCRow) (N : String) (T : Time) : Option (Option String) :=
  match selectPVCs pvc (maxCreateTimeBefore pvc T T N) N with
  | [q] => some (some q.uid)
  | _ :: _ :: _ => none
  | [] =>
    match selectPVCs pvc (minCreateTimeAfter pvc T T N) N with
    | [q] => some (some q.uid)
    | _ :: _ :: _ => none
    | [] => some none

/-- Effect of one `insertPodMount` call on table `pod_mount`. -/
def stepMount (pvc : List PVCRow) (uid : String) (T : Time) (M : List MountRow)
    (d : String × VolumeMount) : List MountRow :=
  if M.any (fun m => m.key = (uid, d.2.Name, d.1)) then M
  else
    match pickMount pvc uid d.1 d.2 T with
    | none => M
    | some r => M ++ [r]

/-- The filters of the pre-existing match in the words of the specification:
name equal to the claim name, `create_time ≤ T`, and `delete_time` NULL or `≥ T`. -/
def meetsPreexisting (q : PVCRow) (N : String) (T : Time) : Bool :=
  decide (q.name = some N) &&
    (match q.create_time with
     | none => false
     | some c => decide (c ≤ T)) &&
    nullOrGe q.delete_time T

/-- The filters of the future-claim match in the words of the specification:
name equal to the claim name, `create_time ≥ T`, and `delete_time` NULL or `> T`. -/
def meetsFuture (q : PVCRow) (N : String) (T : Time) : Bool :=
  decide (q.name = some N) &&
    (match q.create_time with
     | none => false
     | some c => decide (T ≤ c)) &&
    nullOrGt q.delete_time T

/-! ## Concrete stores used in the examples -/

/-- A `pvc` row as `InsertPVC` writes it, with the given `delete_time`. -/
def examplePVC (uid name : String) (create_time : Time) (delete_time : Option Time) : PVCRow :=
  { uid := uid, name := some name, create_time := some create_time,
    delete_time := delete_time, bind_time := none, pv_uid := none, namespace_ := some "ns",
    storage := some 200, access_modes := some "ReadWriteOnce", json := some "{}" }

/-- A container that mounts the given claims read-write. -/
def exampleContainer (name : String) (claims : List String) : ContainerDesc :=
  { Name := name, Image := "test-program", Command := "/bin/sh",
    PVCMounts := claims.map (fun n => { Name := n, ReadOnly := false }) }

/-- The store of `TestMatchPodMount`: claims named `foo` created at 0, 1 and 4
and two claims of other names created at 1 and 2. -/
def storeMatchPodMount : DB :=
  { DB.empty with
    pvc := [examplePVC "pvc-old" "foo" 0 none, examplePVC "pvc-current" "foo" 1 none,
            examplePVC "pvc-future" "foo" 4 none, examplePVC "pvc-concurrent" "foo-concurrent" 1 none,
            examplePVC "pvc-other" "foo-other" 2 none] }

/-- A store with a claim named `fo_` created at 1 and a claim named `foo` created at 2. -/
def storeWildcard : DB :=
  { DB.empty with pvc := [examplePVC "pvc-a" "fo_" 1 none, examplePVC "pvc-b" "foo" 2 none] }

/-- A store with two claims named `foo` created at 1, the second deleted at 2. -/
def storeTie : DB :=
  { DB.empty with pvc := [examplePVC "pvc-a" "foo" 1 none, examplePVC "pvc-b" "foo" 1 (some 2)] }

/-- A store that already holds the pod `pod-1` (without mounts) and a claim
named `foo` created at 1. -/
def storeReplay : DB :=
  { DB.empty with
    pod := [{ uid := "pod-1", name := "old-name", create_time := 3, delete_time := none,
              namespace_ := "ns", json := "{}" }],
    pvc := [examplePVC "pvc-a" "foo" 1 none],
    resource_version := [{ resource := "pods", namespace_ := "ns", resource_version := "7" }] }

/-- The store of `TestLatePVCMount`: a claim named `foo` created at 0 and
deleted at 1, and a claim named `foo` created at 3. -/
def storeLatePVC : DB :=
  { DB.empty with
    pvc := [examplePVC "pvc-old" "foo" 0 (some 1), examplePVC "pvc-current" "foo" 3 none] }

/-- A store with a claim named `foo` created at 1 and a claim named `fo_` created at 5. -/
def storeWildcardLate : DB :=
  { DB.empty with pvc := [examplePVC "pvc-b" "foo" 1 none, examplePVC "pvc-a" "fo_" 5 none] }

/-- A store with two live claims named `foo`, both created at 5. -/
def storeTieLate : DB :=
  { DB.empty with pvc := [examplePVC "pvc-a" "foo" 5 none, examplePVC "pvc-b" "foo" 5 none] }

/-- A store whose only claim is named `foo`, created at 1. -/
def storeOnlyFoo : DB :=
  { DB.empty with pvc := [examplePVC "pvc-b" "foo" 1 none] }

/-- A live pod `pod-1` whose container `c` has a mount row of claim name `\a`
without a `pvc_uid`. -/
def storeBackslash : DB :=
  { DB.empty with
    pod := [{ uid := "pod-1", name := "p", create_time := 2, delete_time := none,
              namespace_ := "ns", json := "{}" }],
    pod_mount := [{ pod_uid := "pod-1", pvc_uid := none, container_name := "c",
                    pvc_name := "\\a", read_only := false }] }

/-- A live pod `pod-1` and a deleted pod `pod-2`, each with a mount row of
claim name `foo` without a `pvc_uid`. -/
def storeLateClaim : DB :=
  { DB.empty with
    pod := [{ uid := "pod-1", name := "p", create_time := 2, delete_time := none,
              namespace_ := "ns", json := "{}" },
            { uid := "pod-2", name := "q", create_time := 2, delete_time := some 3,
              namespace_ := "ns", json := "{}" }],
    pod_mount := [{ pod_uid := "pod-1", pvc_uid := none, container_name := "c",
                    pvc_name := "foo", read_only := false },
                  { pod_uid := "pod-2", pvc_uid := none, container_name := "c",
                    pvc_name := "foo", read_only := false }] }

/-- The store of `TestFixPodMount` before the pod is deleted: pod `pod-1`
created at 0 mounts claim `foo`, matched with a PVC created at 2, and claim
`foo-other`, matched with a PVC created at 0. -/
def storeFixPodMount : DB :=
  { DB.empty with
    pod := [{ uid := "pod-1", name := "p", create_time := 0, delete_time := none,
              namespace_ := "ns", json := "{}" }],
    pvc := [examplePVC "pvc-other" "foo-other" 0 none, examplePVC "pvc-current" "foo" 2 none],
    pod_mount := [{ pod_uid := "pod-1", pvc_uid := some "pvc-current", container_name := "c",
                    pvc_name := "foo", read_only := false },
                  { pod_uid := "pod-1", pvc_uid := some "pvc-other", container_name := "c",
                    pvc_name := "foo-other", read_only := false }] }

/-- The store of `TestOutOfOrderBind` after the bind: the row of `pvc1` has only
its uid, `pv_uid` and `bind_time`. -/
def storeAfterBind : DB :=
  { DB.empty with
    pvc := [{ uid := "pvc1", name := none, create_time := none, delete_time := none,
              bind_time := some 7, pv_uid := some "pv1", namespace_ := none, storage := none,
              access_modes := none, json := none }],
    resource_version := [{ resource := "persistentvolumes", namespace_ := "default",
                           resource_version := "401" }] }

/-- The checkpoint of (`R`, `S`) reads `rv` in `db'`, and the checkpoint of every
other literal (resource type, scope) reads in `db'` as it did in `db`. -/
def checkpointMoved (db db' : DB) (R : ResourceType) (S rv : String) : Prop :=
  GetRV db' R S = rv ∧
    ∀ R' S', noLikeMeta R' = true → noLikeMeta S' = true → (R', S') ≠ (R, S) →
      GetRV db' R' S' = GetRV db R' S'

/-- A store with a pod checkpoint for scope `abc`. -/
def storeScopes : DB :=
  { DB.empty with
    resource_version := [{ resource := "pods", namespace_ := "abc", resource_version := "1" }] }

/-- The store of `TestFixPodMount` after `DeletePod("pod-1", 1, "ns", "9")`. -/
def storeAfterDeletePod : DB :=
  { storeFixPodMount with
    pod := [{ uid := "pod-1", name := "p", create_time := 0, delete_time := some 1,
              namespace_ := "ns", json := "{}" }],
    pod_mount := [],
    resource_version := [{ resource := "pods", namespace_ := "ns", resource_version := "9" }] }

/-- A store that already holds the pod `pod-1` and the volume `pv-1`. -/
def storeReplayPV : DB :=
  { storeReplay with
    pv := [{ uid := "pv-1", name := "old-volume", create_time := 1, delete_time := none,
             storage := 400, access_modes := "ReadWriteOnce", json := "{}", nfs_id := 1,
             iscsi_id := 0 }] }

/-! ## The reconciler loop of `Watcher.Watch` (`watcher.go`)

The goroutine started by `Watch` is modelled as a function from what its
channels deliver to the list of actions it performs.  The storage manager is an
interface in the source; here it is a state type `σ` with the two operations
the loop uses.  `R` is the type of decoded resources. -/

/-- `EventType` of `events.go`. -/
inductive EventType where
  | Added
  | Modified
  | Deleted
  | Error
deriving DecidableEq, Repr

/-- `StatusTooOld` of `events.go`. -/
def StatusTooOld : Int := 410

/-- A `WatchEvent` as the loop tells them apart. -/
inductive WatchEvent (R : Type) where
  /-- `Err == nil`: `JSONEvent` is a `ResourceEvent` with its type, resource and raw JSON. -/
  | resource (type : EventType) (r : R) (json : String)
  /-- `Err == io.EOF` and `JSONEvent == nil`: the stream ended. -/
  | eof
  /-- `Err == io.EOF` and `JSONEvent` is an `unversioned.Status` with this code. -/
  | status (code : Int)
  /-- Any other `Err`. -/
  | error (msg : String)
deriving DecidableEq, Repr

/-- What the `select` of the inner loop receives: an event from `eventChan` or
the stop signal. -/
inductive Input (R : Type) where
  | event (e : WatchEvent R)
  | stop
deriving DecidableEq, Repr

/-- What the goroutine does, as seen from outside. -/
inductive Action (R : Type) where
  /-- `w.client.Watch(resource, w.namespace, rv)`. -/
  | subscribe (resource : ResourceType) (namespace_ rv : String)
  /-- `close(done)`. -/
  | closeDone
  /-- `handler(e.GetType(), r, event.JSON)`. -/
  | handle (type : EventType) (r : R) (json : String)
  /-- The object was skipped as a duplicate. -/
  | skip (type : EventType) (r : R) (json : String)
  /-- `log.Fatal`. -/
  | fatal (msg : String)
deriving DecidableEq, Repr

/-- The parts of a `Watcher` and of its storage manager that the loop uses. -/
structure Watcher (σ R : Type) where
  /-- `w.namespace`. -/
  namespace_ : String
  /-- `w.dbm.GetRV`. -/
  GetRV : σ → ResourceType → String → String
  /-- The handler `getHandler` returned, as a change of the manager's state. -/
  handler : EventType → R → String → σ → σ
  /-- `r.GetRV()`. -/
  rvOf : R → String

/-- `Watcher.getRV`: the empty string when `initialize` (here `init`) is set, else the stored
checkpoint, read under `PVNamespace` for persistent volumes. -/
def Watcher.getRV {σ R : Type} (w : Watcher σ R) (s : σ) (resource : ResourceType)
    (init : Bool) : String :=
  if init then ""
  else w.GetRV s resource (if resource = PVs then PVNamespace else w.namespace_)

/-- How the inner loop of one subscription ended. -/
inductive StreamEnd where
  /-- `open = false`: the outer loop subscribes again. -/
  | reopen
  /-- The stop channel fired: the goroutine returned. -/
  | stopped
  /-- `log.Fatal`. -/
  | fatal
  /-- Nothing more was delivered: the `select` blocks. -/
  | blocked
deriving DecidableEq, Repr

/-- State of the goroutine after the inner loop: the manager's state, the
variable `initialize` (here `init`), the actions performed and how the loop ended. -/
structure StreamResult (σ R : Type) where
  state : σ
  init : Bool
  actions : List (Action R)
  ending : StreamEnd

/-- The inner loop `for open := true; open;` of one subscription opened with
resume token `rv`. -/
def Watcher.stream {σ R : Type} (w : Watcher σ R) (rv : String) :
    List (Input R) → σ → Bool → StreamResult σ R
  | [], s, init => ⟨s, init, [], .blocked⟩
  | .stop :: _, s, init => ⟨s, init, [.closeDone], .stopped⟩
  | .event .eof :: _, s, init => ⟨s, init, [.closeDone], .reopen⟩
  | .event (.status code) :: _, s, init =>
    ⟨s, if code = StatusTooOld then true else init, [.closeDone], .reopen⟩
  | .event (.error msg) :: _, s, init =>
    ⟨s, init, [.closeDone, .fatal msg], .fatal⟩
  | .event (.resource type r json) :: rest, s, init =>
    if w.rvOf r = rv then
      let res := w.stream rv rest s init
      { res with actions := .skip type r json :: res.actions }
    else
      let res := w.stream rv rest (w.handler type r json s) init
      { res with actions := .handle type r json :: res.actions }

/-- The outer loop `for { ... }` of the goroutine: one list of inputs per
subscription. -/
def Watcher.watchLoop {σ R : Type} (w : Watcher σ R) (resource : ResourceType) :
    List (List (Input R)) → σ → Bool → List (Action R)
  | [], _, _ => []
  | inputs :: rest, s, init =>
    let rv := w.getRV s resource init
    let res := w.stream rv inputs s init
    .subscribe resource w.namespace_ rv :: res.actions ++
      (match res.ending with
       | .reopen => w.watchLoop resource rest res.state res.init
       | _ => [])

/-- The inputs that deliver the given objects, in order. -/
def resourceInputs {R : Type} (objs : List (EventType × R × String)) : List (Input R) :=
  objs.map (fun o => .event (.resource o.1 o.2.1 o.2.2))

/-- What the loop does with an object under resume token `rv`: skip it when its
resource version equals the token, else hand it to the handler. -/
def decideObject {σ R : Type} (w : Watcher σ R) (rv : String) (o : EventType × R × String) :
    Action R :=
  if w.rvOf o.2.1 = rv then .skip o.1 o.2.1 o.2.2 else .handle o.1 o.2.1 o.2.2

/-- The manager's state after the objects were processed under resume token `rv`. -/
def afterObjects {σ R : Type} (w : Watcher σ R) (rv : String)
    (objs : List (EventType × R × String)) (s : σ) : σ :=
  objs.foldl (fun s o => if w.rvOf o.2.1 = rv then s else w.handler o.1 o.2.1 o.2.2 s) s

/-- A reconciler whose resources are bare resource versions and whose manager
state is the stored checkpoint: the handler stores the version it is given. -/
def exampleWatcher : Watcher String String :=
  { namespace_ := "ns", GetRV := fun s _ _ => s, handler := fun _ r _ _ => r,
    rvOf := fun r => r }

/-! ## Interning of volume sources (`existence.go`, `InsertNFS`, `InsertISCSI`) -/

/-- The loop of the server function `INET_ATON`: `result` collects the bytes
read so far (a 64-bit number), `byte` the decimal number being read, `dots` the
number of dots seen and `last` the last character read.  A character that is
neither a digit nor a dot, a number above 255 and a trailing dot give NULL; with
one or two dots the last number fills the low byte (`127.1` is `127.0.0.1`). -/
def inet_aton_loop : List Char → Nat → Nat → Nat → Char → Option Nat
  | [], result, byte, dots, last =>
    if last = '.' then none
    else
      let shifted :=
        if dots = 1 then (result * 65536) % 2 ^ 64
        else if dots = 2 then (result * 256) % 2 ^ 64
        else result
      some (((shifted * 256) % 2 ^ 64 + byte) % 2 ^ 64)
  | c :: cs, result, byte, dots, _ =>
    if c.isDigit then
      if byte * 10 + (c.toNat - 48) > 255 then none
      else inet_aton_loop cs result (byte * 10 + (c.toNat - 48)) dots c
    else if c = '.' then
      inet_aton_loop cs (((result * 256) % 2 ^ 64 + byte) % 2 ^ 64) 0 (dots + 1) c
    else none

/-- The server function `INET_ATON`: the number of a dotted address, NULL for a
string it does not understand (the empty string included). -/
def inet_aton (s : String) : Option Nat :=
  inet_aton_loop s.toList 0 0 0 '.'

/-- SQL `=` on a nullable number: true only when both sides are not NULL and equal. -/
def sqlEqNat (x y : Option Nat) : Bool :=
  match x, y with
  | some a, some b => decide (a = b)
  | _, _ => false

/-- The id an insert generates.
Modelled from the spec: the table definitions are not among the sources; the
data model calls the id of a volume source generated.  Here it is one more than
the greatest stored id, and 1 in an empty table. -/
def nextID (ids : List Int) : Int :=
  ids.foldl max 0 + 1

/-- The WHERE clause of `existenceQueries[dbmanager.NFS]`:
`ip_addr = inet_aton(?) and path like ?`. -/
def matchesNFS (ipaddr path : String) (r : NFSRow) : Bool :=
  sqlEqNat r.ip_addr (inet_aton ipaddr) && sqlLike r.path path

/-- The WHERE clause of `existenceQueries[dbmanager.ISCSI]`:
`target_portal LIKE ? AND iqn LIKE ? AND lun = ? AND fs_type LIKE ?`. -/
def matchesISCSI (targetPortal iqn : String) (lun : Int) (fsType : String) (r : ISCSIRow) :
    Bool :=
  sqlLike r.target_portal targetPortal && sqlLike r.iqn iqn && decide (r.lun = lun) &&
    sqlLike r.fs_type fsType

/-- `checkNFSExists`: `SELECT id FROM nfs WHERE ip_addr = inet_aton(?) and path like ?`,
read with `QueryRow`: the id of the first selected row, -1 when there is none. -/
def checkNFSExists (tx : DB) (ipaddr path : String) : Int :=
  match tx.nfs.find? (matchesNFS ipaddr path) with
  | none => -1
  | some r => r.id

/-- `checkISCSIExists`: `SELECT id FROM iscsi WHERE target_portal LIKE ? AND iqn LIKE ?
AND lun = ? AND fs_type LIKE ?`, read with `QueryRow`. -/
def checkISCSIExists (tx : DB) (targetPortal iqn : String) (lun : Int) (fsType : String) :
    Int :=
  match tx.iscsi.find? (matchesISCSI targetPortal iqn lun fsType) with
  | none => -1
  | some r => r.id

/-- `insertStatements[dbmanager.NFS]`: `INSERT INTO nfs (ip_addr, path) VALUES (inet_aton(?), ?)`.
Modelled from the spec: (ip_addr, path) is unique; as in SQL, rows whose
`ip_addr` is NULL never collide. -/
def insertStatements_NFS (ipAddr path : String) (db : DB) : ExecResult :=
  if db.nfs.any (fun r => sqlEqNat r.ip_addr (inet_aton ipAddr) && decide (r.path = path)) then
    .error (.mysql ErrDuplicateKey)
  else
    .ok ({ db with nfs := db.nfs ++ [{ id := nextID (db.nfs.map (fun r => r.id)),
                                       ip_addr := inet_aton ipAddr, path := path }] }, 1)

/-- `insertStatements[dbmanager.ISCSI]`: `INSERT INTO iscsi(target_portal, iqn, lun, fs_type)
VALUES(?, ?, ?, ?)`.
Modelled from the spec: the four columns together are unique. -/
def insertStatements_ISCSI (targetPortal iqn : String) (lun : Int) (fsType : String)
    (db : DB) : ExecResult :=
  if db.iscsi.any (fun r => decide (r.target_portal = targetPortal) && decide (r.iqn = iqn) &&
      decide (r.lun = lun) && decide (r.fs_type = fsType)) then
    .error (.mysql ErrDuplicateKey)
  else
    .ok ({ db with iscsi := db.iscsi ++ [{ id := nextID (db.iscsi.map (fun r => r.id)),
                                           target_portal := targetPortal, iqn := iqn,
                                           lun := lun, fs_type := fsType }] }, 1)

/-- `lastIDQuery` after an insert into `nfs`: `SELECT LAST_INSERT_ID()`, the id of
the row the transaction inserted last. -/
def lastIDQuery_NFS (tx : DB) : Int :=
  match tx.nfs.getLast? with
  | none => 0
  | some r => r.id

/-- `lastIDQuery` after an insert into `iscsi`. -/
def lastIDQuery_ISCSI (tx : DB) : Int :=
  match tx.iscsi.getLast? with
  | none => 0
  | some r => r.id

/-- `InsertNFS`: the store it commits and the id it returns.  It does not use
`runTx`.  When the insert fails the function returns -1; the error is held in a
variable declared by the `if` statement, so the deferred function sees no error
and commits the transaction, which has written nothing. -/
def InsertNFS (db : DB) (ipAddr path : String) : DB × Int :=
  let id := checkNFSExists db ipAddr path
  if id > 0 then (db, id)
  else
    match insertStatements_NFS ipAddr path db with
    | .error _ => (db, -1)
    | .ok (tx1, _) => (tx1, lastIDQuery_NFS tx1)

/-- The transaction body of `InsertISCSI`. -/
def InsertISCSI.txFunc (targetPortal iqn : String) (lun : Int) (fsType : String) (tx : DB) :
    BodyResult :=
  if checkISCSIExists tx targetPortal iqn lun fsType > 0 then .done tx none
  else
    match insertStatements_ISCSI targetPortal iqn lun fsType tx with
    | .error e => .done tx (some e)
    | .ok (tx1, _) => .done tx1 none

/-- The value the transaction body of `InsertISCSI` leaves in the captured
variable `iscsiID`: the id the existence check returned, replaced by the last
inserted id when the insert succeeded. -/
def InsertISCSI.iscsiID (targetPortal iqn : String) (lun : Int) (fsType : String) (tx : DB) :
    Int :=
  let id := checkISCSIExists tx targetPortal iqn lun fsType
  if id > 0 then id
  else
    match insertStatements_ISCSI targetPortal iqn lun fsType tx with
    | .error _ => id
    | .ok (tx1, _) => lastIDQuery_ISCSI tx1

/-- `InsertISCSI`: the outcome of `runTx` and the id returned.  The only error of
the body is the duplicate key of the insert, which `runTxActual` swallows, so the
body runs once and `iscsiID` is what that run left. -/
def InsertISCSI (fuel : Nat) (db : DB) (targetPortal iqn : String) (lun : Int)
    (fsType : String) : Outcome × Int :=
  (runTx fuel db (InsertISCSI.txFunc targetPortal iqn lun fsType),
   InsertISCSI.iscsiID targetPortal iqn lun fsType db)

/-- The ids of `nfs` are positive and no two rows share one (`id` is the
generated key of the table). -/
def nfsKeyed (db : DB) : Prop :=
  (∀ r ∈ db.nfs, 0 < r.id) ∧ (db.nfs.map (fun r => r.id)).Nodup

/-- The ids of `iscsi` are positive and no two rows share one. -/
def iscsiKeyed (db : DB) : Prop :=
  (∀ r ∈ db.iscsi, 0 < r.id) ∧ (db.iscsi.map (fun r => r.id)).Nodup

instance (db : DB) : Decidable (nfsKeyed db) := by
  unfold nfsKeyed; infer_instance

instance (db : DB) : Decidable (iscsiKeyed db) := by
  unfold iscsiKeyed; infer_instance

/-! ## The mock manager (`dbmanager/mock/mock.go`) -/

/-- `nfsID`: the key of `nfsIDMap`. -/
structure nfsID where
  ipAddr : String
  path : String
deriving DecidableEq, Repr

/-- `iscsiID`: the key of `iscsiIDMap`. -/
structure iscsiID where
  targetPortal : String
  iqn : String
  lun : Int
  fsType : String
deriving DecidableEq, Repr

/-- Reading a Go map held as a list of entries: `v, ok := m[k]`. -/
def mapLookup {κ ν : Type} [DecidableEq κ] (m : List (κ × ν)) (k : κ) : Option ν :=
  (m.find? (fun e => e.1 = k)).map (fun e => e.2)

/-- Writing a Go map: `m[k] = v` replaces the entry of `k`. -/
def mapAssign {κ ν : Type} [DecidableEq κ] (m : List (κ × ν)) (k : κ) (v : ν) : List (κ × ν) :=
  (k, v) :: m.filter (fun e => e.1 ≠ k)

/-- `x++` on a Go `int` (64 bits, wrapping). -/
def incInt64 (x : Int) : Int :=
  if x + 1 < 2 ^ 63 then x + 1 else -(2 ^ 63)

/-- `PVAttrs` of the mock. -/
structure PVAttrs where
  Name : String
  CreateTime : Time
  NFSID : Int
  ISCSIID : Int
  UID : String
  Storage : Int
deriving DecidableEq, Repr

/-- `PodAttrs` of the mock. -/
structure PodAttrs where
  Name : String
  CreateTime : Time
  Namespace : String
  UID : String
  Containers : List ContainerDesc
deriving DecidableEq, Repr

/-- `PVCAttrs` of the mock. -/
structure PVCAttrs where
  Name : String
  CreateTime : Time
  Namespace : String
  UID : String
  Storage : Int
deriving DecidableEq, Repr

/-- `MockManager`: the maps and counters that intern volume sources, the two
scalar fields and the maps of pods, volumes and claims. -/
structure MockManager where
  nfsIDMap : List (nfsID × Int)
  iscsiIDMap : List (iscsiID × Int)
  lastNFSID : Int
  lastISCSIID : Int
  Deletions : Int := 0
  invalidRVs : Bool := false
  PVForUID : List (String × PVAttrs) := []
  PodForUID : List (String × PodAttrs) := []
  PVCForUID : List (String × PVCAttrs) := []
deriving DecidableEq, Repr

/-- `mock.New`. -/
def MockManager.New (invalidRVs : Bool) : MockManager :=
  { nfsIDMap := [], iscsiIDMap := [], lastNFSID := 0, lastISCSIID := 0, Deletions := 0,
    invalidRVs := invalidRVs }

/-- `MockManager.InsertNFS`: the id stored for the pair, else the next counter
value, which is stored for the pair. -/
def MockManager.InsertNFS (m : MockManager) (ipAddr path : String) : MockManager × Int :=
  match mapLookup m.nfsIDMap ⟨ipAddr, path⟩ with
  | some id => (m, id)
  | none =>
    ({ m with lastNFSID := incInt64 m.lastNFSID,
              nfsIDMap := mapAssign m.nfsIDMap ⟨ipAddr, path⟩ (incInt64 m.lastNFSID) },
     incInt64 m.lastNFSID)

/-- `MockManager.InsertISCSI`. -/
def MockManager.InsertISCSI (m : MockManager) (targetPortal iqn : String) (lun : Int)
    (fsType : String) : MockManager × Int :=
  match mapLookup m.iscsiIDMap ⟨targetPortal, iqn, lun, fsType⟩ with
  | some id => (m, id)
  | none =>
    ({ m with lastISCSIID := incInt64 m.lastISCSIID,
              iscsiIDMap := mapAssign m.iscsiIDMap ⟨targetPortal, iqn, lun, fsType⟩
                (incInt64 m.lastISCSIID) },
     incInt64 m.lastISCSIID)

/-- What every mock manager made by `New` and used through its methods
satisfies: no id is stored for two keys and every stored id is at most the
counter of its map. -/
def MockManager.consistent (m : MockManager) : Prop :=
  ((m.nfsIDMap.map (fun e => e.2)).Nodup ∧ ∀ e ∈ m.nfsIDMap, e.2 ≤ m.lastNFSID) ∧
  ((m.iscsiIDMap.map (fun e => e.2)).Nodup ∧ ∀ e ∈ m.iscsiIDMap, e.2 ≤ m.lastISCSIID)

instance (m : MockManager) : Decidable m.consistent := by
  unfold MockManager.consistent; infer_instance

/-! ## The event handlers of `watcher.go`

A handler is modelled by the calls it makes on the storage manager, in order.
The current time (`unversioned.Now()`) is a parameter.  `handlePVs`, the one
handler that makes more than one call, runs on a manager: it takes the id an
interning call returns from it and goes on after a call only when the call
returned. -/

/-- The fields of `api.Volume` that `handlePods` reads: the name, and the claim
name of the `PersistentVolumeClaim` source when the volume has one. -/
structure api.Volume where
  Name : String
  PersistentVolumeClaim : Option String
deriving DecidableEq, Repr

/-- The fields of `api.VolumeMount` that `handlePods` reads. -/
structure api.VolumeMount where
  Name : String
  ReadOnly : Bool
deriving DecidableEq, Repr

/-- The fields of `api.Container` that `handlePods` reads. -/
structure api.Container where
  Name : String
  Image : String
  Command : List String
  VolumeMounts : List api.VolumeMount
deriving DecidableEq, Repr

/-- `resources.PodResource`: the fields of `api.Pod` the watcher reads.
`DeletionTimestamp` is a pointer in the source. -/
structure PodResource where
  UID : String
  Name : String
  CreationTimestamp : Time
  Namespace : String
  ResourceVersion : String
  DeletionTimestamp : Option Time
  Volumes : List api.Volume
  Containers : List api.Container
deriving DecidableEq, Repr

/-- `api.NFSVolumeSource`. -/
structure api.NFSVolumeSource where
  Server : String
  Path : String
deriving DecidableEq, Repr

/-- `api.ISCSIVolumeSource`. -/
structure api.ISCSIVolumeSource where
  TargetPortal : String
  IQN : String
  Lun : Int
  FSType : String
deriving DecidableEq, Repr

/-- `api.VolumeBound`. -/
def api.VolumeBound : String := "Bound"

/-- `api.VolumeAvailable`. -/
def api.VolumeAvailable : String := "Available"

/-- `api.ClaimPending`. -/
def api.ClaimPending : String := "Pending"

/-- `resources.PVResource`: the fields of `api.PersistentVolume` the watcher
reads.  `Capacity` is the value of the storage quantity, `ClaimRef` the uid of
the referenced claim. -/
structure PVResource where
  UID : String
  Name : String
  CreationTimestamp : Time
  ResourceVersion : String
  DeletionTimestamp : Option Time
  NFS : Option api.NFSVolumeSource
  ISCSI : Option api.ISCSIVolumeSource
  Capacity : Int
  AccessModes : List String
  ClaimRef : Option String
  Phase : String
deriving DecidableEq, Repr

/-- `resources.PVCResource`: the fields of `api.PersistentVolumeClaim` the
watcher reads.  `Requests` is the value of the requested storage quantity. -/
structure PVCResource where
  UID : String
  Name : String
  CreationTimestamp : Time
  Namespace : String
  ResourceVersion : String
  DeletionTimestamp : Option Time
  Requests : Int
  AccessModes : List String
  Phase : String
deriving DecidableEq, Repr

/-- A call on the `DBManager` interface with its arguments. -/
inductive PortCall where
  | InsertPod (uid name : String) (createTime : Time) (namespace_ : String)
      (containers : List ContainerDesc) (json watcherNS rv : String)
  | InsertPV (uid name : String) (createTime : Time) (backendID : Int) (backendType : Table)
      (storage : Int) (accessModes : List String) (json rv : String)
  | InsertPVC (uid name : String) (createTime : Time) (namespace_ : String) (storage : Int)
      (accessModes : List String) (json watcherNS rv : String)
  | InsertNFS (ipAddr path : String)
  | InsertISCSI (targetPortal iqn : String) (lun : Int) (fsType : String)
  | BindPVC (pvUID pvcUID : String) (bindTime : Time) (rv : String)
  | DeletePod (uid : String) (deleteTime : Time) (watcherNS rv : String)
  | DeletePV (uid : String) (deleteTime : Time) (rv : String)
  | DeletePVC (uid : String) (deleteTime : Time) (watcherNS rv : String)
  | UpdatePV (uid : String) (backendID : Int) (backendType : Table) (storage : Int)
      (accessModes : List String) (json rv : String)
  | UpdatePVC (uid : String) (storage : Int) (accessModes : List String)
      (json watcherNS rv : String)
deriving DecidableEq, Repr

/-- What a handler did: the calls it made on the manager, in order, each but
the last of which returned; or the calls it made before the goroutine panicked
in the handler itself. -/
inductive HandlerResult where
  | calls (made : List PortCall)
  | panic (made : List PortCall) (msg : String)
deriving DecidableEq, Repr

/-- How a call on a manager ends for the caller: it returns, leaving the manager
in a new state and giving back a value (the id for the two interning calls, 0
for the other operations, which return nothing), or it does not return: the
process ended in `log.Fatal` or a panic, or the call is still running. -/
inductive PortResult (σ : Type) where
  | returned (s : σ) (value : Int)
  | ended (msg : String)

/-- An implementation of the interface `dbmanager.DBManager` with state `σ`. -/
structure DBManager (σ : Type) where
  call : PortCall → σ → PortResult σ

/-- `GetCommandString`: the words joined with spaces. -/
def GetCommandString (command : List String) : String :=
  " ".intercalate command

/-- The map `pvcNames` of `handlePods`: volume name to claim name, for the
volumes that have a `PersistentVolumeClaim` source; a later volume of the same
name replaces an earlier one. -/
def pvcNames (volumes : List api.Volume) : String → Option String :=
  volumes.foldl
    (fun m vol =>
      match vol.PersistentVolumeClaim with
      | some claimName => fun n => if n = vol.Name then some claimName else m n
      | none => m)
    (fun _ => none)

/-- The `containers` slice `handlePods` builds for `InsertPod`. -/
def podContainers (p : PodResource) : List ContainerDesc :=
  p.Containers.map (fun container =>
    { Name := container.Name, Image := container.Image,
      Command := GetCommandString container.Command,
      PVCMounts := container.VolumeMounts.filterMap (fun mount =>
        (pvcNames p.Volumes mount.Name).map (fun pvcName =>
          { Name := pvcName, ReadOnly := mount.ReadOnly })) })

/-- `handlePods` of a watcher with namespace `namespace_`.  The `Deleted` branch
dereferences `p.DeletionTimestamp` without testing it for nil. -/
def handlePods (namespace_ : String) (eventType : EventType) (p : PodResource)
    (json : String) : HandlerResult :=
  match eventType with
  | .Added =>
    .calls [.InsertPod p.UID p.Name p.CreationTimestamp p.Namespace (podContainers p) json
      namespace_ p.ResourceVersion]
  | .Modified => .calls []
  | .Error => .calls []
  | .Deleted =>
    match p.DeletionTimestamp with
    | none => .panic [] "invalid memory address or nil pointer dereference"
    | some t => .calls [.DeletePod p.UID t namespace_ p.ResourceVersion]

/-- The interning step of `handlePVs` on the manager `dbm` in state `s`: the
call made and, when it returned, the state of the manager, `backendID` and
`backend`.  Without an NFS or iSCSI source no call is made and both variables
keep their zero values. -/
def internBackend {σ : Type} (dbm : DBManager σ) (p : PVResource) (s : σ) :
    List PortCall × Option (σ × Int × Table) :=
  match p.NFS, p.ISCSI with
  | some nfs, _ =>
    match dbm.call (.InsertNFS nfs.Server nfs.Path) s with
    | .returned s1 id => ([.InsertNFS nfs.Server nfs.Path], some (s1, id, .NFS))
    | .ended _ => ([.InsertNFS nfs.Server nfs.Path], none)
  | none, some iscsi =>
    match dbm.call (.InsertISCSI iscsi.TargetPortal iscsi.IQN iscsi.Lun iscsi.FSType) s with
    | .returned s1 id =>
      ([.InsertISCSI iscsi.TargetPortal iscsi.IQN iscsi.Lun iscsi.FSType], some (s1, id, .ISCSI))
    | .ended _ => ([.InsertISCSI iscsi.TargetPortal iscsi.IQN iscsi.Lun iscsi.FSType], none)
  | none, none => ([], some (s, 0, .unset))

/-- The `InsertPV` call of the ADDED branch of `handlePVs`. -/
def insertPVCall (p : PVResource) (backendID : Int) (backend : Table) (json : String) :
    PortCall :=
  .InsertPV p.UID p.Name p.CreationTimestamp backendID backend p.Capacity p.AccessModes json
    p.ResourceVersion

/-- The `UpdatePV` call of the MODIFIED branch of `handlePVs`. -/
def updatePVCall (p : PVResource) (backendID : Int) (backend : Table) (json : String) :
    PortCall :=
  .UpdatePV p.UID backendID backend p.Capacity p.AccessModes json p.ResourceVersion

/-- The last step of the ADDED branch of `handlePVs`:
`if p.Spec.ClaimRef != nil { w.dbm.BindPVC(p.UID, p.Spec.ClaimRef.UID, unversioned.Now(), ...) }`. -/
def bindCalls (now : Time) (p : PVResource) : List PortCall :=
  match p.ClaimRef with
  | some claimUID => [.BindPVC p.UID claimUID now p.ResourceVersion]
  | none => []

/-- `handlePVs` on the manager `dbm` in state `s`; `now` is the value of
`unversioned.Now()`.  A statement after a call runs only when the call
returned. -/
def handlePVs {σ : Type} (dbm : DBManager σ) (now : Time) (eventType : EventType)
    (p : PVResource) (json : String) (s : σ) : HandlerResult :=
  match eventType with
  | .Added =>
    match internBackend dbm p s with
    | (made, none) => .calls made
    | (made, some (s1, backendID, backend)) =>
      match dbm.call (insertPVCall p backendID backend json) s1 with
      | .ended _ => .calls (made ++ [insertPVCall p backendID backend json])
      | .returned _ _ =>
        .calls (made ++ [insertPVCall p backendID backend json] ++ bindCalls now p)
  | .Modified =>
    if p.Phase = api.VolumeBound then
      match p.ClaimRef with
      | none => .panic [] "ClaimRef is null when volume is bound; this is unexpected"
      | some claimUID => .calls [.BindPVC p.UID claimUID now p.ResourceVersion]
    else if p.Phase = api.VolumeAvailable then
      match internBackend dbm p s with
      | (made, none) => .calls made
      | (made, some (_, backendID, backend)) =>
        .calls (made ++ [updatePVCall p backendID backend json])
    else .calls []
  | .Error => .calls []
  | .Deleted =>
    match p.DeletionTimestamp with
    | some t => .calls [.DeletePV p.UID t p.ResourceVersion]
    | none => .calls [.DeletePV p.UID now p.ResourceVersion]

/-- `handlePVCs` of a watcher with namespace `namespace_`. -/
def handlePVCs (namespace_ : String) (now : Time) (eventType : EventType) (p : PVCResource)
    (json : String) : HandlerResult :=
  match eventType with
  | .Added =>
    .calls [.InsertPVC p.UID p.Name p.CreationTimestamp p.Namespace p.Requests p.AccessModes
      json namespace_ p.ResourceVersion]
  | .Modified =>
    if p.Phase = api.ClaimPending then
      .calls [.UpdatePVC p.UID p.Requests p.AccessModes json namespace_ p.ResourceVersion]
    else .calls []
  | .Error => .calls []
  | .Deleted =>
    match p.DeletionTimestamp with
    | some t => .calls [.DeletePVC p.UID t namespace_ p.ResourceVersion]
    | none => .calls [.DeletePVC p.UID now namespace_ p.ResourceVersion]

/-! ## Volumes in the mock manager -/

/-- How a call on the mock manager ends. -/
inductive MockResult where
  | returned (m : MockManager)
  /-- `log.Fatal`. -/
  | fatal (msg : String)
  /-- A run-time panic. -/
  | panic (msg : String)
deriving DecidableEq, Repr

/-- `MockManager.InsertPV`. -/
def MockManager.InsertPV (m : MockManager) (uid name : String) (createTime : Time)
    (backendID : Int) (backendType : Table) (storage : Int) (_accessModes : List String)
    (_json _rv : String) : MockResult :=
  match backendType with
  | .NFS =>
    let pv : PVAttrs :=
      { Name := name, CreateTime := createTime, NFSID := backendID, ISCSIID := 0, UID := uid,
        Storage := storage }
    .returned { m with PVForUID := mapAssign m.PVForUID uid pv }
  | .ISCSI =>
    let pv : PVAttrs :=
      { Name := name, CreateTime := createTime, NFSID := 0, ISCSIID := backendID, UID := uid,
        Storage := storage }
    .returned { m with PVForUID := mapAssign m.PVForUID uid pv }
  | .unset => .fatal "Unrecognized backend type when inserting PV"

/-- `MockManager.UpdatePV`: the type assertion on a missing entry panics. -/
def MockManager.UpdatePV (m : MockManager) (uid : String) (backendID : Int)
    (backendType : Table) (storage : Int) (_accessModes : List String) (_json _rv : String) :
    MockResult :=
  match backendType with
  | .unset => .fatal "Unrecognized backend type when inserting PV"
  | _ =>
    match mapLookup m.PVForUID uid with
    | none => .panic "interface conversion: interface is nil, not *mock.PVAttrs"
    | some old =>
      let pv : PVAttrs :=
        { old with NFSID := if backendType = .NFS then backendID else 0,
                   ISCSIID := if backendType = .ISCSI then backendID else 0,
                   Storage := storage }
      .returned { m with PVForUID := mapAssign m.PVForUID uid pv }

/-! ## Starting and stopping watches (`Watch`, `Stop`, `Destroy` of `watcher.go`) -/

/-- The handler `getHandler` returns. -/
inductive HandlerKind where
  | handlePods
  | handlePVs
  | handlePVCs
deriving DecidableEq, Repr

/-- `getHandler`. -/
def getHandler (resource : ResourceType) : Except String HandlerKind :=
  if resource = Pods then .ok .handlePods
  else if resource = PVs then .ok .handlePVs
  else if resource = PVCs then .ok .handlePVCs
  else .error ("Unable to handle resource type " ++ resource ++ "\n")

/-- A channel, named by the number of channels made before it. -/
abbrev Chan := Nat

/-- Removing a key from a Go map: `delete(m, k)`. -/
def mapDelete {κ ν : Type} [DecidableEq κ] (m : List (κ × ν)) (k : κ) : List (κ × ν) :=
  m.filter (fun e => e.1 ≠ k)

/-- The part of a `Watcher` that `Watch`, `Stop` and `Destroy` work on: the map
`stopChannels`, the number of channels made, the channels closed so far, the
goroutines started (resource, `initialize`, stop channel) and the number of
`dbm.Destroy()` calls. -/
structure WatcherState where
  stopChannels : List (ResourceType × Chan)
  made : Nat
  closed : List Chan
  goroutines : List (ResourceType × Bool × Chan)
  destroyed : Nat
deriving DecidableEq, Repr

/-- The state `NewWatcher` returns: an empty map. -/
def NewWatcher : WatcherState :=
  { stopChannels := [], made := 0, closed := [], goroutines := [], destroyed := 0 }

/-- How a call on the watcher ends: it returns, with an error or nil, or it
panics. -/
inductive CallResult where
  | returned (w : WatcherState) (err : Option String)
  | panic (msg : String)
deriving DecidableEq, Repr

/-- `Watch` up to the start of the goroutine: the stop channel is made and
stored before the handler is looked up. -/
def WatcherState.Watch (w : WatcherState) (resource : ResourceType) (init : Bool) :
    CallResult :=
  match mapLookup w.stopChannels resource with
  | some _ => .returned w none
  | none =>
    let stop : Chan := w.made
    let w1 := { w with made := w.made + 1,
                       stopChannels := mapAssign w.stopChannels resource stop }
    match getHandler resource with
    | .error e => .returned w1 (some e)
    | .ok _ => .returned { w1 with goroutines := w1.goroutines ++ [(resource, init, stop)] } none

/-- `Stop`: closing a channel that is already closed panics. -/
def WatcherState.Stop (w : WatcherState) (resource : ResourceType) : CallResult :=
  match mapLookup w.stopChannels resource with
  | none => .returned w (some ("Attempted to stop nonexistent watch on resource " ++ resource))
  | some ch =>
    if ch ∈ w.closed then .panic "close of closed channel"
    else
      .returned { w with closed := ch :: w.closed,
                         stopChannels := mapDelete w.stopChannels resource } none

/-- The loop of `Destroy`: close the channels one after the other; `none` when
one of them is already closed. -/
def closeAll : List Chan → List Chan → Option (List Chan)
  | [], closed => some closed
  | ch :: rest, closed => if ch ∈ closed then none else closeAll rest (ch :: closed)

/-- `Destroy`: closes every channel of the map, in the order of the list (the
order of a map range is not specified), and leaves the map as it is. -/
def WatcherState.Destroy (w : WatcherState) : CallResult :=
  match closeAll (w.stopChannels.map (fun e => e.2)) w.closed with
  | none => .panic "close of closed channel"
  | some closed => .returned { w with closed := closed, destroyed := w.destroyed + 1 } none

/-- A call on a watcher. -/
inductive WatcherCall where
  | Watch (resource : ResourceType) (init : Bool)
  | Stop (resource : ResourceType)
  | Destroy
deriving DecidableEq, Repr

/-- One call. -/
def WatcherState.call (w : WatcherState) : WatcherCall → CallResult
  | .Watch resource init => w.Watch resource init
  | .Stop resource => w.Stop resource
  | .Destroy => w.Destroy

/-- A sequence of calls on one watcher; the errors the calls return are
dropped, a panic ends the sequence. -/
def WatcherState.run : List WatcherCall → WatcherState → CallResult
  | [], w => .returned w none
  | c :: rest, w =>
    match w.call c with
    | .panic msg => .panic msg
    | .returned w1 _ => WatcherState.run rest w1

/-- What holds of a watcher as long as `Destroy` has not been called: every
channel of the map was made by `Watch` and is open, no channel is stored for two
resources, and every closed channel was made by `Watch`. -/
def WatcherState.wf (w : WatcherState) : Prop :=
  (∀ e ∈ w.stopChannels, e.2 < w.made ∧ e.2 ∉ w.closed) ∧
  (w.stopChannels.map (fun e => e.2)).Nodup ∧
  (∀ c ∈ w.closed, c < w.made)

/-! ## The two managers behind the interface -/

/-- `MockManager.InsertPod`. -/
def MockManager.InsertPod (m : MockManager) (uid name : String) (createTime : Time)
    (namespace_ : String) (containers : List ContainerDesc) (_json _watcherNS _rv : String) :
    MockResult :=
  let pod : PodAttrs :=
    { Name := name, CreateTime := createTime, Namespace := namespace_, UID := uid,
      Containers := containers }
  .returned { m with PodForUID := mapAssign m.PodForUID uid pod }

/-- `MockManager.InsertPVC`. -/
def MockManager.InsertPVC (m : MockManager) (uid name : String) (createTime : Time)
    (namespace_ : String) (storage : Int) (_accessModes : List String)
    (_json _watcherNS _rv : String) : MockResult :=
  let pvc : PVCAttrs :=
    { Name := name, CreateTime := createTime, Namespace := namespace_, UID := uid,
      Storage := storage }
  .returned { m with PVCForUID := mapAssign m.PVCForUID uid pvc }

/-- `MockManager.BindPVC`: returns at once. -/
def MockManager.BindPVC (m : MockManager) (_pvUID _pvcUID : String) (_bindTime : Time)
    (_rv : String) : MockResult :=
  .returned m

/-- `MockManager.DeletePod`. -/
def MockManager.DeletePod (m : MockManager) (uid : String) (_deleteTime : Time)
    (_watcherNS _rv : String) : MockResult :=
  .returned { m with PodForUID := mapDelete m.PodForUID uid, Deletions := incInt64 m.Deletions }

/-- `MockManager.DeletePV`. -/
def MockManager.DeletePV (m : MockManager) (uid : String) (_deleteTime : Time)
    (_rv : String) : MockResult :=
  .returned { m with PVForUID := mapDelete m.PVForUID uid, Deletions := incInt64 m.Deletions }

/-- `MockManager.DeletePVC`. -/
def MockManager.DeletePVC (m : MockManager) (uid : String) (_deleteTime : Time)
    (_watcherNS _rv : String) : MockResult :=
  .returned { m with PVCForUID := mapDelete m.PVCForUID uid, Deletions := incInt64 m.Deletions }

/-- `MockManager.UpdatePVC`: the type assertion on a missing entry panics. -/
def MockManager.UpdatePVC (m : MockManager) (uid : String) (storage : Int)
    (_accessModes : List String) (_json _watcherNS _rv : String) : MockResult :=
  match mapLookup m.PVCForUID uid with
  | none => .panic "interface conversion: interface is nil, not *mock.PVCAttrs"
  | some old =>
    let pvc : PVCAttrs := { old with Storage := storage }
    .returned { m with PVCForUID := mapAssign m.PVCForUID uid pvc }

/-- A call of the MySQL adapter as its caller sees it; while `runTx` is still
retrying the call has not returned. -/
def Outcome.toPortResult : Outcome → PortResult DB
  | .returned db => .returned db 0
  | .fatal msg => .ended msg
  | .retrying => .ended "runTx is still retrying"

/-- A call of the mock manager as its caller sees it. -/
def MockResult.toPortResult : MockResult → PortResult MockManager
  | .returned m => .returned m 0
  | .fatal msg => .ended msg
  | .panic msg => .ended msg

/-- The MySQL adapter behind the interface; `fuel` bounds the attempts of
`runTx` in each call. -/
def mysqlManager (fuel : Nat) : DBManager DB :=
  { call := fun c db =>
      match c with
      | .InsertPod uid name createTime namespace_ containers json watcherNS rv =>
        (InsertPod fuel db uid name createTime namespace_ containers json watcherNS
          rv).toPortResult
      | .InsertPV uid name createTime backendID backendType storage accessModes json rv =>
        (InsertPV fuel db uid name createTime backendID backendType storage accessModes json
          rv).toPortResult
      | .InsertPVC uid name createTime namespace_ storage accessModes json watcherNS rv =>
        (InsertPVC fuel db uid name createTime namespace_ storage accessModes json watcherNS
          rv).toPortResult
      | .InsertNFS ipAddr path =>
        .returned (InsertNFS db ipAddr path).1 (InsertNFS db ipAddr path).2
      | .InsertISCSI targetPortal iqn lun fsType =>
        match (InsertISCSI fuel db targetPortal iqn lun fsType).1 with
        | .returned db1 => .returned db1 (InsertISCSI fuel db targetPortal iqn lun fsType).2
        | .fatal msg => .ended msg
        | .retrying => .ended "runTx is still retrying"
      | .BindPVC pvUID pvcUID bindTime rv =>
        (BindPVC fuel db pvUID pvcUID bindTime rv).toPortResult
      | .DeletePod uid deleteTime watcherNS rv =>
        (DeletePod fuel db uid deleteTime watcherNS rv).toPortResult
      | .DeletePV uid deleteTime rv => (DeletePV fuel db uid deleteTime rv).toPortResult
      | .DeletePVC uid deleteTime watcherNS rv =>
        (DeletePVC fuel db uid deleteTime watcherNS rv).toPortResult
      | .UpdatePV uid backendID backendType storage accessModes json rv =>
        (UpdatePV fuel db uid backendID backendType storage accessModes json rv).toPortResult
      | .UpdatePVC uid storage accessModes json watcherNS rv =>
        (UpdatePVC fuel db uid storage accessModes json watcherNS rv).toPortResult }

/-- The mock manager behind the interface. -/
def mockManager : DBManager MockManager :=
  { call := fun c m =>
      match c with
      | .InsertPod uid name createTime namespace_ containers json watcherNS rv =>
        (m.InsertPod uid name createTime namespace_ containers json watcherNS rv).toPortResult
      | .InsertPV uid name createTime backendID backendType storage accessModes json rv =>
        (m.InsertPV uid name createTime backendID backendType storage accessModes json
          rv).toPortResult
      | .InsertPVC uid name createTime namespace_ storage accessModes json watcherNS rv =>
        (m.InsertPVC uid name createTime namespace_ storage accessModes json watcherNS
          rv).toPortResult
      | .InsertNFS ipAddr path => .returned (m.InsertNFS ipAddr path).1 (m.InsertNFS ipAddr path).2
      | .InsertISCSI targetPortal iqn lun fsType =>
        .returned (m.InsertISCSI targetPortal iqn lun fsType).1
          (m.InsertISCSI targetPortal iqn lun fsType).2
      | .BindPVC pvUID pvcUID bindTime rv => (m.BindPVC pvUID pvcUID bindTime rv).toPortResult
      | .DeletePod uid deleteTime watcherNS rv =>
        (m.DeletePod uid deleteTime watcherNS rv).toPortResult
      | .DeletePV uid deleteTime rv => (m.DeletePV uid deleteTime rv).toPortResult
      | .DeletePVC uid deleteTime watcherNS rv =>
        (m.DeletePVC uid deleteTime watcherNS rv).toPortResult
      | .UpdatePV uid backendID backendType storage accessModes json rv =>
        (m.UpdatePV uid backendID backendType storage accessModes json rv).toPortResult
      | .UpdatePVC uid storage accessModes json watcherNS rv =>
        (m.UpdatePVC uid storage accessModes json watcherNS rv).toPortResult }

/-! ## Further example stores -/

/-- Two live claims named `foo`, one in namespace `ns-a` and one in `ns-b`, both
created at 1. -/
def storeTwoNamespaces : DB :=
  { DB.empty with
    pvc := [{ examplePVC "pvc-a" "foo" 1 none with namespace_ := some "ns-a" },
            { examplePVC "pvc-b" "foo" 1 none with namespace_ := some "ns-b" }] }

/-- A store that holds the NFS export `/exports/b` of 10.0.0.1 and one iSCSI
target. -/
def storeBackends : DB :=
  { DB.empty with
    nfs := [{ id := 1, ip_addr := some 167772161, path := "/exports/b" }],
    iscsi := [{ id := 1, target_portal := "10.0.0.2:3260", iqn := "iqn.2016-01.com.example:disk",
                lun := 0, fs_type := "ext4" }] }

/-- Run the next call on the store the previous call left; a call that did not
return ends the sequence. -/
def Outcome.next (o : Outcome) (f : DB → Outcome) : Outcome :=
  match o with
  | .returned db => f db
  | .fatal msg => .fatal msg
  | .retrying => .retrying

/-- The store after a claim named `foo` was created at 0 and deleted at 1 and
the pod `pod-1`, whose container `c` mounts `foo`, was created at 2: the mount
has the fallback row without a `pvc_uid`. -/
def storeStub : DB :=
  { DB.empty with
    pod := [{ uid := "pod-1", name := "p", create_time := 2, delete_time := none,
              namespace_ := "ns", json := "{}" }],
    pvc := [examplePVC "pvc-old" "foo" 0 (some 1)],
    container := [{ pod_uid := "pod-1", name := "c", image := "test-program",
                    command := "/bin/sh" }],
    pod_mount := [{ pod_uid := "pod-1", pvc_uid := none, container_name := "c",
                    pvc_name := "foo", read_only := false }],
    resource_version := [{ resource := "persistentvolumeclaims", namespace_ := "ns",
                           resource_version := "2" },
                         { resource := "pods", namespace_ := "ns", resource_version := "3" }] }

/-- A live pod `pod-1` whose container `c` has a mount row of claim name `a\b`
that is resolved to the claim `pvc-old`. -/
def storeResolvedBackslash : DB :=
  { DB.empty with
    pod := [{ uid := "pod-1", name := "p", create_time := 2, delete_time := none,
              namespace_ := "ns", json := "{}" }],
    pod_mount := [{ pod_uid := "pod-1", pvc_uid := some "pvc-old", container_name := "c",
                    pvc_name := "a\\b", read_only := false }] }

/-- An NFS-backed volume that is bound to the claim `pvc-1`. -/
def examplePV : PVResource :=
  { UID := "pv-1", Name := "preexisting-nfs", CreationTimestamp := 1, ResourceVersion := "42",
    DeletionTimestamp := none, NFS := some { Server := "10.0.0.1", Path := "/exports/a" },
    ISCSI := none, Capacity := 1048576, AccessModes := ["ReadWriteOnce"],
    ClaimRef := some "pvc-1", Phase := "Bound" }

/-- A pod with a claim-backed volume `data`, a volume `scratch` without claim
source, and two containers: the first mounts both volumes, the second mounts
`data` read-only. -/
def examplePod : PodResource :=
  { UID := "pod-1", Name := "p", CreationTimestamp := 3, Namespace := "ns",
    ResourceVersion := "17", DeletionTimestamp := none,
    Volumes := [{ Name := "data", PersistentVolumeClaim := some "foo" },
                { Name := "scratch", PersistentVolumeClaim := none }],
    Containers := [{ Name := "c1", Image := "img", Command := ["/bin/sh", "-c"],
                     VolumeMounts := [{ Name := "scratch", ReadOnly := false },
                                      { Name := "data", ReadOnly := false }] },
                   { Name := "c2", Image := "img", Command := [],
                     VolumeMounts := [{ Name := "data", ReadOnly := true }] }] }

/-- The stored checkpoint of (`R`, `S`) in the words of the specification: the
resource version of the row keyed (`R`, `S`), the empty string when there is
none. -/
def storedCheckpoint (db : DB) (R : ResourceType) (S : String) : String :=
  match db.resource_version.find? (fun r => decide (r.resource = R ∧ r.namespace_ = S)) with
  | none => ""
  | some r => r.resource_version

/-- A watcher on the MySQL adapter with the given namespace, as far as `getRV`
uses it: the manager state is the store and `GetRV` is the query of the
adapter.  Resources are bare resource versions and the handler is not used. -/
def mysqlWatcher (namespace_ : String) : Watcher DB String :=
  { namespace_ := namespace_, GetRV := GetRV, handler := fun _ _ _ db => db,
    rvOf := fun r => r }

/-! ## `LIKE` with a literal pattern -/

theorem likeMatch_literal (p : List Char) (hp : ∀ c ∈ p, isLikeMeta c = false) (s : List Char) :
    likeMatch (likeTokens p) s = true ↔ s = p := by
  induction p generalizing s with
  | nil =>
    cases s <;> simp [likeTokens, likeMatch]
  | cons c p ih =>
    have hc : isLikeMeta c = false := hp c (List.mem_cons_self _ _)
    have hp' : ∀ d ∈ p, isLikeMeta d = false := fun d hd => hp d (List.mem_cons_of_mem _ hd)
    simp only [isLikeMeta, Bool.or_eq_false_iff, decide_eq_false_iff_not] at hc
    obtain ⟨⟨h1, h2⟩, h3⟩ := hc
    have ht : likeTokens (c :: p) = .lit c :: likeTokens p := by
      cases p <;> simp [likeTokens, h1, h2, h3]
    rw [ht]
    cases s with
    | nil => simp [likeMatch]
    | cons d s' =>
      simp only [likeMatch, Bool.and_eq_true, beq_iff_eq, ih hp' s', List.cons.injEq]

theorem sqlLike_literal (pattern : String) (h : noLikeMeta pattern = true) (value : String) :
    sqlLike value pattern = true ↔ value = pattern := by
  unfold sqlLike
  rw [likeMatch_literal]
  · constructor
    · intro h'
      exact String.ext h'
    · intro h'
      rw [h']
  · intro c hc
    unfold noLikeMeta at h
    rw [List.all_eq_true] at h
    simpa using h c hc

theorem sqlLikeOpt_literal (pattern : String) (h : noLikeMeta pattern = true)
    (value : Option String) : sqlLikeOpt value pattern = true ↔ value = some pattern := by
  cases value with
  | none => simp [sqlLikeOpt]
  | some v => simp [sqlLikeOpt, sqlLike_literal pattern h]

/-! ## One `insertPodMount` call -/

theorem selectMountRows_key (pvc : List PVCRow) (inner : Option Time) (uid C N : String)
    (ro : Bool) (pat : String) (r : MountRow)
    (hr : r ∈ selectMountRows pvc inner uid C N ro pat) : r.key = (uid, N, C) := by
  unfold selectMountRows at hr
  simp only [List.mem_map] at hr
  obtain ⟨q, _, rfl⟩ := hr
  rfl

theorem insertMountRows_single (r : MountRow) (M : List MountRow) :
    insertMountRows [r] M =
      if M.any (fun m => m.key = r.key) then .error (.mysql ErrDuplicateKey)
      else .ok (M ++ [r]) := by
  simp [insertMountRows]

theorem insertMountRows_two (r1 r2 : MountRow) (rs M : List MountRow) (h : r1.key = r2.key) :
    insertMountRows (r1 :: r2 :: rs) M = .error (.mysql ErrDuplicateKey) := by
  simp [insertMountRows, h]

theorem execInsertSelect_nil (db : DB) : execInsertSelect [] db = .ok (db, 0) := by
  simp [execInsertSelect, insertMountRows]

theorem execInsertSelect_single (r : MountRow) (db : DB) :
    execInsertSelect [r] db =
      if db.pod_mount.any (fun m => m.key = r.key) then .error (.mysql ErrDuplicateKey)
      else .ok ({ db with pod_mount := db.pod_mount ++ [r] }, 1) := by
  simp only [execInsertSelect, insertMountRows_single]
  by_cases hany : (db.pod_mount.any fun m => decide (m.key = r.key)) = true
  · simp only [hany, if_true]
  · simp only [hany, if_false]
    rfl

theorem execInsertSelect_two (r1 r2 : MountRow) (rs : List MountRow) (db : DB)
    (h : r1.key = r2.key) :
    execInsertSelect (r1 :: r2 :: rs) db = .error (.mysql ErrDuplicateKey) := by
  simp only [execInsertSelect, insertMountRows_two r1 r2 rs db.pod_mount h]

theorem insertPodMount_fst (tx : DB) (uid C : String) (v : VolumeMount) (T : Time) :
    (insertPodMount tx uid C v T).tx =
      { tx with pod_mount := stepMount tx.pvc uid T tx.pod_mount (C, v) } := by
  have hK1 := fun r hr =>
    selectMountRows_key tx.pvc (maxCreateTimeBefore tx.pvc T T v.Name) uid C v.Name v.ReadOnly
      v.Name r hr
  have hK2 := fun r hr =>
    selectMountRows_key tx.pvc (minCreateTimeAfter tx.pvc T T v.Name) uid C v.Name v.ReadOnly
      v.Name r hr
  unfold insertPodMount insertStatements_PodMount latePVCPodMount fallbackPodMount
  unfold stepMount pickMount
  generalize selectMountRows tx.pvc (maxCreateTimeBefore tx.pvc T T v.Name) uid C v.Name
    v.ReadOnly v.Name = L1 at hK1 ⊢
  have hf : ({ pod_uid := uid, pvc_uid := none, container_name := C, pvc_name := v.Name,
               read_only := v.ReadOnly } : MountRow).key = (uid, v.Name, C) := rfl
  match L1, hK1 with
  | [], _ =>
    simp only [execInsertSelect_nil]
    generalize selectMountRows tx.pvc (minCreateTimeAfter tx.pvc T T v.Name) uid C v.Name
      v.ReadOnly v.Name = L2 at hK2 ⊢
    match L2, hK2 with
    | [], _ =>
      by_cases hany : (tx.pod_mount.any fun m => decide (m.key = (uid, v.Name, C))) = true <;>
        simp [execInsertSelect_nil, execInsertSelect_single, hf, hany]
    | [r], hK2 =>
      have h2 : r.key = (uid, v.Name, C) := hK2 r (by simp)
      by_cases hany : (tx.pod_mount.any fun m => decide (m.key = (uid, v.Name, C))) = true <;>
        simp [execInsertSelect_single, hany, h2]
    | r1 :: r2 :: rs, hK2 =>
      have h1 : r1.key = (uid, v.Name, C) := hK2 r1 (by simp)
      have h2 : r2.key = (uid, v.Name, C) := hK2 r2 (by simp)
      by_cases hany : (tx.pod_mount.any fun m => decide (m.key = (uid, v.Name, C))) = true <;>
        simp [execInsertSelect_two r1 r2 rs tx (h1.trans h2.symm), hany]
  | [r], hK1 =>
    have h2 : r.key = (uid, v.Name, C) := hK1 r (by simp)
    by_cases hany : (tx.pod_mount.any fun m => decide (m.key = (uid, v.Name, C))) = true <;>
      simp [execInsertSelect_single, hany, h2]
  | r1 :: r2 :: rs, hK1 =>
    have h1 : r1.key = (uid, v.Name, C) := hK1 r1 (by simp)
    have h2 : r2.key = (uid, v.Name, C) := hK1 r2 (by simp)
    by_cases hany : (tx.pod_mount.any fun m => decide (m.key = (uid, v.Name, C))) = true <;>
      simp [execInsertSelect_two r1 r2 rs tx (h1.trans h2.symm), hany]

theorem insertPodMounts_eq (tx : DB) (uid C : String) (T : Time) (vs : List VolumeMount) :
    insertPodMounts tx uid C T vs =
      { tx with pod_mount :=
          (vs.map (fun v => (C, v))).foldl (stepMount tx.pvc uid T) tx.pod_mount } := by
  induction vs generalizing tx with
  | nil => rfl
  | cons v vs ih =>
    simp only [insertPodMounts, insertPodMount_fst, ih, List.map_cons, List.foldl_cons]

/-- With free container keys the outer loop of `InsertPod` runs to its end:
it appends one container row per container and folds `stepMount` over the
declared mounts. -/
theorem insertContainers_eq (uid : String) (T : Time) (cs : List ContainerDesc) (tx : DB)
    (hfresh : ∀ r ∈ tx.container, r.pod_uid = uid → r.name ∉ cs.map (fun c => c.Name))
    (hnodup : (cs.map (fun c => c.Name)).Nodup) :
    insertContainers tx uid T cs =
      ({ tx with
          container := tx.container ++ cs.map (fun c =>
            { pod_uid := uid, name := c.Name, image := c.Image, command := c.Command }),
          pod_mount := (declaredMounts cs).foldl (stepMount tx.pvc uid T) tx.pod_mount },
        none) := by
  induction cs generalizing tx with
  | nil => simp [insertContainers, declaredMounts]
  | cons c cs ih =>
    have hfree : (tx.container.any fun r => decide (r.pod_uid = uid ∧ r.name = c.Name)) = false := by
      rw [List.any_eq_false]
      intro r hr
      simp only [decide_eq_true_eq, not_and]
      intro hu hn
      exact hfresh r hr hu (by simp [hn])
    rw [List.map_cons, List.nodup_cons] at hnodup
    simp only [insertContainers, insertStatements_Container, hfree, insertPodMounts_eq,
      Bool.false_eq_true, if_false]
    rw [ih]
    · simp [declaredMounts, List.foldl_append]
    · intro r hr hu
      simp only [List.mem_append, List.mem_singleton] at hr
      rcases hr with hr | hr
      · intro hmem
        exact hfresh r hr hu (by simp only [List.map_cons]; exact List.mem_cons_of_mem _ hmem)
      · subst hr
        exact hnodup.1
    · exact hnodup.2

/-! ## Checkpoint update -/

theorem updateRV_eq (tx : DB) (resource : ResourceType) (ns rv : String) :
    updateRV tx resource ns rv =
      ({ tx with resource_version := upsertRVRows tx.resource_version resource ns rv rv },
        none) := rfl

/-! ## `runTx` -/

theorem runTx_of_done (fuel : Nat) (db db1 : DB) (txFunc : DB → BodyResult)
    (h : txFunc db = .done db1 none) : runTx (fuel + 1) db txFunc = .returned db1 := by
  simp [runTx, runTxActual, h]

/-- A body that fails with a duplicate key is rolled back and the call returns. -/
theorem runTx_of_duplicate (fuel : Nat) (db db1 : DB) (txFunc : DB → BodyResult)
    (h : txFunc db = .done db1 (some (.mysql ErrDuplicateKey))) :
    runTx (fuel + 1) db txFunc = .returned db := by
  simp [runTx, runTxActual, h]

/-! ## `InsertPod` as a whole -/

/-- The store `InsertPod` commits when its keys are free. -/
theorem InsertPod_txFunc_eq (db : DB) (uid name : String) (T : Time)
    (ns : String) (cs : List ContainerDesc) (json watcherNS rv : String)
    (hpod : ∀ p ∈ db.pod, p.uid ≠ uid)
    (hcont : ∀ r ∈ db.container, r.pod_uid ≠ uid)
    (hnodup : (cs.map (fun c => c.Name)).Nodup) :
    ∃ db', InsertPod.txFunc uid name T ns cs json watcherNS rv db = .done db' none ∧
      db'.pod_mount = (declaredMounts cs).foldl (stepMount db.pvc uid T) db.pod_mount ∧
      db'.pvc = db.pvc ∧
      db'.resource_version = upsertRVRows db.resource_version Pods watcherNS rv rv := by
  have hfree : (db.pod.any fun p => decide (p.uid = uid)) = false := by
    rw [List.any_eq_false]
    intro p hp
    simpa using hpod p hp
  unfold InsertPod.txFunc insertStatements_Pod
  simp only [hfree, Bool.false_eq_true, if_false]
  rw [insertContainers_eq uid T cs
    { db with pod := db.pod ++ [{ uid := uid, name := name, create_time := T,
                                  delete_time := none, namespace_ := ns, json := json }] }
    (fun r hr hu => absurd hu (hcont r hr)) hnodup]
  simp only []
  rw [updateRV_eq]
  exact ⟨_, rfl, rfl, rfl, rfl⟩

/-- When the pod uid has no pod row and no container row yet and the container
names of the pod are pairwise distinct, the transaction of `InsertPod` commits
at the first attempt. -/
theorem InsertPod_returns (fuel : Nat) (db : DB) (uid name : String) (T : Time)
    (ns : String) (cs : List ContainerDesc) (json watcherNS rv : String)
    (hpod : ∀ p ∈ db.pod, p.uid ≠ uid)
    (hcont : ∀ r ∈ db.container, r.pod_uid ≠ uid)
    (hnodup : (cs.map (fun c => c.Name)).Nodup) :
    ∃ db', InsertPod (fuel + 1) db uid name T ns cs json watcherNS rv = .returned db' ∧
      db'.pod_mount = (declaredMounts cs).foldl (stepMount db.pvc uid T) db.pod_mount ∧
      db'.pvc = db.pvc ∧
      db'.resource_version = upsertRVRows db.resource_version Pods watcherNS rv rv := by
  obtain ⟨db', h, hrest⟩ :=
    InsertPod_txFunc_eq db uid name T ns cs json watcherNS rv hpod hcont hnodup
  exact ⟨db', runTx_of_done fuel db db' _ h, hrest⟩

/-! ## The fold of `stepMount` over the declared mounts -/

theorem pickMount_eq (pvc : List PVCRow) (uid C : String) (v : VolumeMount) (T : Time) :
    pickMount pvc uid C v T =
      (pickUid pvc v.Name T).map (fun u =>
        { pod_uid := uid, pvc_uid := u, container_name := C, pvc_name := v.Name,
          read_only := v.ReadOnly }) := by
  unfold pickMount pickUid selectMountRows
  generalize selectPVCs pvc (maxCreateTimeBefore pvc T T v.Name) v.Name = L1
  generalize selectPVCs pvc (minCreateTimeAfter pvc T T v.Name) v.Name = L2
  match L1 with
  | [] =>
    match L2 with
    | [] => rfl
    | [q] => rfl
    | _ :: _ :: _ => rfl
  | [q] => rfl
  | _ :: _ :: _ => rfl

theorem stepMount_eq (pvc : List PVCRow) (uid : String) (T : Time) (M : List MountRow)
    (d : String × VolumeMount) :
    stepMount pvc uid T M d =
      if M.any (fun m => m.key = (uid, d.2.Name, d.1)) then M
      else
        match pickUid pvc d.2.Name T with
        | none => M
        | some u => M ++ [{ pod_uid := uid, pvc_uid := u, container_name := d.1,
                            pvc_name := d.2.Name, read_only := d.2.ReadOnly }] := by
  unfold stepMount
  rw [pickMount_eq]
  cases pickUid pvc d.2.Name T <;> rfl

theorem filter_key_eq_nil (M : List MountRow) (K : String × String × String)
    (hM : M.any (fun m => m.key = K) = false) :
    M.filter (fun m => m.key = K) = [] := by
  rw [List.filter_eq_nil_iff]
  intro m hm
  rw [List.any_eq_false] at hM
  exact hM m hm

/-- Rows of a key that is already present are not touched by later inserts. -/
theorem foldl_stepMount_filter_present (pvc : List PVCRow) (uid : String) (T : Time)
    (K : String × String × String) (L : List (String × VolumeMount)) (M : List MountRow)
    (hM : M.any (fun m => m.key = K) = true) :
    (L.foldl (stepMount pvc uid T) M).filter (fun m => m.key = K) =
      M.filter (fun m => m.key = K) := by
  induction L generalizing M with
  | nil => rfl
  | cons d L ih =>
    rw [List.foldl_cons, stepMount_eq]
    by_cases hd : M.any (fun m => decide (m.key = (uid, d.2.Name, d.1))) = true
    · simp only [hd, if_true]
      exact ih M hM
    · simp only [hd, Bool.false_eq_true, if_false]
      cases hu : pickUid pvc d.2.Name T with
      | none => exact ih M hM
      | some u =>
        simp only []
        have hne : (uid, d.2.Name, d.1) ≠ K := by
          intro h
          rw [h] at hd
          exact hd hM
        rw [ih _ (by rw [List.any_append, hM, Bool.true_or])]
        rw [List.filter_append]
        have : List.filter (fun m : MountRow => decide (m.key = K))
            [{ pod_uid := uid, pvc_uid := u, container_name := d.1, pvc_name := d.2.Name,
               read_only := d.2.ReadOnly }] = [] := by
          rw [List.filter_eq_nil_iff]
          intro m hm
          rw [List.mem_singleton] at hm
          subst hm
          simpa [MountRow.key] using hne
        rw [this, List.append_nil]

/-- The rows of one key after all declared mounts were inserted: when the key
was free before, the row of the first declaration of that key, if the pick
adds one. -/
theorem foldl_stepMount_filter (pvc : List PVCRow) (uid : String) (T : Time) (C N : String)
    (L : List (String × VolumeMount)) (M : List MountRow)
    (hM : M.any (fun m => m.key = (uid, N, C)) = false) :
    (L.foldl (stepMount pvc uid T) M).filter (fun m => m.key = (uid, N, C)) =
      match L.find? (fun d => d.1 = C ∧ d.2.Name = N), pickUid pvc N T with
      | some d, some u => [{ pod_uid := uid, pvc_uid := u, container_name := C, pvc_name := N,
                             read_only := d.2.ReadOnly }]
      | _, _ => [] := by
  induction L generalizing M with
  | nil =>
    simp only [List.foldl_nil, List.find?_nil]
    exact filter_key_eq_nil M _ hM
  | cons d L ih =>
    rw [List.foldl_cons, stepMount_eq]
    by_cases hd : d.1 = C ∧ d.2.Name = N
    · obtain ⟨hC, hN⟩ := hd
      have hfind : List.find? (fun d : String × VolumeMount => decide (d.1 = C ∧ d.2.Name = N))
          (d :: L) = some d := by
        simp [List.find?_cons, hC, hN]
      rw [hfind, hC, hN]
      simp only [hM, Bool.false_eq_true, if_false]
      cases hu : pickUid pvc N T with
      | none =>
        simp only []
        rw [ih M hM, hu]
        cases List.find? (fun d : String × VolumeMount => decide (d.1 = C ∧ d.2.Name = N)) L <;> rfl
      | some u =>
        simp only []
        rw [foldl_stepMount_filter_present pvc uid T (uid, N, C) L _
          (by simp [List.any_append, MountRow.key])]
        rw [List.filter_append, filter_key_eq_nil M _ hM]
        simp [MountRow.key]
    · have hfind : List.find? (fun d : String × VolumeMount => decide (d.1 = C ∧ d.2.Name = N))
          (d :: L) = List.find? (fun d : String × VolumeMount => decide (d.1 = C ∧ d.2.Name = N))
            L := by
        simp [List.find?_cons, hd]
      rw [hfind]
      have hne : (uid, d.2.Name, d.1) ≠ (uid, N, C) := by
        intro h
        simp only [Prod.mk.injEq, true_and] at h
        exact hd ⟨h.2, h.1⟩
      by_cases hany : M.any (fun m => decide (m.key = (uid, d.2.Name, d.1))) = true
      · simp only [hany, if_true]
        exact ih M hM
      · simp only [hany, Bool.false_eq_true, if_false]
        cases hu : pickUid pvc d.2.Name T with
        | none => exact ih M hM
        | some u =>
          simp only []
          apply ih
          rw [List.any_append, hM, Bool.false_or]
          simpa [MountRow.key] using hne

/-! ## `MAX`, `MIN` and the inner queries -/

theorem sqlMax_eq_none (l : List Time) : sqlMax l = none ↔ l = [] := by
  cases l with
  | nil => simp [sqlMax]
  | cons t ts =>
    simp only [sqlMax]
    cases sqlMax ts <;> simp

theorem sqlMax_spec (l : List Time) (m : Time) (h : sqlMax l = some m) :
    m ∈ l ∧ ∀ x ∈ l, x ≤ m := by
  induction l generalizing m with
  | nil => simp [sqlMax] at h
  | cons t ts ih =>
    simp only [sqlMax] at h
    cases hts : sqlMax ts with
    | none =>
      rw [hts] at h
      simp only [Option.some.injEq] at h
      subst h
      rw [sqlMax_eq_none] at hts
      subst hts
      simp
    | some m' =>
      rw [hts] at h
      simp only [Option.some.injEq] at h
      obtain ⟨hmem, hle⟩ := ih m' hts
      by_cases hc : m' ≤ t
      · rw [if_pos hc] at h
        subst h
        refine ⟨List.mem_cons_self _ _, ?_⟩
        intro x hx
        rcases List.mem_cons.mp hx with rfl | hx
        · exact le_refl _
        · exact le_trans (hle x hx) hc
      · rw [if_neg hc] at h
        subst h
        refine ⟨List.mem_cons_of_mem _ hmem, ?_⟩
        intro x hx
        rcases List.mem_cons.mp hx with rfl | hx
        · exact Nat.le_of_lt (Nat.lt_of_not_le hc)
        · exact hle x hx

theorem sqlMin_eq_none (l : List Time) : sqlMin l = none ↔ l = [] := by
  cases l with
  | nil => simp [sqlMin]
  | cons t ts =>
    simp only [sqlMin]
    cases sqlMin ts <;> simp

theorem sqlMin_spec (l : List Time) (m : Time) (h : sqlMin l = some m) :
    m ∈ l ∧ ∀ x ∈ l, m ≤ x := by
  induction l generalizing m with
  | nil => simp [sqlMin] at h
  | cons t ts ih =>
    simp only [sqlMin] at h
    cases hts : sqlMin ts with
    | none =>
      rw [hts] at h
      simp only [Option.some.injEq] at h
      subst h
      rw [sqlMin_eq_none] at hts
      subst hts
      simp
    | some m' =>
      rw [hts] at h
      simp only [Option.some.injEq] at h
      obtain ⟨hmem, hle⟩ := ih m' hts
      by_cases hc : t ≤ m'
      · rw [if_pos hc] at h
        subst h
        refine ⟨List.mem_cons_self _ _, ?_⟩
        intro x hx
        rcases List.mem_cons.mp hx with rfl | hx
        · exact le_refl _
        · exact le_trans hc (hle x hx)
      · rw [if_neg hc] at h
        subst h
        refine ⟨List.mem_cons_of_mem _ hmem, ?_⟩
        intro x hx
        rcases List.mem_cons.mp hx with rfl | hx
        · exact Nat.le_of_lt (Nat.lt_of_not_le hc)
        · exact hle x hx

/-- For a literal claim name the filter of the inner `MAX` query is the
pre-existing filter of the specification. -/
theorem mem_preTimes (pvc : List PVCRow) (T : Time) (N : String) (hN : noLikeMeta N = true)
    (c : Time) :
    c ∈ pvc.filterMap (fun r =>
        match r.create_time with
        | none => none
        | some c =>
          if c ≤ T ∧ nullOrGe r.delete_time T = true ∧ sqlLikeOpt r.name N = true
          then some c else none) ↔
      ∃ q ∈ pvc, meetsPreexisting q N T = true ∧ q.create_time = some c := by
  simp only [List.mem_filterMap]
  constructor
  · rintro ⟨q, hq, h⟩
    refine ⟨q, hq, ?_⟩
    cases hc : q.create_time with
    | none => simp [hc] at h
    | some c' =>
      simp only [hc] at h
      split at h
      · rename_i hcond
        simp only [Option.some.injEq] at h
        subst h
        rw [sqlLikeOpt_literal N hN] at hcond
        simp [meetsPreexisting, hc, hcond.1, hcond.2.1, hcond.2.2]
      · simp at h
  · rintro ⟨q, hq, hm, hc⟩
    refine ⟨q, hq, ?_⟩
    simp only [meetsPreexisting, hc, Bool.and_eq_true, decide_eq_true_eq] at hm
    simp [hc, hm.1.2, hm.2, sqlLikeOpt_literal N hN, hm.1.1]

theorem mem_lateTimes (pvc : List PVCRow) (T : Time) (N : String) (hN : noLikeMeta N = true)
    (c : Time) :
    c ∈ pvc.filterMap (fun r =>
        match r.create_time with
        | none => none
        | some c =>
          if T ≤ c ∧ nullOrGt r.delete_time T = true ∧ sqlLikeOpt r.name N = true
          then some c else none) ↔
      ∃ q ∈ pvc, meetsFuture q N T = true ∧ q.create_time = some c := by
  simp only [List.mem_filterMap]
  constructor
  · rintro ⟨q, hq, h⟩
    refine ⟨q, hq, ?_⟩
    cases hc : q.create_time with
    | none => simp [hc] at h
    | some c' =>
      simp only [hc] at h
      split at h
      · rename_i hcond
        simp only [Option.some.injEq] at h
        subst h
        rw [sqlLikeOpt_literal N hN] at hcond
        simp [meetsFuture, hc, hcond.1, hcond.2.1, hcond.2.2]
      · simp at h
  · rintro ⟨q, hq, hm, hc⟩
    refine ⟨q, hq, ?_⟩
    simp only [meetsFuture, hc, Bool.and_eq_true, decide_eq_true_eq] at hm
    simp [hc, hm.1.2, hm.2, sqlLikeOpt_literal N hN, hm.1.1]

/-! ## What the three-tier pick selects -/

theorem maxCreateTimeBefore_eq_none (pvc : List PVCRow) (T : Time) (N : String)
    (hN : noLikeMeta N = true) (hnone : ∀ q ∈ pvc, meetsPreexisting q N T = false) :
    maxCreateTimeBefore pvc T T N = none := by
  unfold maxCreateTimeBefore
  rw [sqlMax_eq_none, List.eq_nil_iff_forall_not_mem]
  intro c hc
  rw [mem_preTimes pvc T N hN] at hc
  obtain ⟨q, hq, hm, _⟩ := hc
  rw [hnone q hq] at hm
  exact Bool.false_ne_true hm

theorem minCreateTimeAfter_eq_none (pvc : List PVCRow) (T : Time) (N : String)
    (hN : noLikeMeta N = true) (hnone : ∀ q ∈ pvc, meetsFuture q N T = false) :
    minCreateTimeAfter pvc T T N = none := by
  unfold minCreateTimeAfter
  rw [sqlMin_eq_none, List.eq_nil_iff_forall_not_mem]
  intro c hc
  rw [mem_lateTimes pvc T N hN] at hc
  obtain ⟨q, hq, hm, _⟩ := hc
  rw [hnone q hq] at hm
  exact Bool.false_ne_true hm

theorem maxCreateTimeBefore_eq_some (pvc : List PVCRow) (T : Time) (N : String)
    (hN : noLikeMeta N = true) (p : PVCRow) (cp : Time) (hp : p ∈ pvc)
    (hcp : p.create_time = some cp) (hmeets : meetsPreexisting p N T = true)
    (hmax : ∀ q ∈ pvc, meetsPreexisting q N T = true → ∀ cq, q.create_time = some cq → cq ≤ cp) :
    maxCreateTimeBefore pvc T T N = some cp := by
  unfold maxCreateTimeBefore
  have hmem := (mem_preTimes pvc T N hN cp).mpr ⟨p, hp, hmeets, hcp⟩
  cases h : sqlMax _ with
  | none =>
    rw [sqlMax_eq_none] at h
    rw [h] at hmem
    simp at hmem
  | some m =>
    obtain ⟨hm, hle⟩ := sqlMax_spec _ m h
    rw [mem_preTimes pvc T N hN] at hm
    obtain ⟨q, hq, hqm, hqc⟩ := hm
    have h1 : m ≤ cp := hmax q hq hqm m hqc
    have h2 : cp ≤ m := hle cp hmem
    rw [Nat.le_antisymm h1 h2]

theorem minCreateTimeAfter_eq_some (pvc : List PVCRow) (T : Time) (N : String)
    (hN : noLikeMeta N = true) (p : PVCRow) (cp : Time) (hp : p ∈ pvc)
    (hcp : p.create_time = some cp) (hmeets : meetsFuture p N T = true)
    (hmin : ∀ q ∈ pvc, meetsFuture q N T = true → ∀ cq, q.create_time = some cq → cp ≤ cq) :
    minCreateTimeAfter pvc T T N = some cp := by
  unfold minCreateTimeAfter
  have hmem := (mem_lateTimes pvc T N hN cp).mpr ⟨p, hp, hmeets, hcp⟩
  cases h : sqlMin _ with
  | none =>
    rw [sqlMin_eq_none] at h
    rw [h] at hmem
    simp at hmem
  | some m =>
    obtain ⟨hm, hle⟩ := sqlMin_spec _ m h
    rw [mem_lateTimes pvc T N hN] at hm
    obtain ⟨q, hq, hqm, hqc⟩ := hm
    have h1 : cp ≤ m := hmin q hq hqm m hqc
    have h2 : m ≤ cp := hle cp hmem
    rw [Nat.le_antisymm h2 h1]

theorem selectPVCs_none (pvc : List PVCRow) (pat : String) : selectPVCs pvc none pat = [] :=
  rfl

/-- For a literal claim name the outer query selects the PVCs of that name
created at the inner result. -/
theorem selectPVCs_some (pvc : List PVCRow) (t : Time) (N : String) (hN : noLikeMeta N = true) :
    selectPVCs pvc (some t) N =
      pvc.filter (fun q => q.name = some N ∧ q.create_time = some t) := by
  unfold selectPVCs
  apply List.filter_congr
  intro q _
  simp only [sqlLikeOpt_literal N hN q.name]
  exact decide_eq_decide.mpr and_comm

theorem pickUid_preexisting (pvc : List PVCRow) (T : Time) (N : String)
    (hN : noLikeMeta N = true) (p : PVCRow) (cp : Time)
    (hcp : p.create_time = some cp) (hmeets : meetsPreexisting p N T = true)
    (honly : pvc.filter (fun q => q.name = some N ∧ q.create_time = some cp) = [p])
    (hmax : ∀ q ∈ pvc, meetsPreexisting q N T = true → ∀ cq, q.create_time = some cq → cq ≤ cp) :
    pickUid pvc N T = some (some p.uid) := by
  have hp : p ∈ pvc := by
    have : p ∈ pvc.filter (fun q => q.name = some N ∧ q.create_time = some cp) := by
      rw [honly]
      exact List.mem_singleton_self p
    exact (List.mem_filter.mp this).1
  unfold pickUid
  rw [maxCreateTimeBefore_eq_some pvc T N hN p cp hp hcp hmeets hmax,
    selectPVCs_some pvc cp N hN, honly]

theorem pickUid_future (pvc : List PVCRow) (T : Time) (N : String)
    (hN : noLikeMeta N = true) (hnone : ∀ q ∈ pvc, meetsPreexisting q N T = false)
    (p : PVCRow) (cp : Time)
    (hcp : p.create_time = some cp) (hmeets : meetsFuture p N T = true)
    (honly : pvc.filter (fun q => q.name = some N ∧ q.create_time = some cp) = [p])
    (hmin : ∀ q ∈ pvc, meetsFuture q N T = true → ∀ cq, q.create_time = some cq → cp ≤ cq) :
    pickUid pvc N T = some (some p.uid) := by
  have hp : p ∈ pvc := by
    have : p ∈ pvc.filter (fun q => q.name = some N ∧ q.create_time = some cp) := by
      rw [honly]
      exact List.mem_singleton_self p
    exact (List.mem_filter.mp this).1
  unfold pickUid
  rw [maxCreateTimeBefore_eq_none pvc T N hN hnone, selectPVCs_none,
    minCreateTimeAfter_eq_some pvc T N hN p cp hp hcp hmeets hmin,
    selectPVCs_some pvc cp N hN, honly]

theorem pickUid_stub (pvc : List PVCRow) (T : Time) (N : String)
    (hN : noLikeMeta N = true) (hpre : ∀ q ∈ pvc, meetsPreexisting q N T = false)
    (hfut : ∀ q ∈ pvc, meetsFuture q N T = false) :
    pickUid pvc N T = some none := by
  unfold pickUid
  rw [maxCreateTimeBefore_eq_none pvc T N hN hpre, minCreateTimeAfter_eq_none pvc T N hN hfut,
    selectPVCs_none]

/-! ## The mount row of a declared mount after `InsertPod` -/

/-- After a committed `InsertPod` the rows keyed (pod, N, C) are the single row
of the first declaration of claim `N` in container `C`, with the picked uid. -/
theorem InsertPod_mount_row (fuel : Nat) (db : DB) (uid name : String) (T : Time)
    (ns : String) (cs : List ContainerDesc) (json watcherNS rv : String)
    (hpod : ∀ p ∈ db.pod, p.uid ≠ uid)
    (hcont : ∀ r ∈ db.container, r.pod_uid ≠ uid)
    (hmnt : ∀ m ∈ db.pod_mount, m.pod_uid ≠ uid)
    (hnodup : (cs.map (fun c => c.Name)).Nodup)
    (C N : String) (v : VolumeMount) (hdecl : firstDeclared cs C N = some v)
    (u : Option String) (hpick : pickUid db.pvc N T = some u) :
    ∃ db', InsertPod (fuel + 1) db uid name T ns cs json watcherNS rv = .returned db' ∧
      db'.pod_mount.filter (fun m => m.key = (uid, N, C)) =
        [{ pod_uid := uid, pvc_uid := u, container_name := C, pvc_name := N,
           read_only := v.ReadOnly }] := by
  obtain ⟨db', hret, hm, _, _⟩ :=
    InsertPod_returns fuel db uid name T ns cs json watcherNS rv hpod hcont hnodup
  refine ⟨db', hret, ?_⟩
  have hfree : db.pod_mount.any (fun m => m.key = (uid, N, C)) = false := by
    rw [List.any_eq_false]
    intro m hm' hk
    simp only [decide_eq_true_eq] at hk
    apply hmnt m hm'
    simp only [MountRow.key, Prod.mk.injEq] at hk
    exact hk.1
  rw [hm, foldl_stepMount_filter db.pvc uid T C N (declaredMounts cs) db.pod_mount hfree, hpick]
  unfold firstDeclared at hdecl
  cases hf : List.find? (fun d : String × VolumeMount => decide (d.1 = C ∧ d.2.Name = N))
      (declaredMounts cs) with
  | none =>
    rw [hf] at hdecl
    exact absurd hdecl (by simp)
  | some d =>
    rw [hf] at hdecl
    simp only [Option.map_some', Option.some.injEq] at hdecl
    subst hdecl
    rfl

/-! ## C1: pre-existing match -/

/-- C1, amended: let the pod uid have no pod, container or mount row yet and let
the container names be pairwise distinct (so that the transaction commits), and
let the claim name `N` hold no `LIKE` metacharacter.  If PVC `p` is named `N`,
meets the pre-existing filters for the pod's create_time `T`, has the greatest
create_time among the PVCs that meet them, and is the only PVC named `N` with
that create_time, then `InsertPod` returns and leaves exactly one mount row
keyed (pod, `N`, `C`) for a declared mount of `N` in container `C`; the row
carries the uid of `p`. -/
theorem InsertPod_preexisting_match (fuel : Nat) (db : DB) (uid name : String) (T : Time)
    (ns : String) (cs : List ContainerDesc) (json watcherNS rv : String)
    (hpod : ∀ p ∈ db.pod, p.uid ≠ uid)
    (hcont : ∀ r ∈ db.container, r.pod_uid ≠ uid)
    (hmnt : ∀ m ∈ db.pod_mount, m.pod_uid ≠ uid)
    (hnodup : (cs.map (fun c => c.Name)).Nodup)
    (C N : String) (v : VolumeMount) (hdecl : firstDeclared cs C N = some v)
    (hN : noLikeMeta N = true)
    (p : PVCRow) (cp : Time) (hcp : p.create_time = some cp)
    (hmeets : meetsPreexisting p N T = true)
    (honly : db.pvc.filter (fun q => q.name = some N ∧ q.create_time = some cp) = [p])
    (hmax : ∀ q ∈ db.pvc, meetsPreexisting q N T = true → ∀ cq ∈ q.create_time, cq ≤ cp) :
    ∃ db', InsertPod (fuel + 1) db uid name T ns cs json watcherNS rv = .returned db' ∧
      db'.pod_mount.filter (fun m => m.key = (uid, N, C)) =
        [{ pod_uid := uid, pvc_uid := some p.uid, container_name := C, pvc_name := N,
           read_only := v.ReadOnly }] :=
  InsertPod_mount_row fuel db uid name T ns cs json watcherNS rv hpod hcont hmnt hnodup C N v
    hdecl (some p.uid)
    (pickUid_preexisting db.pvc T N hN p cp hcp hmeets honly
      (fun q hq hm cq hc => hmax q hq hm cq hc))

/-- C1 witness: the scenario of `TestMatchPodMount`; the pod created at 3 is
matched with the claim created at 1. -/
theorem InsertPod_preexisting_match_witness :
    ∃ db', InsertPod 1 storeMatchPodMount "pod-1" "test-pod" 3 "ns"
        [exampleContainer "podMountContainer" ["foo"]] "{}" "watcher-ns" "132" = .returned db' ∧
      db'.pod_mount.filter (fun m => m.key = ("pod-1", "foo", "podMountContainer")) =
        [{ pod_uid := "pod-1", pvc_uid := some "pvc-current",
           container_name := "podMountContainer", pvc_name := "foo", read_only := false }] :=
  InsertPod_preexisting_match 0 storeMatchPodMount "pod-1" "test-pod" 3 "ns"
    [exampleContainer "podMountContainer" ["foo"]] "{}" "watcher-ns" "132"
    (by decide) (by decide) (by decide) (by decide) "podMountContainer" "foo"
    { Name := "foo", ReadOnly := false } (by decide) (by decide)
    (examplePVC "pvc-current" "foo" 1 none) 1 rfl (by decide) (by decide) (by decide)

/-- C1 fails as stated, on three inputs.
(1) Claim name `fo_`: the only PVC of that name was created at 1, but the
statement compares names with `LIKE`, so the PVC named `foo` created at 2 is
chosen, a PVC of another name.
(2) Two PVCs named `foo` created at 1, one of them deleted at 2, pod created at
3: the outer query does not repeat the delete filter and selects both, the
insert of two rows with one key fails, and the mount gets no row at all.
(3) The pod uid is already stored: the insert of the pod row fails on the
duplicate key, the transaction is rolled back and no mount row is written. -/
theorem InsertPod_preexisting_match_counterexample :
    (meetsPreexisting (examplePVC "pvc-a" "fo_" 1 none) "fo_" 3 = true ∧
      meetsPreexisting (examplePVC "pvc-b" "foo" 2 none) "fo_" 3 = false ∧
      (InsertPod 1 storeWildcard "pod-1" "test-pod" 3 "ns"
          [exampleContainer "c" ["fo_"]] "{}" "ns" "10").mounts =
        some [{ pod_uid := "pod-1", pvc_uid := some "pvc-b", container_name := "c",
                pvc_name := "fo_", read_only := false }]) ∧
    (meetsPreexisting (examplePVC "pvc-a" "foo" 1 none) "foo" 3 = true ∧
      meetsPreexisting (examplePVC "pvc-b" "foo" 1 (some 2)) "foo" 3 = false ∧
      (InsertPod 1 storeTie "pod-1" "test-pod" 3 "ns"
          [exampleContainer "c" ["foo"]] "{}" "ns" "10").mounts = some []) ∧
    (meetsPreexisting (examplePVC "pvc-a" "foo" 1 none) "foo" 3 = true ∧
      InsertPod 1 storeReplay "pod-1" "test-pod" 3 "ns"
          [exampleContainer "c" ["foo"]] "{}" "ns" "10" = .returned storeReplay ∧
      storeReplay.pod_mount = []) := by
  decide

/-! ## C2: future-claim match -/

/-- The late-PVC statement runs only after the pre-existing statement succeeded
without inserting a row. -/
theorem latePVC_executed_imp (tx : DB) (uid C : String) (v : VolumeMount) (T : Time)
    (h : MountStmt.latePVCPodMount ∈ (insertPodMount tx uid C v T).executed) :
    insertStatements_PodMount uid C v.Name v.ReadOnly T T v.Name v.Name tx = .ok (tx, 0) := by
  have hK1 := fun r hr =>
    selectMountRows_key tx.pvc (maxCreateTimeBefore tx.pvc T T v.Name) uid C v.Name v.ReadOnly
      v.Name r hr
  unfold insertPodMount at h
  unfold insertStatements_PodMount at h ⊢
  generalize selectMountRows tx.pvc (maxCreateTimeBefore tx.pvc T T v.Name) uid C v.Name
    v.ReadOnly v.Name = L1 at hK1 h ⊢
  match L1, hK1 with
  | [], _ => exact execInsertSelect_nil tx
  | [r], hK1 =>
    exfalso
    rw [execInsertSelect_single] at h
    by_cases hany : (tx.pod_mount.any fun m => decide (m.key = r.key)) = true
    · simp [hany] at h
    · simp [hany] at h
  | r1 :: r2 :: rs, hK1 =>
    exfalso
    have h1 : r1.key = (uid, v.Name, C) := hK1 r1 (by simp)
    have h2 : r2.key = (uid, v.Name, C) := hK1 r2 (by simp)
    rw [execInsertSelect_two r1 r2 rs tx (h1.trans h2.symm)] at h
    simp at h

/-- C2, amended: let the pod uid have no pod, container or mount row yet and let
the container names be pairwise distinct, and let the claim name `N` hold no
`LIKE` metacharacter.  If no stored PVC named `N` meets the pre-existing
filters, and PVC `p` is named `N`, meets the future-claim filters, has the
smallest create_time among the PVCs that meet them and is the only PVC named
`N` with that create_time, then `InsertPod` returns and leaves exactly one mount
row keyed (pod, `N`, `C`), carrying the uid of `p`.  In every call of
`insertPodMount` the late-PVC statement is executed only when the pre-existing
statement succeeded and inserted no row. -/
theorem InsertPod_future_match (fuel : Nat) (db : DB) (uid name : String) (T : Time)
    (ns : String) (cs : List ContainerDesc) (json watcherNS rv : String)
    (hpod : ∀ p ∈ db.pod, p.uid ≠ uid)
    (hcont : ∀ r ∈ db.container, r.pod_uid ≠ uid)
    (hmnt : ∀ m ∈ db.pod_mount, m.pod_uid ≠ uid)
    (hnodup : (cs.map (fun c => c.Name)).Nodup)
    (C N : String) (v : VolumeMount) (hdecl : firstDeclared cs C N = some v)
    (hN : noLikeMeta N = true)
    (hnone : ∀ q ∈ db.pvc, meetsPreexisting q N T = false)
    (p : PVCRow) (cp : Time) (hcp : p.create_time = some cp)
    (hmeets : meetsFuture p N T = true)
    (honly : db.pvc.filter (fun q => q.name = some N ∧ q.create_time = some cp) = [p])
    (hmin : ∀ q ∈ db.pvc, meetsFuture q N T = true → ∀ cq ∈ q.create_time, cp ≤ cq) :
    (∃ db', InsertPod (fuel + 1) db uid name T ns cs json watcherNS rv = .returned db' ∧
      db'.pod_mount.filter (fun m => m.key = (uid, N, C)) =
        [{ pod_uid := uid, pvc_uid := some p.uid, container_name := C, pvc_name := N,
           read_only := v.ReadOnly }]) ∧
    (∀ (tx : DB) (uid1 C1 : String) (v1 : VolumeMount) (T1 : Time),
      MountStmt.latePVCPodMount ∈ (insertPodMount tx uid1 C1 v1 T1).executed →
        insertStatements_PodMount uid1 C1 v1.Name v1.ReadOnly T1 T1 v1.Name v1.Name tx =
          .ok (tx, 0)) :=
  ⟨InsertPod_mount_row fuel db uid name T ns cs json watcherNS rv hpod hcont hmnt hnodup C N v
    hdecl (some p.uid)
    (pickUid_future db.pvc T N hN hnone p cp hcp hmeets honly
      (fun q hq hm cq hc => hmin q hq hm cq hc)),
   latePVC_executed_imp⟩

/-- C2 witness: the scenario of `TestLatePVCMount`; the pod created at 2, after
the old claim was deleted at 1, is matched with the claim created at 3. -/
theorem InsertPod_future_match_witness :
    (∃ db', InsertPod 1 storeLatePVC "pod-1" "test-pod" 2 "ns"
        [exampleContainer "podMountContainer" ["foo"]] "{}" "watcher-ns" "8" = .returned db' ∧
      db'.pod_mount.filter (fun m => m.key = ("pod-1", "foo", "podMountContainer")) =
        [{ pod_uid := "pod-1", pvc_uid := some "pvc-current",
           container_name := "podMountContainer", pvc_name := "foo", read_only := false }]) ∧
    (∀ (tx : DB) (uid1 C1 : String) (v1 : VolumeMount) (T1 : Time),
      MountStmt.latePVCPodMount ∈ (insertPodMount tx uid1 C1 v1 T1).executed →
        insertStatements_PodMount uid1 C1 v1.Name v1.ReadOnly T1 T1 v1.Name v1.Name tx =
          .ok (tx, 0)) :=
  InsertPod_future_match 0 storeLatePVC "pod-1" "test-pod" 2 "ns"
    [exampleContainer "podMountContainer" ["foo"]] "{}" "watcher-ns" "8"
    (by decide) (by decide) (by decide) (by decide) "podMountContainer" "foo"
    { Name := "foo", ReadOnly := false } (by decide) (by decide) (by decide)
    (examplePVC "pvc-current" "foo" 3 none) 3 rfl (by decide) (by decide) (by decide)

/-- C2 fails as stated, on three inputs.
(1) Claim name `fo_`, pod created at 3: no PVC named `fo_` meets the
pre-existing filters and the PVC named `fo_` created at 5 meets the future
filters, but the pre-existing statement compares names with `LIKE` and picks the
PVC named `foo` created at 1.
(2) Two live PVCs named `foo`, both created at 5, pod created at 3: the late-PVC
statement selects both, the insert of two rows with one key fails and the mount
gets no row.
(3) The pod uid is already stored: the transaction is rolled back and no
mount row is written. -/
theorem InsertPod_future_match_counterexample :
    ((∀ q ∈ storeWildcardLate.pvc, q.name = some "fo_" → meetsPreexisting q "fo_" 3 = false) ∧
      meetsFuture (examplePVC "pvc-a" "fo_" 5 none) "fo_" 3 = true ∧
      (InsertPod 1 storeWildcardLate "pod-1" "test-pod" 3 "ns"
          [exampleContainer "c" ["fo_"]] "{}" "ns" "10").mounts =
        some [{ pod_uid := "pod-1", pvc_uid := some "pvc-b", container_name := "c",
                pvc_name := "fo_", read_only := false }]) ∧
    ((∀ q ∈ storeTieLate.pvc, meetsPreexisting q "foo" 3 = false) ∧
      (∀ q ∈ storeTieLate.pvc, meetsFuture q "foo" 3 = true) ∧
      (InsertPod 1 storeTieLate "pod-1" "test-pod" 3 "ns"
          [exampleContainer "c" ["foo"]] "{}" "ns" "10").mounts = some []) ∧
    ((∀ q ∈ { storeReplay with pvc := [examplePVC "pvc-a" "foo" 5 none] }.pvc,
        meetsPreexisting q "foo" 3 = false ∧ meetsFuture q "foo" 3 = true) ∧
      (InsertPod 1 { storeReplay with pvc := [examplePVC "pvc-a" "foo" 5 none] } "pod-1"
          "test-pod" 3 "ns" [exampleContainer "c" ["foo"]] "{}" "ns" "10").mounts = some []) := by
  decide

/-! ## C3: name-only stub -/

/-- C3, amended: let the pod uid have no pod, container or mount row yet and let
the container names be pairwise distinct, and let the claim name `N` hold no
`LIKE` metacharacter.  If no stored PVC named `N` meets the pre-existing or the
future-claim filters, then `InsertPod` returns and leaves exactly one mount row
keyed (pod, `N`, `C`) for a declared mount of `N` in container `C`: its
`pvc_uid` is NULL and it carries the pod uid, the container name, the claim
name and the read_only flag of the first declaration of `N` in `C`. -/
theorem InsertPod_name_only_stub (fuel : Nat) (db : DB) (uid name : String) (T : Time)
    (ns : String) (cs : List ContainerDesc) (json watcherNS rv : String)
    (hpod : ∀ p ∈ db.pod, p.uid ≠ uid)
    (hcont : ∀ r ∈ db.container, r.pod_uid ≠ uid)
    (hmnt : ∀ m ∈ db.pod_mount, m.pod_uid ≠ uid)
    (hnodup : (cs.map (fun c => c.Name)).Nodup)
    (C N : String) (v : VolumeMount) (hdecl : firstDeclared cs C N = some v)
    (hN : noLikeMeta N = true)
    (hpre : ∀ q ∈ db.pvc, meetsPreexisting q N T = false)
    (hfut : ∀ q ∈ db.pvc, meetsFuture q N T = false) :
    ∃ db', InsertPod (fuel + 1) db uid name T ns cs json watcherNS rv = .returned db' ∧
      db'.pod_mount.filter (fun m => m.key = (uid, N, C)) =
        [{ pod_uid := uid, pvc_uid := none, container_name := C, pvc_name := N,
           read_only := v.ReadOnly }] :=
  InsertPod_mount_row fuel db uid name T ns cs json watcherNS rv hpod hcont hmnt hnodup C N v
    hdecl none (pickUid_stub db.pvc T N hN hpre hfut)

/-- C3 witness: the first step of `TestLatePodMount`; the pod is inserted into
an empty store and its mount row has no `pvc_uid`. -/
theorem InsertPod_name_only_stub_witness :
    ∃ db', InsertPod 1 DB.empty "pod-1" "test-pod" 2 "ns"
        [exampleContainer "podMountContainer" ["foo"]] "{}" "watcher-ns" "431" =
          .returned db' ∧
      db'.pod_mount.filter (fun m => m.key = ("pod-1", "foo", "podMountContainer")) =
        [{ pod_uid := "pod-1", pvc_uid := none, container_name := "podMountContainer",
           pvc_name := "foo", read_only := false }] :=
  InsertPod_name_only_stub 0 DB.empty "pod-1" "test-pod" 2 "ns"
    [exampleContainer "podMountContainer" ["foo"]] "{}" "watcher-ns" "431"
    (by decide) (by decide) (by decide) (by decide) "podMountContainer" "foo"
    { Name := "foo", ReadOnly := false } (by decide) (by decide) (by decide) (by decide)

/-- C3 fails as stated, on three inputs.
(1) Claim name `fo_` and a store whose only PVC is named `foo`: no PVC named
`fo_` meets either filter, yet the row carries the uid of the PVC named `foo`.
(2) A container that declares claim `foo` twice, read-write and read-only, on
an empty store: the second insert hits the key of the first, so there is one
row only and no row carries the read_only flag of the second declaration.
(3) The pod uid is already stored: the transaction is rolled back and no mount
row is written. -/
theorem InsertPod_name_only_stub_counterexample :
    ((∀ q ∈ storeOnlyFoo.pvc, q.name ≠ some "fo_") ∧
      (InsertPod 1 storeOnlyFoo "pod-1" "test-pod" 3 "ns"
          [exampleContainer "c" ["fo_"]] "{}" "ns" "10").mounts =
        some [{ pod_uid := "pod-1", pvc_uid := some "pvc-b", container_name := "c",
                pvc_name := "fo_", read_only := false }]) ∧
    ((InsertPod 1 DB.empty "pod-1" "test-pod" 3 "ns"
          [{ Name := "c", Image := "img", Command := "sh",
             PVCMounts := [{ Name := "foo", ReadOnly := false },
                           { Name := "foo", ReadOnly := true }] }] "{}" "ns" "10").mounts =
        some [{ pod_uid := "pod-1", pvc_uid := none, container_name := "c",
                pvc_name := "foo", read_only := false }]) ∧
    ((InsertPod 1 { storeReplay with pvc := [] } "pod-1" "test-pod" 3 "ns"
          [exampleContainer "c" ["foo"]] "{}" "ns" "10").mounts = some []) := by
  decide

/-! ## C4: late promotion -/

theorem likeTokens_cons_of_ne (c : Char) (p : List Char) (hc : c ≠ '\\') :
    likeTokens (c :: p) =
      (if c = '%' then LikeToken.anyRun else if c = '_' then LikeToken.anyChar
       else LikeToken.lit c) :: likeTokens p := by
  cases p <;> simp only [likeTokens, if_neg hc] <;> split_ifs <;> rfl

theorem likeMatch_self (p : List Char) (hp : ∀ c ∈ p, c ≠ '\\') :
    likeMatch (likeTokens p) p = true := by
  induction p with
  | nil => rfl
  | cons c p ih =>
    have hc : c ≠ '\\' := hp c (List.mem_cons_self _ _)
    have ih' := ih (fun d hd => hp d (List.mem_cons_of_mem _ hd))
    rw [likeTokens_cons_of_ne c p hc]
    split_ifs
    · rw [likeMatch, List.any_eq_true]
      exact ⟨p, by simp [List.tails], ih'⟩
    · rw [likeMatch]
      exact ih'
    · rw [likeMatch, ih']
      simp

theorem sqlLike_self (N : String) (hN : noBackslash N = true) : sqlLike N N = true := by
  unfold sqlLike
  apply likeMatch_self
  intro c hc
  unfold noBackslash at hN
  rw [List.all_eq_true] at hN
  simpa using hN c hc

/-- The store `InsertPVC` commits; its transaction cannot fail. -/
theorem InsertPVC_returns (fuel : Nat) (db : DB) (uid name : String) (T : Time)
    (ns : String) (storage : Int) (modes : List String) (json watcherNS rv : String) :
    InsertPVC (fuel + 1) db uid name T ns storage modes json watcherNS rv =
      .returned
        { db with
          pvc := upsertPVCRows db.pvc uid name T ns storage (GetAccessModeString modes) json
            name T ns storage (GetAccessModeString modes) json,
          pod_mount := db.pod_mount.map (fun m =>
            if isPromoted db.pod name m then { m with pvc_uid := some uid } else m),
          resource_version := upsertRVRows db.resource_version PVCs watcherNS rv rv } := by
  unfold InsertPVC
  apply runTx_of_done
  rfl

/-- C4, amended: for a claim name `N` without a backslash (the escape character
of `LIKE`), `InsertPVC(uid U, name N, ...)` returns, keeps table `pod` and the
order and the columns pod_uid, pvc_name, container_name and read_only of every
mount row, and afterwards every mount row with pvc_name `N` whose pod row has no
delete_time has pvc_uid = `U`; a mount row whose pod has a delete_time (or no
pod row) is unchanged. -/
theorem InsertPVC_promotes (fuel : Nat) (db : DB) (U N : String) (T : Time)
    (ns : String) (storage : Int) (modes : List String) (json watcherNS rv : String)
    (hN : noBackslash N = true) :
    ∃ db', InsertPVC (fuel + 1) db U N T ns storage modes json watcherNS rv = .returned db' ∧
      db'.pod = db.pod ∧
      List.Forall₂ (fun m m' =>
          m'.pod_uid = m.pod_uid ∧ m'.pvc_name = m.pvc_name ∧
          m'.container_name = m.container_name ∧ m'.read_only = m.read_only ∧
          (m.pvc_name = N → (∃ p ∈ db.pod, p.uid = m.pod_uid ∧ p.delete_time = none) →
            m'.pvc_uid = some U) ∧
          ((∀ p ∈ db.pod, p.uid = m.pod_uid → p.delete_time ≠ none) → m' = m))
        db.pod_mount db'.pod_mount := by
  refine ⟨_, InsertPVC_returns fuel db U N T ns storage modes json watcherNS rv, rfl, ?_⟩
  simp only []
  rw [List.forall₂_map_right_iff]
  apply List.forall₂_same.mpr
  intro m _
  by_cases hpr : isPromoted db.pod N m = true
  · simp only [hpr, if_true, true_and]
    refine ⟨fun _ _ => trivial, ?_⟩
    intro hdel
    exfalso
    simp only [isPromoted, Bool.and_eq_true, List.any_eq_true, decide_eq_true_eq] at hpr
    obtain ⟨_, p, hp, hu, hd⟩ := hpr
    exact hdel p hp hu.symm hd
  · simp only [hpr, Bool.false_eq_true, if_false, true_and]
    refine ⟨?_, fun _ => trivial⟩
    intro hname hlive
    exfalso
    apply hpr
    obtain ⟨p, hp, hu, hd⟩ := hlive
    simp only [isPromoted, Bool.and_eq_true, List.any_eq_true, decide_eq_true_eq]
    refine ⟨?_, p, hp, hu.symm, hd⟩
    rw [hname]
    exact sqlLike_self N hN

/-- C4 witness: the second step of `TestLatePodMount`; the claim `foo` arrives
after two pods that reference it, one alive and one deleted. -/
theorem InsertPVC_promotes_witness :
    ∃ db', InsertPVC 1 storeLateClaim "pvc-1" "foo" 1 "ns" 200 ["ReadWriteOnce"] "{}" "ns" "5" =
        .returned db' ∧
      db'.pod = storeLateClaim.pod ∧
      List.Forall₂ (fun m m' =>
          m'.pod_uid = m.pod_uid ∧ m'.pvc_name = m.pvc_name ∧
          m'.container_name = m.container_name ∧ m'.read_only = m.read_only ∧
          (m.pvc_name = "foo" →
            (∃ p ∈ storeLateClaim.pod, p.uid = m.pod_uid ∧ p.delete_time = none) →
            m'.pvc_uid = some "pvc-1") ∧
          ((∀ p ∈ storeLateClaim.pod, p.uid = m.pod_uid → p.delete_time ≠ none) → m' = m))
        storeLateClaim.pod_mount db'.pod_mount :=
  InsertPVC_promotes 0 storeLateClaim "pvc-1" "foo" 1 "ns" 200 ["ReadWriteOnce"] "{}" "ns" "5"
    (by decide)

/-- C4 fails as stated for a name with a backslash: the update selects the mount
rows with `pvc_name LIKE N`, and as a pattern the name `\a` matches `a`, not
itself; the live mount row named `\a` keeps its NULL `pvc_uid`. -/
theorem InsertPVC_promotes_counterexample :
    (InsertPVC 1 storeBackslash "pvc-1" "\\a" 1 "ns" 200 ["ReadWriteOnce"] "{}" "ns" "5").mounts
      = some [{ pod_uid := "pod-1", pvc_uid := none, container_name := "c",
                pvc_name := "\\a", read_only := false }] ∧
    storeBackslash.pod.any (fun p => p.uid = "pod-1" ∧ p.delete_time = none) = true := by
  decide

/-! ## C5: cleanup at pod deletion -/

/-- Table `pod_mount` after `DeletePod`: the rows `clearBadPodMount` keeps, and
when it removed a row, of those only the rows of other pods. -/
theorem DeletePod_returns (fuel : Nat) (db : DB) (U : String) (D : Time)
    (watcher_ns rv : String) :
    DeletePod (fuel + 1) db U D watcher_ns rv =
      .returned
        { db with
          pod := db.pod.map (fun p => if p.uid = U then { p with delete_time := some D } else p),
          pod_mount :=
            if db.pod_mount.any (isBadPodMount db.pvc U D) then
              (db.pod_mount.filter (fun m => !isBadPodMount db.pvc U D m)).filter
                (fun m => m.pod_uid ≠ U)
            else db.pod_mount,
          resource_version := upsertRVRows db.resource_version Pods watcher_ns rv rv } := by
  unfold DeletePod
  apply runTx_of_done
  unfold DeletePod.txFunc deleteStatements_Pod clearBadPodMount deleteAllPodMounts
  simp only []
  by_cases hbad : db.pod_mount.any (isBadPodMount db.pvc U D) = true
  · have hlt : (db.pod_mount.filter (fun m => !isBadPodMount db.pvc U D m)).length <
        db.pod_mount.length := by
      rw [List.any_eq_true] at hbad
      obtain ⟨m, hm, hb⟩ := hbad
      apply List.length_filter_lt_length_iff_exists.mpr
      exact ⟨m, hm, by simp [hb]⟩
    have hpos : ((db.pod_mount.length : Int) -
        (db.pod_mount.filter (fun m => !isBadPodMount db.pvc U D m)).length) > 0 := by
      omega
    simp only [hpos, if_true, hbad, updateRV_eq]
  · have hall : db.pod_mount.filter (fun m => !isBadPodMount db.pvc U D m) = db.pod_mount := by
      rw [List.filter_eq_self]
      intro m hm
      rw [List.any_eq_true] at hbad
      simp only [Bool.not_eq_true', Bool.not_eq_true]
      by_contra hb
      exact hbad ⟨m, hm, by simpa using hb⟩
    simp only [hall, sub_self, gt_iff_lt, lt_self_iff_false, if_false, hbad, updateRV_eq,
      Bool.false_eq_true]

/-- The WHERE clause of `clearBadPodMount` selects the mount rows of the pod
that reference a PVC row created after `D`. -/
theorem isBadPodMount_iff (pvc : List PVCRow) (U : String) (D : Time) (m : MountRow) :
    isBadPodMount pvc U D m = true ↔
      m.pod_uid = U ∧ ∃ u, m.pvc_uid = some u ∧
        ∃ q ∈ pvc, q.uid = u ∧ ∃ c, q.create_time = some c ∧ D < c := by
  unfold isBadPodMount
  cases hu : m.pvc_uid with
  | none => simp
  | some u =>
    simp only [Bool.and_eq_true, decide_eq_true_eq, List.any_eq_true, Option.some.injEq,
      exists_eq_left']
    constructor
    · rintro ⟨h1, q, hq, h2, h3⟩
      refine ⟨h1, q, hq, h2, ?_⟩
      cases hc : q.create_time with
      | none => simp [sqlGt, hc] at h3
      | some c =>
        simp only [sqlGt, hc, decide_eq_true_eq] at h3
        exact ⟨c, rfl, h3⟩
    · rintro ⟨h1, q, hq, h2, c, hc, h3⟩
      exact ⟨h1, q, hq, h2, by simp [sqlGt, hc, h3]⟩

/-- C5: for every store, `DeletePod(U, D)` returns, and afterwards either pod
`U` has no mount row or every mount row of `U` that references a PVC row
references one whose create_time, when it is set, is at most `D`; and whenever
some mount row of `U` referenced a PVC created after `D`, no mount row of `U`
is left.  (A PVC row without create_time exists only as the target of an early
bind; no mount row is ever resolved to such a row.) -/
theorem DeletePod_cleanup (fuel : Nat) (db : DB) (U : String) (D : Time)
    (watcher_ns rv : String) :
    ∃ db', DeletePod (fuel + 1) db U D watcher_ns rv = .returned db' ∧
      db'.pvc = db.pvc ∧
      ((∀ m ∈ db'.pod_mount, m.pod_uid ≠ U) ∨
        (∀ m ∈ db'.pod_mount, m.pod_uid = U → ∀ u, m.pvc_uid = some u →
          ∀ q ∈ db'.pvc, q.uid = u → ∀ c ∈ q.create_time, c ≤ D)) ∧
      ((∃ m ∈ db.pod_mount, m.pod_uid = U ∧ ∃ u, m.pvc_uid = some u ∧
          ∃ q ∈ db.pvc, q.uid = u ∧ ∃ c, q.create_time = some c ∧ D < c) →
        ∀ m ∈ db'.pod_mount, m.pod_uid ≠ U) := by
  refine ⟨_, DeletePod_returns fuel db U D watcher_ns rv, rfl, ?_, ?_⟩
  · simp only []
    by_cases hbad : db.pod_mount.any (isBadPodMount db.pvc U D) = true
    · left
      simp only [hbad, if_true]
      intro m hm
      rw [List.mem_filter] at hm
      simpa using hm.2
    · right
      simp only [hbad, Bool.false_eq_true, if_false]
      intro m hm hU u hu q hq hqu c hc
      by_contra hlt
      apply hbad
      rw [List.any_eq_true]
      exact ⟨m, hm, (isBadPodMount_iff db.pvc U D m).mpr
        ⟨hU, u, hu, q, hq, hqu, c, hc, Nat.lt_of_not_le hlt⟩⟩
  · rintro ⟨m, hm, hU, u, hu, q, hq, hqu, c, hc, hlt⟩
    have hbad : db.pod_mount.any (isBadPodMount db.pvc U D) = true := by
      rw [List.any_eq_true]
      exact ⟨m, hm, (isBadPodMount_iff db.pvc U D m).mpr ⟨hU, u, hu, q, hq, hqu, c, hc, hlt⟩⟩
    simp only [hbad, if_true]
    intro m' hm'
    rw [List.mem_filter] at hm'
    simpa using hm'.2

/-! ## C6: bind before claim -/

/-- The store `BindPVC` commits for a PVC uid that is not stored. -/
theorem BindPVC_returns_fresh (fuel : Nat) (db : DB) (pvUID pvcUID : String) (t : Time)
    (rv : String) (hfresh : ∀ r ∈ db.pvc, r.uid ≠ pvcUID) :
    BindPVC (fuel + 1) db pvUID pvcUID t rv =
      .returned
        { db with
          pvc := db.pvc ++ [{ uid := pvcUID, name := none, create_time := none,
                              delete_time := none, bind_time := some t, pv_uid := some pvUID,
                              namespace_ := none, storage := none, access_modes := none,
                              json := none }],
          resource_version := upsertRVRows db.resource_version PVs PVNamespace rv rv } := by
  have hany : (db.pvc.any fun r => decide (r.uid = pvcUID)) = false := by
    rw [List.any_eq_false]
    intro r hr
    simpa using hfresh r hr
  unfold BindPVC
  apply runTx_of_done
  unfold BindPVC.txFunc bindStatements_PVC bindPVCRows
  simp [hany, updateRV_eq]

theorem upsertPVCRows_filter (table : List PVCRow) (uid name : String) (T : Time)
    (ns : String) (storage : Int) (modes json : String) (r : PVCRow)
    (h : table.filter (fun q => q.uid = uid) = [r]) :
    (upsertPVCRows table uid name T ns storage modes json name T ns storage modes json).filter
        (fun q => q.uid = uid) =
      [{ r with name := some name, create_time := some T, namespace_ := some ns,
                storage := some storage, access_modes := some modes, json := some json }] := by
  have hr : r ∈ table.filter (fun q => q.uid = uid) := by
    rw [h]
    exact List.mem_singleton_self r
  rw [List.mem_filter] at hr
  have hany : (table.any fun q => decide (q.uid = uid)) = true := by
    rw [List.any_eq_true]
    exact ⟨r, hr.1, hr.2⟩
  have hru : r.uid = uid := by simpa using hr.2
  unfold upsertPVCRows
  simp only [hany, if_true]
  rw [List.filter_map]
  have hcomp : ((fun q : PVCRow => decide (q.uid = uid)) ∘ fun q : PVCRow =>
      if q.uid = uid then
        { q with name := some name, create_time := some T, namespace_ := some ns,
                 storage := some storage, access_modes := some modes, json := some json }
      else q) = fun q : PVCRow => decide (q.uid = uid) := by
    funext q
    by_cases hq : q.uid = uid <;> simp [hq]
  rw [hcomp, h]
  simp [hru]

/-- C6: `BindPVC(pv, pvc, t, rv)` for a PVC uid with no stored row returns and
leaves exactly one `pvc` row of that uid, with `pv_uid = pv`, `bind_time = t` and
every other column NULL (name, create_time and delete_time among them).  A later
`InsertPVC` for the same uid, run on any store that holds exactly one row `r` of
that uid, returns and leaves exactly one row of that uid: `r` with name,
create_time, namespace, storage, access modes and raw object set to the
arguments, and with `pv_uid`, `bind_time` and `delete_time` as they were. -/
theorem BindPVC_before_InsertPVC (fuel : Nat) (db : DB) (pvUID pvcUID : String) (t : Time)
    (rv : String) (hfresh : ∀ r ∈ db.pvc, r.uid ≠ pvcUID) :
    (∃ db1, BindPVC (fuel + 1) db pvUID pvcUID t rv = .returned db1 ∧
      db1.pvc.filter (fun q => q.uid = pvcUID) =
        [{ uid := pvcUID, name := none, create_time := none, delete_time := none,
           bind_time := some t, pv_uid := some pvUID, namespace_ := none, storage := none,
           access_modes := none, json := none }]) ∧
    (∀ (fuel2 : Nat) (mid : DB) (r : PVCRow) (name : String) (T : Time) (ns : String)
        (storage : Int) (modes : List String) (json watcherNS rv2 : String),
      mid.pvc.filter (fun q => q.uid = pvcUID) = [r] →
      ∃ db2, InsertPVC (fuel2 + 1) mid pvcUID name T ns storage modes json watcherNS rv2 =
          .returned db2 ∧
        db2.pvc.filter (fun q => q.uid = pvcUID) =
          [{ uid := r.uid, name := some name, create_time := some T,
             delete_time := r.delete_time, bind_time := r.bind_time, pv_uid := r.pv_uid,
             namespace_ := some ns, storage := some storage,
             access_modes := some (GetAccessModeString modes), json := some json }]) := by
  constructor
  · refine ⟨_, BindPVC_returns_fresh fuel db pvUID pvcUID t rv hfresh, ?_⟩
    simp only []
    rw [List.filter_append]
    have h0 : db.pvc.filter (fun q => decide (q.uid = pvcUID)) = [] := by
      rw [List.filter_eq_nil_iff]
      intro r hr
      simpa using hfresh r hr
    rw [h0]
    simp
  · intro fuel2 mid r name T ns storage modes json watcherNS rv2 hmid
    refine ⟨_, InsertPVC_returns fuel2 mid pvcUID name T ns storage modes json watcherNS rv2, ?_⟩
    exact upsertPVCRows_filter mid.pvc pvcUID name T ns storage (GetAccessModeString modes) json
      r hmid

/-- C6 witness: the scenario of `TestOutOfOrderBind`: the bind on the empty
store, then the insert of the claim on the store the bind left. -/
theorem BindPVC_before_InsertPVC_witness :
    (∃ db1, BindPVC 1 DB.empty "pv1" "pvc1" 7 "401" = .returned db1 ∧
      db1.pvc.filter (fun q => q.uid = "pvc1") =
        [{ uid := "pvc1", name := none, create_time := none, delete_time := none,
           bind_time := some 7, pv_uid := some "pv1", namespace_ := none, storage := none,
           access_modes := none, json := none }]) ∧
    (BindPVC 1 DB.empty "pv1" "pvc1" 7 "401" = .returned storeAfterBind) ∧
    (∃ db2, InsertPVC 1 storeAfterBind "pvc1" "test-pvc" 3 "ns" 200 ["ReadWriteOnce"] "{}"
        "watcher-ns" "200" = .returned db2 ∧
      db2.pvc.filter (fun q => q.uid = "pvc1") =
        [{ uid := "pvc1", name := some "test-pvc", create_time := some 3, delete_time := none,
           bind_time := some 7, pv_uid := some "pv1", namespace_ := some "ns",
           storage := some 200, access_modes := some "ReadWriteOnce", json := some "{}" }]) :=
  ⟨(BindPVC_before_InsertPVC 0 DB.empty "pv1" "pvc1" 7 "401" (by decide)).1,
   by decide,
   (BindPVC_before_InsertPVC 0 DB.empty "pv1" "pvc1" 7 "401" (by decide)).2 0 storeAfterBind
     { uid := "pvc1", name := none, create_time := none, delete_time := none,
       bind_time := some 7, pv_uid := some "pv1", namespace_ := none, storage := none,
       access_modes := none, json := none }
     "test-pvc" 3 "ns" 200 ["ReadWriteOnce"] "{}" "watcher-ns" "200" (by decide)⟩

/-! ## C7: checkpoints -/

/-- A call that returned committed a transaction or swallowed a duplicate key
at its first attempt: a failed attempt leaves the store as it was, so every
retry fails in the same way. -/
theorem runTx_returned (fuel : Nat) (db db' : DB) (txFunc : DB → BodyResult)
    (h : runTx fuel db txFunc = .returned db') : runTxActual db txFunc = .done db' none := by
  induction fuel with
  | zero => simp [runTx] at h
  | succ n ih =>
    unfold runTx at h
    cases hact : runTxActual db txFunc with
    | fatal msg => simp [hact] at h
    | done db1 err =>
      cases err with
      | none =>
        simp only [hact, Outcome.returned.injEq] at h
        rw [h]
      | some e =>
        simp only [hact] at h
        have hdb : db1 = db := by
          unfold runTxActual at hact
          cases hf : txFunc db with
          | fatal msg => simp [hf] at hact
          | done tx err' =>
            cases err' with
            | none => simp [hf] at hact
            | some e' =>
              simp only [hf] at hact
              split at hact
              · simp at hact
              · simp only [TxResult.done.injEq] at hact
                exact hact.1.symm
        rw [hdb] at h
        rw [ih h] at hact
        simp at hact

theorem literal_key_pred (R S : String) (hR : noLikeMeta R = true) (hS : noLikeMeta S = true) :
    (fun r : RVRow => sqlLike r.resource R && sqlLike r.namespace_ S) =
      fun r : RVRow => decide (r.resource = R ∧ r.namespace_ = S) := by
  funext r
  have h1 := sqlLike_literal R hR r.resource
  have h2 := sqlLike_literal S hS r.namespace_
  by_cases a : r.resource = R <;> by_cases b : r.namespace_ = S <;>
    simp [a, b, h1.mpr, h2.mpr, h1, h2] <;> simp_all

theorem find_key_upsert_same (t : List RVRow) (R S rv : String) :
    ((upsertRVRows t R S rv rv).find? (fun r => decide (r.resource = R ∧ r.namespace_ = S))).map
        (fun r => r.resource_version) = some rv := by
  unfold upsertRVRows
  by_cases hany : (t.any fun r => decide (r.resource = R ∧ r.namespace_ = S)) = true
  · simp only [hany, if_true]
    rw [List.find?_map]
    have hcomp : ((fun r : RVRow => decide (r.resource = R ∧ r.namespace_ = S)) ∘
        fun r : RVRow => if r.resource = R ∧ r.namespace_ = S
          then { r with resource_version := rv } else r) =
        fun r : RVRow => decide (r.resource = R ∧ r.namespace_ = S) := by
      funext r
      by_cases h : r.resource = R ∧ r.namespace_ = S
      · simp [h]
      · simp only [Function.comp, if_neg h]
    rw [hcomp]
    rw [List.any_eq_true] at hany
    obtain ⟨r0, hr0, hk0⟩ := hany
    cases hf : t.find? (fun r => decide (r.resource = R ∧ r.namespace_ = S)) with
    | none =>
      rw [List.find?_eq_none] at hf
      exact absurd hk0 (hf r0 hr0)
    | some r =>
      have hk := List.find?_some hf
      simp only [decide_eq_true_eq] at hk
      simp [hk]
  · simp only [hany, Bool.false_eq_true, if_false]
    rw [List.find?_append]
    have hnone : t.find? (fun r => decide (r.resource = R ∧ r.namespace_ = S)) = none := by
      rw [List.find?_eq_none]
      intro r hr hk
      exact hany (List.any_eq_true.mpr ⟨r, hr, hk⟩)
    rw [hnone]
    simp

theorem find_key_upsert_other (t : List RVRow) (R S rv R' S' : String)
    (hne : (R', S') ≠ (R, S)) :
    ((upsertRVRows t R S rv rv).find? (fun r => decide (r.resource = R' ∧ r.namespace_ = S'))).map
        (fun r => r.resource_version) =
      (t.find? (fun r => decide (r.resource = R' ∧ r.namespace_ = S'))).map
        (fun r => r.resource_version) := by
  have hne' : ∀ r : RVRow, r.resource = R' ∧ r.namespace_ = S' →
      ¬ (r.resource = R ∧ r.namespace_ = S) := by
    intro r h1 h2
    apply hne
    rw [← h1.1, ← h1.2, h2.1, h2.2]
  unfold upsertRVRows
  by_cases hany : (t.any fun r => decide (r.resource = R ∧ r.namespace_ = S)) = true
  · simp only [hany, if_true]
    rw [List.find?_map]
    have hcomp : ((fun r : RVRow => decide (r.resource = R' ∧ r.namespace_ = S')) ∘
        fun r : RVRow => if r.resource = R ∧ r.namespace_ = S
          then { r with resource_version := rv } else r) =
        fun r : RVRow => decide (r.resource = R' ∧ r.namespace_ = S') := by
      funext r
      by_cases h : r.resource = R ∧ r.namespace_ = S
      · simp [h]
      · simp only [Function.comp, if_neg h]
    rw [hcomp]
    cases hf : t.find? (fun r => decide (r.resource = R' ∧ r.namespace_ = S')) with
    | none => rfl
    | some r =>
      have hk := List.find?_some hf
      simp only [decide_eq_true_eq] at hk
      simp [hne' r hk]
  · simp only [hany, Bool.false_eq_true, if_false]
    rw [List.find?_append]
    have hnew : List.find? (fun r : RVRow => decide (r.resource = R' ∧ r.namespace_ = S'))
        [{ resource := R, namespace_ := S, resource_version := rv }] = none := by
      rw [List.find?_eq_none]
      intro r hr hk
      rw [List.mem_singleton] at hr
      subst hr
      simp only [decide_eq_true_eq] at hk
      exact hne (by rw [hk.1, hk.2])
    rw [hnew]
    simp

theorem GetRV_literal (db : DB) (R S : String) (hR : noLikeMeta R = true)
    (hS : noLikeMeta S = true) :
    GetRV db R S =
      ((db.resource_version.find? (fun r => decide (r.resource = R ∧ r.namespace_ = S))).map
        (fun r => r.resource_version)).getD "" := by
  unfold GetRV
  rw [literal_key_pred R S hR hS]
  cases db.resource_version.find? (fun r => decide (r.resource = R ∧ r.namespace_ = S)) <;> rfl

/-- A store whose checkpoint table is the upsert of (`R`, `S`, `rv`) into the
old one has moved the checkpoint of (`R`, `S`) and no other. -/
theorem checkpointMoved_of_upsert (db db' : DB) (R S rv : String)
    (hR : noLikeMeta R = true) (hS : noLikeMeta S = true)
    (h : db'.resource_version = upsertRVRows db.resource_version R S rv rv) :
    checkpointMoved db db' R S rv := by
  constructor
  · rw [GetRV_literal db' R S hR hS, h, find_key_upsert_same]
    rfl
  · intro R' S' hR' hS' hne
    rw [GetRV_literal db' R' S' hR' hS', GetRV_literal db R' S' hR' hS', h,
      find_key_upsert_other _ R S rv R' S' hne]

theorem runTx_returned_of_done (fuel : Nat) (db db0 db' : DB) (txFunc : DB → BodyResult)
    (hbody : txFunc db = .done db0 none) (h : runTx fuel db txFunc = .returned db') :
    db' = db0 := by
  have hact := runTx_returned fuel db db' txFunc h
  simp only [runTxActual, hbody, TxResult.done.injEq, and_true] at hact
  exact hact.symm

theorem InsertPod_checkpoint (fuel : Nat) (db db' : DB) (uid name : String) (T : Time)
    (ns : String) (cs : List ContainerDesc) (json S rv : String)
    (hpod : ∀ p ∈ db.pod, p.uid ≠ uid)
    (hcont : ∀ r ∈ db.container, r.pod_uid ≠ uid)
    (hnodup : (cs.map (fun c => c.Name)).Nodup)
    (h : InsertPod fuel db uid name T ns cs json S rv = .returned db') :
    db'.resource_version = upsertRVRows db.resource_version Pods S rv rv := by
  obtain ⟨db0, hbody, _, _, hrv⟩ :=
    InsertPod_txFunc_eq db uid name T ns cs json S rv hpod hcont hnodup
  rw [runTx_returned_of_done fuel db db0 db' _ hbody h]
  exact hrv

theorem DeletePod_checkpoint (fuel : Nat) (db db' : DB) (uid : String) (D : Time)
    (S rv : String) (h : DeletePod fuel db uid D S rv = .returned db') :
    db'.resource_version = upsertRVRows db.resource_version Pods S rv rv := by
  cases fuel with
  | zero => simp [DeletePod, runTx] at h
  | succ n =>
    rw [DeletePod_returns] at h
    simp only [Outcome.returned.injEq] at h
    rw [← h]

theorem InsertPVC_checkpoint (fuel : Nat) (db db' : DB) (uid name : String) (T : Time)
    (ns : String) (storage : Int) (modes : List String) (json S rv : String)
    (h : InsertPVC fuel db uid name T ns storage modes json S rv = .returned db') :
    db'.resource_version = upsertRVRows db.resource_version PVCs S rv rv := by
  cases fuel with
  | zero => simp [InsertPVC, runTx] at h
  | succ n =>
    rw [InsertPVC_returns] at h
    simp only [Outcome.returned.injEq] at h
    rw [← h]

theorem UpdatePVC_checkpoint (fuel : Nat) (db db' : DB) (uid : String) (storage : Int)
    (modes : List String) (json S rv : String)
    (h : UpdatePVC fuel db uid storage modes json S rv = .returned db') :
    db'.resource_version = upsertRVRows db.resource_version PVCs S rv rv := by
  rw [runTx_returned_of_done fuel db _ db' _ rfl h]

theorem DeletePVC_checkpoint (fuel : Nat) (db db' : DB) (uid : String) (D : Time)
    (S rv : String) (h : DeletePVC fuel db uid D S rv = .returned db') :
    db'.resource_version = upsertRVRows db.resource_version PVCs S rv rv := by
  rw [runTx_returned_of_done fuel db _ db' _ rfl h]

theorem DeletePV_checkpoint (fuel : Nat) (db db' : DB) (uid : String) (D : Time)
    (rv : String) (h : DeletePV fuel db uid D rv = .returned db') :
    db'.resource_version = upsertRVRows db.resource_version PVs PVNamespace rv rv := by
  rw [runTx_returned_of_done fuel db _ db' _ rfl h]

theorem UpdatePV_checkpoint (fuel : Nat) (db db' : DB) (uid : String) (backendID : Int)
    (backendType : Table) (storage : Int) (modes : List String) (json rv : String)
    (h : UpdatePV fuel db uid backendID backendType storage modes json rv = .returned db') :
    db'.resource_version = upsertRVRows db.resource_version PVs PVNamespace rv rv := by
  cases backendType with
  | unset => simp [UpdatePV] at h
  | NFS => rw [runTx_returned_of_done fuel db _ db' _ rfl h]
  | ISCSI => rw [runTx_returned_of_done fuel db _ db' _ rfl h]

theorem InsertPV_checkpoint (fuel : Nat) (db db' : DB) (uid name : String) (T : Time)
    (backendID : Int) (backendType : Table) (storage : Int) (modes : List String)
    (json rv : String) (hfresh : ∀ r ∈ db.pv, r.uid ≠ uid)
    (h : InsertPV fuel db uid name T backendID backendType storage modes json rv =
      .returned db') :
    db'.resource_version = upsertRVRows db.resource_version PVs PVNamespace rv rv := by
  have hany : (db.pv.any fun r => decide (r.uid = uid)) = false := by
    rw [List.any_eq_false]
    intro r hr
    simpa using hfresh r hr
  cases backendType with
  | unset =>
    have := runTx_returned fuel db db' _ h
    simp [runTxActual, InsertPV.txFunc] at this
  | NFS =>
    have hbody : InsertPV.txFunc uid name T backendID .NFS storage modes json rv db =
        .done { db with
                pv := db.pv ++ [{ uid := uid, name := name, create_time := T,
                                  delete_time := none, storage := storage,
                                  access_modes := GetAccessModeString modes, json := json,
                                  nfs_id := backendID, iscsi_id := 0 }],
                resource_version := upsertRVRows db.resource_version PVs PVNamespace rv rv }
          none := by
      simp [InsertPV.txFunc, insertStatements_PV, hany, updateRV_eq]
    rw [runTx_returned_of_done fuel db _ db' _ hbody h]
  | ISCSI =>
    have hbody : InsertPV.txFunc uid name T backendID .ISCSI storage modes json rv db =
        .done { db with
                pv := db.pv ++ [{ uid := uid, name := name, create_time := T,
                                  delete_time := none, storage := storage,
                                  access_modes := GetAccessModeString modes, json := json,
                                  nfs_id := 0, iscsi_id := backendID }],
                resource_version := upsertRVRows db.resource_version PVs PVNamespace rv rv }
          none := by
      simp [InsertPV.txFunc, insertStatements_PV, hany, updateRV_eq]
    rw [runTx_returned_of_done fuel db _ db' _ hbody h]

theorem BindPVC_txFunc_cases (db : DB) (pvUID pvcUID : String) (t : Time) (rv : String) :
    (∃ tx msg, BindPVC.txFunc pvUID pvcUID t rv db = .done tx (some (.errorf msg))) ∨
    (∃ tx, BindPVC.txFunc pvUID pvcUID t rv db = .done tx none ∧
      tx.resource_version = upsertRVRows db.resource_version PVs PVNamespace rv rv) := by
  unfold BindPVC.txFunc bindStatements_PVC
  simp only [updateRV_eq]
  generalize (if (db.pvc.any fun r => decide (r.uid = pvcUID)) = true then
      (if changedRows db.pvc (bindPVCRows db.pvc pvcUID pvUID t pvUID t) = 0 then (0 : Int)
       else 2) else 1) = n
  by_cases hc : n < 1 ∨ n > 2
  · left
    exact ⟨_, _, if_pos hc⟩
  · right
    exact ⟨_, if_neg hc, rfl⟩

theorem BindPVC_checkpoint (fuel : Nat) (db db' : DB) (pvUID pvcUID : String) (t : Time)
    (rv : String) (h : BindPVC fuel db pvUID pvcUID t rv = .returned db') :
    db'.resource_version = upsertRVRows db.resource_version PVs PVNamespace rv rv := by
  rcases BindPVC_txFunc_cases db pvUID pvcUID t rv with ⟨tx, msg, hb⟩ | ⟨tx, hb, hrv⟩
  · have hact := runTx_returned fuel db db' _ h
    simp [runTxActual, hb] at hact
  · rw [runTx_returned_of_done fuel db tx db' _ hb h]
    exact hrv

/-- C7, amended: let the scope `S` hold no `LIKE` metacharacter (`GetRV` looks the
checkpoint up with `LIKE`).  Whenever one of `DeletePod`, `InsertPVC`,
`UpdatePVC`, `DeletePVC`, `UpdatePV`, `DeletePV`, `BindPVC` returns, and whenever
`InsertPod` or `InsertPV` returns for a uid that was not stored before (for
`InsertPod` also: no container row of the pod stored, container names distinct;
on a duplicate key these two return with the transaction rolled back), `GetRV`
for the resource type and scope of the call returns `rv` and `GetRV` of every
other literal (resource type, scope) returns what it returned before. -/
theorem checkpoint_after_call (db : DB) (S rv : String) (hS : noLikeMeta S = true) :
    (∀ (fuel : Nat) (uid name : String) (T : Time) (ns : String) (cs : List ContainerDesc)
        (json : String) (db' : DB),
      (∀ p ∈ db.pod, p.uid ≠ uid) → (∀ r ∈ db.container, r.pod_uid ≠ uid) →
      (cs.map (fun c => c.Name)).Nodup →
      InsertPod fuel db uid name T ns cs json S rv = .returned db' →
      checkpointMoved db db' Pods S rv) ∧
    (∀ (fuel : Nat) (uid : String) (D : Time) (db' : DB),
      DeletePod fuel db uid D S rv = .returned db' → checkpointMoved db db' Pods S rv) ∧
    (∀ (fuel : Nat) (uid name : String) (T : Time) (ns : String) (storage : Int)
        (modes : List String) (json : String) (db' : DB),
      InsertPVC fuel db uid name T ns storage modes json S rv = .returned db' →
      checkpointMoved db db' PVCs S rv) ∧
    (∀ (fuel : Nat) (uid : String) (storage : Int) (modes : List String) (json : String)
        (db' : DB),
      UpdatePVC fuel db uid storage modes json S rv = .returned db' →
      checkpointMoved db db' PVCs S rv) ∧
    (∀ (fuel : Nat) (uid : String) (D : Time) (db' : DB),
      DeletePVC fuel db uid D S rv = .returned db' → checkpointMoved db db' PVCs S rv) ∧
    (∀ (fuel : Nat) (uid name : String) (T : Time) (backendID : Int) (backendType : Table)
        (storage : Int) (modes : List String) (json : String) (db' : DB),
      (∀ r ∈ db.pv, r.uid ≠ uid) →
      InsertPV fuel db uid name T backendID backendType storage modes json rv = .returned db' →
      checkpointMoved db db' PVs PVNamespace rv) ∧
    (∀ (fuel : Nat) (uid : String) (backendID : Int) (backendType : Table) (storage : Int)
        (modes : List String) (json : String) (db' : DB),
      UpdatePV fuel db uid backendID backendType storage modes json rv = .returned db' →
      checkpointMoved db db' PVs PVNamespace rv) ∧
    (∀ (fuel : Nat) (uid : String) (D : Time) (db' : DB),
      DeletePV fuel db uid D rv = .returned db' → checkpointMoved db db' PVs PVNamespace rv) ∧
    (∀ (fuel : Nat) (pvUID pvcUID : String) (t : Time) (db' : DB),
      BindPVC fuel db pvUID pvcUID t rv = .returned db' →
      checkpointMoved db db' PVs PVNamespace rv) := by
  have hPods : noLikeMeta Pods = true := by decide
  have hPVCs : noLikeMeta PVCs = true := by decide
  have hPVs : noLikeMeta PVs = true := by decide
  have hNS : noLikeMeta PVNamespace = true := by decide
  refine ⟨?_, ?_, ?_, ?_, ?_, ?_, ?_, ?_, ?_⟩
  · intro fuel uid name T ns cs json db' hpod hcont hnodup h
    exact checkpointMoved_of_upsert db db' Pods S rv hPods hS
      (InsertPod_checkpoint fuel db db' uid name T ns cs json S rv hpod hcont hnodup h)
  · intro fuel uid D db' h
    exact checkpointMoved_of_upsert db db' Pods S rv hPods hS
      (DeletePod_checkpoint fuel db db' uid D S rv h)
  · intro fuel uid name T ns storage modes json db' h
    exact checkpointMoved_of_upsert db db' PVCs S rv hPVCs hS
      (InsertPVC_checkpoint fuel db db' uid name T ns storage modes json S rv h)
  · intro fuel uid storage modes json db' h
    exact checkpointMoved_of_upsert db db' PVCs S rv hPVCs hS
      (UpdatePVC_checkpoint fuel db db' uid storage modes json S rv h)
  · intro fuel uid D db' h
    exact checkpointMoved_of_upsert db db' PVCs S rv hPVCs hS
      (DeletePVC_checkpoint fuel db db' uid D S rv h)
  · intro fuel uid name T backendID backendType storage modes json db' hfresh h
    exact checkpointMoved_of_upsert db db' PVs PVNamespace rv hPVs hNS
      (InsertPV_checkpoint fuel db db' uid name T backendID backendType storage modes json rv
        hfresh h)
  · intro fuel uid backendID backendType storage modes json db' h
    exact checkpointMoved_of_upsert db db' PVs PVNamespace rv hPVs hNS
      (UpdatePV_checkpoint fuel db db' uid backendID backendType storage modes json rv h)
  · intro fuel uid D db' h
    exact checkpointMoved_of_upsert db db' PVs PVNamespace rv hPVs hNS
      (DeletePV_checkpoint fuel db db' uid D rv h)
  · intro fuel pvUID pvcUID t db' h
    exact checkpointMoved_of_upsert db db' PVs PVNamespace rv hPVs hNS
      (BindPVC_checkpoint fuel db db' pvUID pvcUID t rv h)

/-- C7 witness: `DeletePod("pod-1", 1, "ns", "9")` on the store of
`TestFixPodMount` returns, and the pod checkpoint of scope `ns` then reads `9`. -/
theorem checkpoint_after_call_witness :
    DeletePod 1 storeFixPodMount "pod-1" 1 "ns" "9" = .returned storeAfterDeletePod ∧
      checkpointMoved storeFixPodMount storeAfterDeletePod Pods "ns" "9" ∧
      GetRV storeAfterDeletePod Pods "ns" = "9" :=
  ⟨by decide,
   (checkpoint_after_call storeFixPodMount "ns" "9" (by decide)).2.1 1 "pod-1" 1
     storeAfterDeletePod (by decide),
   by decide⟩

/-- C7 fails as stated, on two inputs.
(1) `InsertPod` with resource version `10` for a pod uid that is already stored:
the duplicate key is swallowed, the call returns with the store unchanged and
the pod checkpoint of the scope still reads `7`.
(2) `DeletePod` for scope `a_c` with resource version `2` on a store that holds
a pod checkpoint `1` for scope `abc`: the call returns and has written its row,
but `GetRV` compares the scope with `LIKE`, finds the row of `abc` first and
returns `1`. -/
theorem checkpoint_after_call_counterexample :
    (InsertPod 1 storeReplay "pod-1" "test-pod" 3 "ns" [exampleContainer "c" ["foo"]] "{}"
        "ns" "10" = .returned storeReplay ∧
      GetRV storeReplay Pods "ns" = "7") ∧
    ((DeletePod 1 storeScopes "pod-x" 5 "a_c" "2").store.map
        (fun db => (db.resource_version, GetRV db Pods "a_c")) =
      some ([{ resource := "pods", namespace_ := "abc", resource_version := "1" },
             { resource := "pods", namespace_ := "a_c", resource_version := "2" }], "1")) := by
  decide

/-! ## C8 and C9: the reconciler loop -/

theorem stream_cons_skip {σ R : Type} (w : Watcher σ R) (rv : String) (ty : EventType) (r : R)
    (json : String) (rest : List (Input R)) (s : σ) (init : Bool) (h : w.rvOf r = rv) :
    w.stream rv (.event (.resource ty r json) :: rest) s init =
      { w.stream rv rest s init with
        actions := .skip ty r json :: (w.stream rv rest s init).actions } := by
  rw [Watcher.stream, if_pos h]

theorem stream_cons_handle {σ R : Type} (w : Watcher σ R) (rv : String) (ty : EventType)
    (r : R) (json : String) (rest : List (Input R)) (s : σ) (init : Bool)
    (h : w.rvOf r ≠ rv) :
    w.stream rv (.event (.resource ty r json) :: rest) s init =
      { w.stream rv rest (w.handler ty r json s) init with
        actions := .handle ty r json ::
          (w.stream rv rest (w.handler ty r json s) init).actions } := by
  rw [Watcher.stream, if_neg h]

/-- Objects at the head of a subscription are skipped or handled one by one,
each compared with the resume token of the subscription. -/
theorem stream_resourceInputs {σ R : Type} (w : Watcher σ R) (rv : String)
    (objs : List (EventType × R × String)) (rest : List (Input R)) (s : σ) (init : Bool) :
    w.stream rv (resourceInputs objs ++ rest) s init =
      { state := (w.stream rv rest (afterObjects w rv objs s) init).state,
        init := (w.stream rv rest (afterObjects w rv objs s) init).init,
        actions := objs.map (decideObject w rv) ++
          (w.stream rv rest (afterObjects w rv objs s) init).actions,
        ending := (w.stream rv rest (afterObjects w rv objs s) init).ending } := by
  induction objs generalizing s with
  | nil => rfl
  | cons o objs ih =>
    obtain ⟨ty, r, json⟩ := o
    show w.stream rv (.event (.resource ty r json) :: (resourceInputs objs ++ rest)) s init = _
    by_cases h : w.rvOf r = rv
    · rw [stream_cons_skip w rv ty r json _ s init h, ih]
      simp [afterObjects, decideObject, h]
    · rw [stream_cons_handle w rv ty r json _ s init h, ih]
      simp [afterObjects, decideObject, h]

/-- C8: when a subscription delivers, after any objects, a frame whose error is
EOF and whose payload is a Status with code 410, the reconciler closes the
subscription and opens the next one with the empty resume token, whatever the
storage manager holds and whatever `GetRV` would return. -/
theorem watchLoop_horizon_lost {σ R : Type} (w : Watcher σ R) (resource : ResourceType)
    (objs : List (EventType × R × String)) (rest next : List (Input R))
    (more : List (List (Input R))) (s : σ) (init : Bool) :
    ∃ tail,
      w.watchLoop resource
          ((resourceInputs objs ++ .event (.status StatusTooOld) :: rest) :: next :: more)
          s init =
        .subscribe resource w.namespace_ (w.getRV s resource init) ::
          objs.map (decideObject w (w.getRV s resource init)) ++
            .closeDone :: .subscribe resource w.namespace_ "" :: tail := by
  refine ⟨(w.stream "" next (afterObjects w (w.getRV s resource init) objs s) true).actions ++
    (match (w.stream "" next (afterObjects w (w.getRV s resource init) objs s) true).ending with
     | .reopen =>
       w.watchLoop resource more
         (w.stream "" next (afterObjects w (w.getRV s resource init) objs s) true).state
         (w.stream "" next (afterObjects w (w.getRV s resource init) objs s) true).init
     | _ => []), ?_⟩
  rw [Watcher.watchLoop, stream_resourceInputs]
  simp only [Watcher.stream, if_true, List.append_assoc, List.singleton_append,
    List.cons_append, List.nil_append]
  rw [Watcher.watchLoop]
  simp only [Watcher.getRV, if_true]
  rfl

/-- C9, amended: within one subscription an incoming object is skipped (its
handler is not called) exactly when its resource version equals the resume
token with which the subscription was opened, that is the checkpoint read from
the store before subscribing, or the empty string on an initializing
subscription; every other object is passed to the handler.  The token is not
moved by the objects handled in the subscription. -/
theorem watchLoop_duplicate_suppression {σ R : Type} (w : Watcher σ R)
    (resource : ResourceType) (objs : List (EventType × R × String)) (rest : List (Input R))
    (more : List (List (Input R))) (s : σ) (init : Bool) :
    ∃ tail,
      w.watchLoop resource ((resourceInputs objs ++ rest) :: more) s init =
        .subscribe resource w.namespace_ (w.getRV s resource init) ::
          objs.map (fun o =>
            if w.rvOf o.2.1 = w.getRV s resource init then Action.skip o.1 o.2.1 o.2.2
            else Action.handle o.1 o.2.1 o.2.2) ++ tail := by
  refine ⟨(w.stream (w.getRV s resource init) rest
      (afterObjects w (w.getRV s resource init) objs s) init).actions ++
    (match (w.stream (w.getRV s resource init) rest
        (afterObjects w (w.getRV s resource init) objs s) init).ending with
     | .reopen =>
       w.watchLoop resource more
         (w.stream (w.getRV s resource init) rest
           (afterObjects w (w.getRV s resource init) objs s) init).state
         (w.stream (w.getRV s resource init) rest
           (afterObjects w (w.getRV s resource init) objs s) init).init
     | _ => []), ?_⟩
  rw [Watcher.watchLoop, stream_resourceInputs]
  simp only [List.append_assoc, List.cons_append]
  rfl

/-- C9 fails as stated: a subscription opened with the stored checkpoint `5`
delivers objects with resource versions `6`, `6` and `5`.  The second object has
the version of the object processed just before it, yet it is handled; the third
has another version than the object processed before it, yet it is skipped,
because it equals the resume token. -/
theorem watchLoop_duplicate_suppression_counterexample :
    exampleWatcher.watchLoop Pods
        [[.event (.resource .Added "6" "a"), .event (.resource .Modified "6" "b"),
          .event (.resource .Modified "5" "c")]] "5" false =
      [.subscribe "pods" "ns" "5", .handle .Added "6" "a", .handle .Modified "6" "b",
       .skip .Modified "5" "c"] := by
  decide

/-! ## C10: `InsertPod` and `InsertPV` on a stored uid -/

/-- C10, amended: `InsertPod` and `InsertPV` insert when the uid is new and do
nothing when it is stored.  On every store: when a pod row with the uid is
stored, `InsertPod` returns and leaves the whole store as it was (the stored row
keeps its old name, create_time, namespace and raw object, no container or
mount row is written and the checkpoint is not moved), whatever the table `pv`
holds; when a pv row with the uid is stored, `InsertPV` with an NFS or iSCSI
backend does the same, whatever the table `pod` holds.  The insert fails on the
duplicate key, and `runTxActual` rolls back and swallows that error. -/
theorem InsertPod_InsertPV_stored_uid (fuel : Nat) (db : DB) :
    (∀ (podUID : String), (∃ p ∈ db.pod, p.uid = podUID) →
      ∀ (name : String) (T : Time) (ns : String) (cs : List ContainerDesc)
        (json watcherNS rv : String),
      InsertPod (fuel + 1) db podUID name T ns cs json watcherNS rv = .returned db) ∧
    (∀ (pvUID : String) (backendType : Table), (∃ r ∈ db.pv, r.uid = pvUID) →
      backendType ≠ .unset →
      ∀ (name : String) (T : Time) (backendID storage : Int) (modes : List String)
        (json rv : String),
      InsertPV (fuel + 1) db pvUID name T backendID backendType storage modes json rv =
        .returned db) := by
  constructor
  · intro podUID hpod name T ns cs json watcherNS rv
    obtain ⟨p, hp, hu⟩ := hpod
    have hany : (db.pod.any fun p => decide (p.uid = podUID)) = true := by
      rw [List.any_eq_true]
      exact ⟨p, hp, by simpa using hu⟩
    unfold InsertPod
    apply runTx_of_duplicate fuel db db
    simp [InsertPod.txFunc, insertStatements_Pod, hany]
  · intro pvUID backendType hpv hbackend name T backendID storage modes json rv
    obtain ⟨r, hr, hu⟩ := hpv
    have hany : (db.pv.any fun r => decide (r.uid = pvUID)) = true := by
      rw [List.any_eq_true]
      exact ⟨r, hr, by simpa using hu⟩
    unfold InsertPV
    apply runTx_of_duplicate fuel db db
    cases backendType with
    | unset => exact absurd rfl hbackend
    | NFS => simp [InsertPV.txFunc, insertStatements_PV, hany]
    | ISCSI => simp [InsertPV.txFunc, insertStatements_PV, hany]

/-- C10 witness: a replayed ADDED event for the stored pod `pod-1` on a store
that holds no volume, and for the stored volume `pv-1`. -/
theorem InsertPod_InsertPV_stored_uid_witness :
    storeReplay.pv = [] ∧
    InsertPod 1 storeReplay "pod-1" "new-name" 9 "ns" [exampleContainer "c" ["foo"]] "{}"
        "ns" "10" = .returned storeReplay ∧
    InsertPV 1 storeReplayPV "pv-1" "new-volume" 9 2 .ISCSI 500 ["ReadOnlyMany"] "{}" "11" =
        .returned storeReplayPV :=
  ⟨rfl,
   (InsertPod_InsertPV_stored_uid 0 storeReplay).1 "pod-1" (by decide)
      "new-name" 9 "ns" [exampleContainer "c" ["foo"]] "{}" "ns" "10",
   (InsertPod_InsertPV_stored_uid 0 storeReplayPV).2 "pv-1" .ISCSI (by decide) (by decide)
      "new-volume" 9 2 500 ["ReadOnlyMany"] "{}" "11"⟩

/-- C10 fails as stated: after `InsertPod` with name `new-name` and create_time 9
for the stored pod `pod-1`, the row of `pod-1` still has name `old-name` and
create_time 3; after `InsertPV` with name `new-volume` for the stored volume
`pv-1`, the row still has name `old-volume`, storage 400 and NFS id 1. -/
theorem InsertPod_InsertPV_stored_uid_counterexample :
    (InsertPod 1 storeReplayPV "pod-1" "new-name" 9 "ns" [exampleContainer "c" ["foo"]] "{}"
        "ns" "10").store.map (fun db => db.pod.filter (fun p => p.uid = "pod-1")) =
      some [{ uid := "pod-1", name := "old-name", create_time := 3, delete_time := none,
              namespace_ := "ns", json := "{}" }] ∧
    (InsertPV 1 storeReplayPV "pv-1" "new-volume" 9 2 .ISCSI 500 ["ReadOnlyMany"] "{}"
        "11").store.map (fun db => db.pv.filter (fun r => r.uid = "pv-1")) =
      some [{ uid := "pv-1", name := "old-volume", create_time := 1, delete_time := none,
              storage := 400, access_modes := "ReadWriteOnce", json := "{}", nfs_id := 1,
              iscsi_id := 0 }] := by
  decide

/-! ## C11: a second delete call -/

/-- `DeletePVC` returns with the delete time stored and the claim checkpoint moved. -/
theorem DeletePVC_returns (fuel : Nat) (db : DB) (U : String) (D : Time)
    (watcher_ns rv : String) :
    DeletePVC (fuel + 1) db U D watcher_ns rv =
      .returned
        { db with
          pvc := db.pvc.map (fun p => if p.uid = U then { p with delete_time := some D } else p),
          resource_version := upsertRVRows db.resource_version PVCs watcher_ns rv rv } := by
  unfold DeletePVC
  apply runTx_of_done
  unfold DeletePVC.txFunc deleteStatements_PVC
  simp only [updateRV_eq]

/-- `DeletePV` returns with the delete time stored and the volume checkpoint moved. -/
theorem DeletePV_returns (fuel : Nat) (db : DB) (U : String) (D : Time) (rv : String) :
    DeletePV (fuel + 1) db U D rv =
      .returned
        { db with
          pv := db.pv.map (fun p => if p.uid = U then { p with delete_time := some D } else p),
          resource_version := upsertRVRows db.resource_version PVs PVNamespace rv rv } := by
  unfold DeletePV
  apply runTx_of_done
  unfold DeletePV.txFunc deleteStatements_PV
  simp only [updateRV_eq]

/-- Two successive delete calls with times 5 and 9 for the stored pod `pod-1`,
claim `pvc-a` and volume `pv-1`: each table ends with the second time, not the
first. -/
theorem Delete_write_once_counterexample :
    ((DeletePod 1 storeReplayPV "pod-1" 5 "ns" "8").store.bind (fun d =>
        (DeletePod 1 d "pod-1" 9 "ns" "9").store)).map (fun d =>
          d.pod.map (fun p => (p.uid, p.delete_time))) = some [("pod-1", some 9)] ∧
    ((DeletePVC 1 storeReplayPV "pvc-a" 5 "ns" "8").store.bind (fun d =>
        (DeletePVC 1 d "pvc-a" 9 "ns" "9").store)).map (fun d =>
          d.pvc.map (fun p => (p.uid, p.delete_time))) = some [("pvc-a", some 9)] ∧
    ((DeletePV 1 storeReplayPV "pv-1" 5 "8").store.bind (fun d =>
        (DeletePV 1 d "pv-1" 9 "9").store)).map (fun d =>
          d.pv.map (fun p => (p.uid, p.delete_time))) = some [("pv-1", some 9)] := by
  decide

/-- C11 (amended): a delete call overwrites.  On every store, also one in which
the row already has a `delete_time`, `DeletePod`, `DeletePVC` and `DeletePV`
return and leave in their table every row of the given uid with the delete time
of this call, and every row of another uid as it was. -/
theorem Delete_overwrites (fuel : Nat) (db : DB) (U : String) (D : Time)
    (watcher_ns rv : String) :
    (∃ db1, DeletePod (fuel + 1) db U D watcher_ns rv = .returned db1 ∧
      db1.pod = db.pod.map (fun p =>
        if p.uid = U then { p with delete_time := some D } else p)) ∧
    (∃ db2, DeletePVC (fuel + 1) db U D watcher_ns rv = .returned db2 ∧
      db2.pvc = db.pvc.map (fun p =>
        if p.uid = U then { p with delete_time := some D } else p)) ∧
    (∃ db3, DeletePV (fuel + 1) db U D rv = .returned db3 ∧
      db3.pv = db.pv.map (fun p =>
        if p.uid = U then { p with delete_time := some D } else p)) := by
  exact ⟨⟨_, DeletePod_returns fuel db U D watcher_ns rv, rfl⟩,
    ⟨_, DeletePVC_returns fuel db U D watcher_ns rv, rfl⟩,
    ⟨_, DeletePV_returns fuel db U D rv, rfl⟩⟩

/-! ## C14 and C20: a mount insert that fails -/

/-- C14 (the code at the failing input): pod `pod-1`, created at 3, whose
container `c` mounts the claims `foo` and `bar`, on a store with two claims
named `foo` created at 1.  Inside the transaction the mount insert for `foo`
returns an error (the statement selects both claims and the second row repeats
the key of the first).  `InsertPod` drops that error and commits: the pod row,
the container row, the mount row of `bar` and the checkpoint are stored. -/
theorem InsertPod_mount_error_dropped :
    (insertPodMount
        { storeTwoNamespaces with
          pod := [{ uid := "pod-1", name := "p", create_time := 3, delete_time := none,
                    namespace_ := "ns-a", json := "{}" }],
          container := [{ pod_uid := "pod-1", name := "c", image := "test-program",
                          command := "/bin/sh" }] }
        "pod-1" "c" { Name := "foo", ReadOnly := false } 3).err =
      some (.mysql ErrDuplicateKey) ∧
    InsertPod 1 storeTwoNamespaces "pod-1" "p" 3 "ns-a" [exampleContainer "c" ["foo", "bar"]]
        "{}" "ns-a" "10" =
      .returned
        { storeTwoNamespaces with
          pod := [{ uid := "pod-1", name := "p", create_time := 3, delete_time := none,
                    namespace_ := "ns-a", json := "{}" }],
          container := [{ pod_uid := "pod-1", name := "c", image := "test-program",
                          command := "/bin/sh" }],
          pod_mount := [{ pod_uid := "pod-1", pvc_uid := none, container_name := "c",
                          pvc_name := "bar", read_only := false }],
          resource_version := [{ resource := "pods", namespace_ := "ns-a",
                                 resource_version := "10" }] } := by
  decide

/-- C20 (the code at the failing input): pod `pod-1`, created at 3, whose
container `c` mounts the claim `foo`, on a store with two claims named `foo`
created at 1.  The match query selects both claims, the insert of two rows with
one key fails, no further statement is tried, and `InsertPod` commits the pod
without any mount row for the declared mount. -/
theorem InsertPod_tie_no_mount_row :
    (selectPVCs storeTwoNamespaces.pvc (maxCreateTimeBefore storeTwoNamespaces.pvc 3 3 "foo")
        "foo").map (fun r => r.uid) = ["pvc-a", "pvc-b"] ∧
    (insertPodMount storeTwoNamespaces "pod-1" "c" { Name := "foo", ReadOnly := false }
        3).executed = [.podMount] ∧
    (InsertPod 1 storeTwoNamespaces "pod-1" "p" 3 "ns-a" [exampleContainer "c" ["foo"]]
        "{}" "ns-a" "10").store.map (fun d => (d.pod.map (fun p => p.uid), d.pod_mount)) =
      some (["pod-1"], []) := by
  decide

/-! ## C15: errors other than a duplicate key -/

/-- A body that fails on `db` with an error other than the duplicate key is run
again on the rolled-back store, which is `db`: no amount of fuel ends the loop. -/
theorem runTx_retrying_of_error (fuel : Nat) (db tx : DB) (txFunc : DB → BodyResult)
    (e : TxError) (hbody : txFunc db = .done tx (some e))
    (he : e ≠ .mysql ErrDuplicateKey) : runTx fuel db txFunc = .retrying := by
  induction fuel with
  | zero => rfl
  | succ n ih =>
    simp only [runTx, runTxActual, hbody, if_neg he]
    exact ih

/-- C15 (the code at the failing input): `BindPVC("pv1", "pvc1", 7, "402")` on
the store that already binds `pvc1` to `pv1` at time 7.  The bind statement
changes no row, the body fails with "Bind affected unexpected number of rows",
and `runTx` neither returns that error nor ends the process: for every number of
attempts it is still retrying. -/
theorem BindPVC_error_retried (fuel : Nat) :
    BindPVC.txFunc "pv1" "pvc1" 7 "402" storeAfterBind =
      .done storeAfterBind (some (.errorf "Bind affected unexpected number of rows")) ∧
    runTxActual storeAfterBind (BindPVC.txFunc "pv1" "pvc1" 7 "402") =
      .done storeAfterBind (some (.errorf "Bind affected unexpected number of rows")) ∧
    BindPVC fuel storeAfterBind "pv1" "pvc1" 7 "402" = .retrying := by
  have hbody : BindPVC.txFunc "pv1" "pvc1" 7 "402" storeAfterBind =
      .done storeAfterBind (some (.errorf "Bind affected unexpected number of rows")) := by
    decide
  refine ⟨hbody, ?_, ?_⟩
  · simp only [runTxActual, hbody]
    decide
  · exact runTx_retrying_of_error fuel _ _ _ _ hbody (by decide)

/-! ## C16: duplicate keys -/

/-- C16: `runTxActual` on a body that fails with the duplicate-key error 1062
rolls back and returns nil, so `runTx`, and with it the operation, returns with
the store as it was before the call; on a body that returns nil it commits the
body's writes, and the operation returns with them; on a body that fails with
any other error it rolls back and returns that error. -/
theorem runTxActual_duplicate_swallowed (db : DB) (txFunc : DB → BodyResult) :
    (∀ tx, txFunc db = .done tx (some (.mysql ErrDuplicateKey)) →
      runTxActual db txFunc = .done db none ∧
        ∀ fuel, runTx (fuel + 1) db txFunc = .returned db) ∧
    (∀ tx, txFunc db = .done tx none →
      runTxActual db txFunc = .done tx none ∧
        ∀ fuel, runTx (fuel + 1) db txFunc = .returned tx) ∧
    (∀ tx e, txFunc db = .done tx (some e) → e ≠ .mysql ErrDuplicateKey →
      runTxActual db txFunc = .done db (some e)) := by
  refine ⟨?_, ?_, ?_⟩
  · intro tx h
    exact ⟨by simp [runTxActual, h], fun fuel => runTx_of_duplicate fuel db tx txFunc h⟩
  · intro tx h
    exact ⟨by simp [runTxActual, h], fun fuel => runTx_of_done fuel db tx txFunc h⟩
  · intro tx e h he
    simp [runTxActual, h, he]

/-- `InsertPV` of the stored volume `pv-1`: the insert fails with the duplicate
key, and the call returns with the store unchanged. -/
theorem runTxActual_duplicate_swallowed_witness :
    runTxActual storeReplayPV
        (InsertPV.txFunc "pv-1" "volume" 2 1 .NFS 400 ["ReadWriteOnce"] "{}" "11") =
      .done storeReplayPV none ∧
    ∀ fuel, InsertPV (fuel + 1) storeReplayPV "pv-1" "volume" 2 1 .NFS 400 ["ReadWriteOnce"]
      "{}" "11" = .returned storeReplayPV :=
  (runTxActual_duplicate_swallowed storeReplayPV
    (InsertPV.txFunc "pv-1" "volume" 2 1 .NFS 400 ["ReadWriteOnce"] "{}" "11")).1
    { storeReplayPV with pv := storeReplayPV.pv } (by decide)

/-! ## C17: DELETED events without a deletion timestamp -/

/-- C17 (the code at the failing input): a DELETED pod event whose object has no
deletion timestamp.  `handlePods` dereferences the nil pointer and panics
without calling `DeletePod`, whatever the other fields of the object are.  The
two sibling handlers test the pointer: `handlePVs` and `handlePVCs` pass the
current time when the timestamp is absent, and all three pass the timestamp
when it is present. -/
theorem handlePods_deleted_without_timestamp {σ : Type} (dbm : DBManager σ) (s : σ)
    (namespace_ : String) (now : Time) (p : PodResource) (pv : PVResource) (pvc : PVCResource)
    (json : String) (t : Time) :
    handlePods namespace_ .Deleted { p with DeletionTimestamp := none } json =
      .panic [] "invalid memory address or nil pointer dereference" ∧
    handlePods namespace_ .Deleted { p with DeletionTimestamp := some t } json =
      .calls [.DeletePod p.UID t namespace_ p.ResourceVersion] ∧
    handlePVs dbm now .Deleted { pv with DeletionTimestamp := none } json s =
      .calls [.DeletePV pv.UID now pv.ResourceVersion] ∧
    handlePVs dbm now .Deleted { pv with DeletionTimestamp := some t } json s =
      .calls [.DeletePV pv.UID t pv.ResourceVersion] ∧
    handlePVCs namespace_ now .Deleted { pvc with DeletionTimestamp := none } json =
      .calls [.DeletePVC pvc.UID now namespace_ pvc.ResourceVersion] ∧
    handlePVCs namespace_ now .Deleted { pvc with DeletionTimestamp := some t } json =
      .calls [.DeletePVC pvc.UID t namespace_ pvc.ResourceVersion] :=
  ⟨rfl, rfl, rfl, rfl, rfl, rfl⟩

/-! ## C18 and C19: how a subscription ends -/

/-- The inner loop never clears the flag `initialize`. -/
theorem stream_init_true {σ R : Type} (w : Watcher σ R) (rv : String)
    (inputs : List (Input R)) (s : σ) : (w.stream rv inputs s true).init = true := by
  induction inputs generalizing s with
  | nil => rfl
  | cons i rest ih =>
    cases i with
    | stop => rfl
    | event e =>
      cases e with
      | eof => rfl
      | status code => simp [Watcher.stream]
      | error msg => rfl
      | resource ty r json =>
        by_cases h : w.rvOf r = rv
        · rw [stream_cons_skip w rv ty r json _ s true h]
          exact ih s
        · rw [stream_cons_handle w rv ty r json _ s true h]
          exact ih _

/-- The inner loop does not subscribe. -/
theorem stream_no_subscribe {σ R : Type} (w : Watcher σ R) (rv : String)
    (inputs : List (Input R)) (s : σ) (init : Bool) :
    ∀ a ∈ (w.stream rv inputs s init).actions, ∀ r n t, a ≠ .subscribe r n t := by
  induction inputs generalizing s with
  | nil => intro a ha; simp [Watcher.stream] at ha
  | cons i rest ih =>
    cases i with
    | stop => intro a ha r n t; simp [Watcher.stream] at ha; simp [ha]
    | event e =>
      cases e with
      | eof => intro a ha r n t; simp [Watcher.stream] at ha; simp [ha]
      | status code => intro a ha r n t; simp [Watcher.stream] at ha; simp [ha]
      | error msg =>
        intro a ha r n t
        simp [Watcher.stream] at ha
        rcases ha with ha | ha <;> simp [ha]
      | resource ty r0 json =>
        intro a ha r n t
        by_cases h : w.rvOf r0 = rv
        · rw [stream_cons_skip w rv ty r0 json _ s init h] at ha
          simp only [List.mem_cons] at ha
          rcases ha with ha | ha
          · simp [ha]
          · exact ih s a ha r n t
        · rw [stream_cons_handle w rv ty r0 json _ s init h] at ha
          simp only [List.mem_cons] at ha
          rcases ha with ha | ha
          · simp [ha]
          · exact ih _ a ha r n t

/-- A loop entered with the flag `initialize` set subscribes with the empty
resume token every time. -/
theorem watchLoop_init_subscriptions {σ R : Type} (w : Watcher σ R)
    (resource : ResourceType) (inputs : List (List (Input R))) (s : σ) :
    ∀ a ∈ w.watchLoop resource inputs s true, ∀ r n rv, a = .subscribe r n rv → rv = "" := by
  induction inputs generalizing s with
  | nil => intro a ha; simp [Watcher.watchLoop] at ha
  | cons i rest ih =>
    intro a ha r n rv hrv
    rw [Watcher.watchLoop] at ha
    simp only [List.mem_cons, List.mem_append] at ha
    rcases ha with (ha | ha) | ha
    · rw [ha] at hrv
      simp only [Watcher.getRV, if_true, Action.subscribe.injEq] at hrv
      exact hrv.2.2.symm
    · exact absurd hrv (stream_no_subscribe w _ i s true a ha r n rv)
    · rw [stream_init_true] at ha
      revert ha
      cases (w.stream (w.getRV s resource true) i s true).ending with
      | reopen => exact fun ha => ih _ a ha r n rv hrv
      | stopped => intro ha; simp at ha
      | fatal => intro ha; simp at ha
      | blocked => intro ha; simp at ha

/-- What the loop does with a subscription that delivers the given objects and
then ends with a frame that closes it and lets the loop go on. -/
theorem watchLoop_reopen {σ R : Type} (w : Watcher σ R) (resource : ResourceType)
    (objs : List (EventType × R × String)) (last : Input R) (junk : List (Input R))
    (more : List (List (Input R))) (s : σ) (init init1 : Bool)
    (hlast : ∀ s1, w.stream (w.getRV s resource init) (last :: junk) s1 init =
      ⟨s1, init1, [.closeDone], .reopen⟩) :
    w.watchLoop resource ((resourceInputs objs ++ last :: junk) :: more) s init =
      .subscribe resource w.namespace_ (w.getRV s resource init) ::
        objs.map (decideObject w (w.getRV s resource init)) ++
          .closeDone ::
            w.watchLoop resource more (afterObjects w (w.getRV s resource init) objs s)
              init1 := by
  rw [Watcher.watchLoop, stream_resourceInputs, hlast]
  simp only [List.append_assoc, List.singleton_append, List.cons_append, List.nil_append]

/-- A subscription that delivers no frame with Status 410 leaves the flag
`initialize` as it was. -/
theorem stream_init_unchanged {σ R : Type} (w : Watcher σ R) (rv : String)
    (inputs : List (Input R)) (s : σ) (init : Bool)
    (hno : ∀ i ∈ inputs, i ≠ .event (.status StatusTooOld)) :
    (w.stream rv inputs s init).init = init := by
  induction inputs generalizing s with
  | nil => rfl
  | cons i rest ih =>
    have hrest : ∀ j ∈ rest, j ≠ .event (.status StatusTooOld) :=
      fun j hj => hno j (List.mem_cons_of_mem _ hj)
    cases i with
    | stop => rfl
    | event e =>
      cases e with
      | eof => rfl
      | status code =>
        have hcode : code ≠ StatusTooOld := by
          intro h
          exact hno _ (List.mem_cons_self _ _) (by rw [h])
        simp only [Watcher.stream, hcode, if_false]
      | error msg => rfl
      | resource ty r json =>
        by_cases h : w.rvOf r = rv
        · rw [stream_cons_skip w rv ty r json _ s init h]
          exact ih s hrest
        · rw [stream_cons_handle w rv ty r json _ s init h]
          exact ih _ hrest

/-- C18 (amended): the flag `initialize` is a latch.  (1) A plain EOF closes the
subscription and leaves the flag as it was.  (2) An EOF frame with Status 410
closes the subscription and sets the flag.  (3) While the flag is clear, the
next subscription uses the stored checkpoint of the resource type, read under
`default` for persistent volumes and under the watcher's namespace otherwise.
(4) Once the flag is set, by a 410 frame or because the reconciler was started
with it, every later subscription uses the empty token.  (5) An EOF frame with
a Status of any other code closes the subscription and leaves the flag as it
was.  (6) Whatever a subscription delivers, objects included, it leaves the
flag as it was unless it delivers a frame with Status 410: a reconciler started
with the flag clear has it clear until the first such frame. -/
theorem watchLoop_reconnect_token {σ R : Type} (w : Watcher σ R) (resource : ResourceType)
    (objs : List (EventType × R × String)) (junk : List (Input R))
    (more : List (List (Input R))) (s : σ) (init : Bool) :
    (w.watchLoop resource ((resourceInputs objs ++ .event .eof :: junk) :: more) s init =
      .subscribe resource w.namespace_ (w.getRV s resource init) ::
        objs.map (decideObject w (w.getRV s resource init)) ++
          .closeDone ::
            w.watchLoop resource more (afterObjects w (w.getRV s resource init) objs s)
              init) ∧
    (w.watchLoop resource
        ((resourceInputs objs ++ .event (.status StatusTooOld) :: junk) :: more) s init =
      .subscribe resource w.namespace_ (w.getRV s resource init) ::
        objs.map (decideObject w (w.getRV s resource init)) ++
          .closeDone ::
            w.watchLoop resource more (afterObjects w (w.getRV s resource init) objs s)
              true) ∧
    (∀ (next : List (Input R)) (s1 : σ), ∃ tail,
      w.watchLoop resource (next :: more) s1 false =
        .subscribe resource w.namespace_
          (w.GetRV s1 resource (if resource = PVs then PVNamespace else w.namespace_)) ::
            tail) ∧
    (∀ (s1 : σ), ∀ a ∈ w.watchLoop resource more s1 true,
      ∀ r n rv, a = .subscribe r n rv → rv = "") ∧
    (∀ (code : Int), code ≠ StatusTooOld →
      w.watchLoop resource
          ((resourceInputs objs ++ .event (.status code) :: junk) :: more) s init =
        .subscribe resource w.namespace_ (w.getRV s resource init) ::
          objs.map (decideObject w (w.getRV s resource init)) ++
            .closeDone ::
              w.watchLoop resource more (afterObjects w (w.getRV s resource init) objs s)
                init) ∧
    (∀ (rv : String) (inputs : List (Input R)) (s1 : σ) (flag : Bool),
      (∀ i ∈ inputs, i ≠ .event (.status StatusTooOld)) →
      (w.stream rv inputs s1 flag).init = flag) := by
  refine ⟨?_, ?_, ?_, ?_, ?_, ?_⟩
  · exact watchLoop_reopen w resource objs _ junk more s init init (fun s1 => rfl)
  · exact watchLoop_reopen w resource objs _ junk more s init true
      (fun s1 => by simp [Watcher.stream])
  · intro next s1
    exact ⟨_, rfl⟩
  · exact fun s1 => watchLoop_init_subscriptions w resource more s1
  · intro code hcode
    exact watchLoop_reopen w resource objs _ junk more s init init
      (fun s1 => by simp only [Watcher.stream, hcode, if_false])
  · exact fun rv inputs s1 flag hno => stream_init_unchanged w rv inputs s1 flag hno

/-- C18 fails as stated.  A reconciler whose store holds checkpoint `5`
receives a 410 frame, then an object with version `7` (which the handler stores)
and a plain EOF: the third subscription uses the empty token, not `7`.  Started
with `initialize` set, it subscribes with the empty token again after a plain
EOF although the store holds `5`. -/
theorem watchLoop_reconnect_token_counterexample :
    exampleWatcher.watchLoop Pods
        [[.event (.status 410)], [.event (.resource .Added "7" "a"), .event .eof], []]
        "5" false =
      [.subscribe "pods" "ns" "5", .closeDone, .subscribe "pods" "ns" "",
       .handle .Added "7" "a", .closeDone, .subscribe "pods" "ns" ""] ∧
    exampleWatcher.watchLoop Pods [[.event .eof], []] "5" true =
      [.subscribe "pods" "ns" "", .closeDone, .subscribe "pods" "ns" ""] := by
  decide

/-- C19 (amended): a frame whose error is not EOF ends the reconciler.  After the
objects delivered before it have been skipped or handled, the loop closes the
subscription and calls `log.Fatal`; it performs nothing after that, whatever
further subscriptions would deliver: there is no resubscription. -/
theorem watchLoop_read_error_fatal {σ R : Type} (w : Watcher σ R) (resource : ResourceType)
    (objs : List (EventType × R × String)) (msg : String) (junk : List (Input R))
    (more : List (List (Input R))) (s : σ) (init : Bool) :
    w.watchLoop resource ((resourceInputs objs ++ .event (.error msg) :: junk) :: more) s init =
      .subscribe resource w.namespace_ (w.getRV s resource init) ::
        objs.map (decideObject w (w.getRV s resource init)) ++
          [.closeDone, .fatal msg] := by
  rw [Watcher.watchLoop, stream_resourceInputs]
  simp only [Watcher.stream, List.append_nil]
  rfl

/-- C19 fails as stated: a read error on the first subscription.  The loop closes
the subscription and ends the process; the second subscription, which would have
delivered an object, is never opened. -/
theorem watchLoop_read_error_counterexample :
    exampleWatcher.watchLoop Pods
        [[.event (.error "Unable to read from reader")],
         [.event (.resource .Added "7" "a")]] "5" false =
      [.subscribe "pods" "ns" "5", .closeDone, .fatal "Unable to read from reader"] := by
  decide

/-! ## Interning of volume sources -/

/-- The running maximum is at least its start value and every element. -/
theorem foldl_max_ge (ids : List Int) (a : Int) :
    a ≤ ids.foldl max a ∧ ∀ x ∈ ids, x ≤ ids.foldl max a := by
  induction ids generalizing a with
  | nil => simp
  | cons y ys ih =>
    simp only [List.foldl_cons, List.mem_cons]
    obtain ⟨h1, h2⟩ := ih (max a y)
    refine ⟨le_trans (le_max_left a y) h1, ?_⟩
    rintro x (rfl | hx)
    · exact le_trans (le_max_right a x) h1
    · exact h2 x hx

/-- A generated id is positive. -/
theorem nextID_pos (ids : List Int) : 0 < nextID ids := by
  unfold nextID
  have := (foldl_max_ge ids 0).1
  omega

/-- A generated id is greater than every stored id. -/
theorem lt_nextID (ids : List Int) (x : Int) (hx : x ∈ ids) : x < nextID ids := by
  unfold nextID
  have := (foldl_max_ge ids 0).2 x hx
  omega

/-- `InsertNFS` when the existence query selects a row: its id is returned and
nothing is written. -/
theorem InsertNFS_found (db : DB) (ip path : String) (r : NFSRow)
    (hfind : db.nfs.find? (matchesNFS ip path) = some r) (hpos : 0 < r.id) :
    InsertNFS db ip path = (db, r.id) := by
  simp only [InsertNFS, checkNFSExists, hfind, gt_iff_lt, hpos, if_true]

/-- `InsertNFS` when the existence query selects nothing and the key is free:
a row with a generated id is appended and that id is returned. -/
theorem InsertNFS_fresh (db : DB) (ip path : String)
    (hfind : db.nfs.find? (matchesNFS ip path) = none)
    (hkey : db.nfs.any (fun r => sqlEqNat r.ip_addr (inet_aton ip) && decide (r.path = path)) =
      false) :
    InsertNFS db ip path =
      ({ db with nfs := db.nfs ++ [{ id := nextID (db.nfs.map (fun r => r.id)),
                                     ip_addr := inet_aton ip, path := path }] },
       nextID (db.nfs.map (fun r => r.id))) := by
  have hneg : ¬ ((-1 : Int) > 0) := by decide
  simp only [InsertNFS, checkNFSExists, hfind, hneg, if_false, insertStatements_NFS, hkey,
    Bool.false_eq_true, lastIDQuery_NFS, List.getLast?_concat]

/-- `InsertISCSI` when the existence query selects a row. -/
theorem InsertISCSI_found (fuel : Nat) (db : DB) (portal iqn : String) (lun : Int)
    (fs : String) (r : ISCSIRow)
    (hfind : db.iscsi.find? (matchesISCSI portal iqn lun fs) = some r) (hpos : 0 < r.id) :
    InsertISCSI (fuel + 1) db portal iqn lun fs = (.returned db, r.id) := by
  have hbody : InsertISCSI.txFunc portal iqn lun fs db = .done db none := by
    simp only [InsertISCSI.txFunc, checkISCSIExists, hfind, gt_iff_lt, hpos, if_true]
  simp only [InsertISCSI, runTx_of_done fuel db db _ hbody, InsertISCSI.iscsiID,
    checkISCSIExists, hfind, gt_iff_lt, hpos, if_true]

/-- `InsertISCSI` when the existence query selects nothing and the key is free. -/
theorem InsertISCSI_fresh (fuel : Nat) (db : DB) (portal iqn : String) (lun : Int)
    (fs : String)
    (hfind : db.iscsi.find? (matchesISCSI portal iqn lun fs) = none)
    (hkey : db.iscsi.any (fun r => decide (r.target_portal = portal) && decide (r.iqn = iqn) &&
      decide (r.lun = lun) && decide (r.fs_type = fs)) = false) :
    InsertISCSI (fuel + 1) db portal iqn lun fs =
      (.returned
        { db with iscsi := db.iscsi ++ [{ id := nextID (db.iscsi.map (fun r => r.id)),
                                          target_portal := portal, iqn := iqn, lun := lun,
                                          fs_type := fs }] },
       nextID (db.iscsi.map (fun r => r.id))) := by
  have hneg : ¬ ((-1 : Int) > 0) := by decide
  have hbody : InsertISCSI.txFunc portal iqn lun fs db =
      .done { db with iscsi := db.iscsi ++ [{ id := nextID (db.iscsi.map (fun r => r.id)),
                                              target_portal := portal, iqn := iqn, lun := lun,
                                              fs_type := fs }] } none := by
    simp only [InsertISCSI.txFunc, checkISCSIExists, hfind, hneg, if_false,
      insertStatements_ISCSI, hkey, Bool.false_eq_true]
  simp only [InsertISCSI, runTx_of_done fuel db _ _ hbody, InsertISCSI.iscsiID,
    checkISCSIExists, hfind, hneg, if_false, insertStatements_ISCSI, hkey,
    Bool.false_eq_true, lastIDQuery_ISCSI, List.getLast?_concat]

/-- A row of `nfs` with the address and the path of the arguments is selected by
the existence query, when the address is understood and the path has no
backslash. -/
theorem matchesNFS_self (ip path : String) (a : Nat) (ha : inet_aton ip = some a)
    (hp : noBackslash path = true) (i : Int) :
    matchesNFS ip path { id := i, ip_addr := some a, path := path } = true := by
  simp [matchesNFS, ha, sqlEqNat, sqlLike_self path hp]

/-- A row of `iscsi` with the columns of the arguments is selected by the
existence query, when the strings have no backslash. -/
theorem matchesISCSI_self (portal iqn : String) (lun : Int) (fs : String)
    (h1 : noBackslash portal = true) (h2 : noBackslash iqn = true)
    (h3 : noBackslash fs = true) (i : Int) :
    matchesISCSI portal iqn lun fs
      { id := i, target_portal := portal, iqn := iqn, lun := lun, fs_type := fs } = true := by
  simp [matchesISCSI, sqlLike_self portal h1, sqlLike_self iqn h2, sqlLike_self fs h3]

/-! ## C12: interning twice -/

/-- Reading a key right after it was written gives the written value. -/
theorem mapLookup_mapAssign {κ ν : Type} [DecidableEq κ] (m : List (κ × ν)) (k : κ) (v : ν) :
    mapLookup (mapAssign m k v) k = some v := by
  simp [mapLookup, mapAssign]

/-- The mock `InsertNFS` called again with the same pair returns the same id and
leaves the manager as the first call left it. -/
theorem MockManager_InsertNFS_twice (m : MockManager) (ip path : String) :
    (m.InsertNFS ip path).1.InsertNFS ip path = m.InsertNFS ip path := by
  cases h : mapLookup m.nfsIDMap ⟨ip, path⟩ with
  | some id => simp only [MockManager.InsertNFS, h]
  | none => simp only [MockManager.InsertNFS, h, mapLookup_mapAssign]

/-- The mock `InsertISCSI` called again with the same tuple returns the same id
and leaves the manager as the first call left it. -/
theorem MockManager_InsertISCSI_twice (m : MockManager) (portal iqn : String) (lun : Int)
    (fs : String) :
    (m.InsertISCSI portal iqn lun fs).1.InsertISCSI portal iqn lun fs =
      m.InsertISCSI portal iqn lun fs := by
  cases h : mapLookup m.iscsiIDMap ⟨portal, iqn, lun, fs⟩ with
  | some id => simp only [MockManager.InsertISCSI, h]
  | none => simp only [MockManager.InsertISCSI, h, mapLookup_mapAssign]

/-- `InsertNFS` returns a positive id whose row the existence query selects
first in the store it leaves. -/
theorem InsertNFS_then_found (db : DB) (ip path : String) (a : Nat)
    (ha : inet_aton ip = some a) (hpath : noBackslash path = true)
    (hpos : ∀ r ∈ db.nfs, 0 < r.id) :
    ∃ r, (InsertNFS db ip path).1.nfs.find? (matchesNFS ip path) = some r ∧
      r.id = (InsertNFS db ip path).2 ∧ 0 < r.id := by
  cases hfind : db.nfs.find? (matchesNFS ip path) with
  | some r =>
    have hr : 0 < r.id := hpos r (List.mem_of_find?_eq_some hfind)
    rw [InsertNFS_found db ip path r hfind hr]
    exact ⟨r, hfind, rfl, hr⟩
  | none =>
    have hkey : db.nfs.any (fun r => sqlEqNat r.ip_addr (inet_aton ip) &&
        decide (r.path = path)) = false := by
      rw [Bool.eq_false_iff]
      intro hany
      rw [List.any_eq_true] at hany
      obtain ⟨r, hr, hm⟩ := hany
      rw [List.find?_eq_none] at hfind
      apply hfind r hr
      simp only [Bool.and_eq_true, decide_eq_true_eq] at hm
      simp only [matchesNFS, hm.1, Bool.true_and]
      rw [hm.2]
      exact sqlLike_self path hpath
    rw [InsertNFS_fresh db ip path hfind hkey]
    refine ⟨{ id := nextID (db.nfs.map (fun r => r.id)), ip_addr := inet_aton ip,
              path := path }, ?_, rfl, nextID_pos _⟩
    simp only [List.find?_append, hfind, Option.none_or, List.find?_cons, ha,
      matchesNFS_self ip path a ha hpath]

/-- `InsertISCSI` returns a positive id whose row the existence query selects
first in the store it leaves. -/
theorem InsertISCSI_then_found (fuel : Nat) (db : DB) (portal iqn : String) (lun : Int)
    (fs : String) (h1 : noBackslash portal = true) (h2 : noBackslash iqn = true)
    (h3 : noBackslash fs = true) (hpos : ∀ r ∈ db.iscsi, 0 < r.id) :
    ∃ db1 r, InsertISCSI (fuel + 1) db portal iqn lun fs = (.returned db1, r.id) ∧
      db1.iscsi.find? (matchesISCSI portal iqn lun fs) = some r ∧ 0 < r.id := by
  cases hfind : db.iscsi.find? (matchesISCSI portal iqn lun fs) with
  | some r =>
    have hr : 0 < r.id := hpos r (List.mem_of_find?_eq_some hfind)
    exact ⟨db, r, InsertISCSI_found fuel db portal iqn lun fs r hfind hr, hfind, hr⟩
  | none =>
    have hkey : db.iscsi.any (fun r => decide (r.target_portal = portal) &&
        decide (r.iqn = iqn) && decide (r.lun = lun) && decide (r.fs_type = fs)) = false := by
      rw [Bool.eq_false_iff]
      intro hany
      rw [List.any_eq_true] at hany
      obtain ⟨r, hr, hm⟩ := hany
      rw [List.find?_eq_none] at hfind
      apply hfind r hr
      simp only [Bool.and_eq_true, decide_eq_true_eq] at hm
      obtain ⟨⟨⟨e1, e2⟩, e3⟩, e4⟩ := hm
      simp only [matchesISCSI, e1, e2, e3, e4, sqlLike_self portal h1, sqlLike_self iqn h2,
        sqlLike_self fs h3, decide_True, Bool.and_self]
    refine ⟨_, { id := nextID (db.iscsi.map (fun r => r.id)), target_portal := portal,
                 iqn := iqn, lun := lun, fs_type := fs },
      InsertISCSI_fresh fuel db portal iqn lun fs hfind hkey, ?_, nextID_pos _⟩
    simp only [List.find?_append, hfind, Option.none_or, List.find?_cons,
      matchesISCSI_self portal iqn lun fs h1 h2 h3]

/-- C12 (amended): interning twice.  In the mock adapter, for every manager and
all arguments, the second `InsertNFS` (`InsertISCSI`) returns the id of the
first and leaves the manager as the first left it.  In the MySQL adapter the
same holds, with a positive id, when the server string is an address that
`INET_ATON` understands, the strings compared with `LIKE` (the path; the target
portal, the iqn and the file system type) contain no backslash, and the stored
ids are positive. -/
theorem interning_idempotent (fuel : Nat) (m : MockManager) (db : DB)
    (ip path portal iqn : String) (lun : Int) (fs : String) :
    (m.InsertNFS ip path).1.InsertNFS ip path = m.InsertNFS ip path ∧
    (m.InsertISCSI portal iqn lun fs).1.InsertISCSI portal iqn lun fs =
      m.InsertISCSI portal iqn lun fs ∧
    (inet_aton ip ≠ none → noBackslash path = true → (∀ r ∈ db.nfs, 0 < r.id) →
      InsertNFS (InsertNFS db ip path).1 ip path = InsertNFS db ip path ∧
        0 < (InsertNFS db ip path).2) ∧
    (noBackslash portal = true → noBackslash iqn = true → noBackslash fs = true →
      (∀ r ∈ db.iscsi, 0 < r.id) →
      ∃ db1 id, InsertISCSI (fuel + 1) db portal iqn lun fs = (.returned db1, id) ∧
        InsertISCSI (fuel + 1) db1 portal iqn lun fs = (.returned db1, id) ∧ 0 < id) := by
  refine ⟨MockManager_InsertNFS_twice m ip path,
    MockManager_InsertISCSI_twice m portal iqn lun fs, ?_, ?_⟩
  · intro ha hpath hnfs
    obtain ⟨a, ha⟩ := Option.ne_none_iff_exists'.mp ha
    obtain ⟨r, hfind, hid, hr⟩ := InsertNFS_then_found db ip path a ha hpath hnfs
    rw [InsertNFS_found _ ip path r hfind hr, hid]
    exact ⟨rfl, hid ▸ hr⟩
  · intro hportal hiqn hfs hiscsi
    obtain ⟨db1, r, hfirst, hfind, hr⟩ :=
      InsertISCSI_then_found fuel db portal iqn lun fs hportal hiqn hfs hiscsi
    exact ⟨db1, r.id, hfirst, InsertISCSI_found fuel db1 portal iqn lun fs r hfind hr, hr⟩

/-- The amended C12 in the MySQL adapter on a store that holds one NFS export
and one iSCSI target: the hypotheses hold and the second call repeats the first. -/
theorem interning_idempotent_witness :
    (InsertNFS (InsertNFS storeBackends "10.0.0.1" "/exports/a").1 "10.0.0.1" "/exports/a" =
        InsertNFS storeBackends "10.0.0.1" "/exports/a" ∧
      0 < (InsertNFS storeBackends "10.0.0.1" "/exports/a").2) ∧
    (∃ db1 id,
      InsertISCSI 1 storeBackends "10.0.0.2:3260" "iqn.2016-01.com.example:disk" 0 "ext4" =
        (.returned db1, id) ∧
      InsertISCSI 1 db1 "10.0.0.2:3260" "iqn.2016-01.com.example:disk" 0 "ext4" =
        (.returned db1, id) ∧ 0 < id) :=
  ⟨(interning_idempotent 0 (MockManager.New false) storeBackends "10.0.0.1" "/exports/a"
      "10.0.0.2:3260" "iqn.2016-01.com.example:disk" 0 "ext4").2.2.1
      (by decide) (by decide) (by decide),
    (interning_idempotent 0 (MockManager.New false) storeBackends "10.0.0.1" "/exports/a"
      "10.0.0.2:3260" "iqn.2016-01.com.example:disk" 0 "ext4").2.2.2
      (by decide) (by decide) (by decide) (by decide)⟩

/-- C12 fails as stated in the MySQL adapter.  The path `/exports\a` as a `LIKE`
pattern does not match itself, so the second `InsertNFS` does not find the row
the first one inserted with id 1; its insert fails on the key and it returns -1.
The same happens to `InsertISCSI` with the iqn `iqn\x`. -/
theorem interning_idempotent_counterexample :
    InsertNFS DB.empty "10.0.0.1" "/exports\\a" =
      ({ DB.empty with nfs := [{ id := 1, ip_addr := some 167772161,
                                 path := "/exports\\a" }] }, 1) ∧
    InsertNFS
        { DB.empty with nfs := [{ id := 1, ip_addr := some 167772161,
                                  path := "/exports\\a" }] } "10.0.0.1" "/exports\\a" =
      ({ DB.empty with nfs := [{ id := 1, ip_addr := some 167772161,
                                 path := "/exports\\a" }] }, -1) ∧
    InsertISCSI 1 DB.empty "10.0.0.2:3260" "iqn\\x" 0 "ext4" =
      (.returned
        { DB.empty with iscsi := [{ id := 1, target_portal := "10.0.0.2:3260",
                                    iqn := "iqn\\x", lun := 0, fs_type := "ext4" }] }, 1) ∧
    InsertISCSI 1
        { DB.empty with iscsi := [{ id := 1, target_portal := "10.0.0.2:3260",
                                    iqn := "iqn\\x", lun := 0, fs_type := "ext4" }] }
        "10.0.0.2:3260" "iqn\\x" 0 "ext4" =
      (.returned
        { DB.empty with iscsi := [{ id := 1, target_portal := "10.0.0.2:3260",
                                    iqn := "iqn\\x", lun := 0, fs_type := "ext4" }] }, -1) := by
  decide

/-! ## C13: ids of different volume sources -/

/-- A string without `LIKE` metacharacters has no backslash. -/
theorem noBackslash_of_noLikeMeta (s : String) (h : noLikeMeta s = true) :
    noBackslash s = true := by
  unfold noLikeMeta at h
  unfold noBackslash
  rw [List.all_eq_true] at h ⊢
  intro c hc
  have := h c hc
  simp only [isLikeMeta, Bool.not_eq_true', Bool.or_eq_false_iff, decide_eq_false_iff_not] at this
  simpa using this.2

/-- An entry found in a Go map. -/
theorem mapLookup_eq_some {κ ν : Type} [DecidableEq κ] (m : List (κ × ν)) (k : κ) (v : ν)
    (h : mapLookup m k = some v) : (k, v) ∈ m := by
  unfold mapLookup at h
  cases hf : m.find? (fun e => decide (e.1 = k)) with
  | none => simp [hf] at h
  | some e =>
    simp only [hf, Option.map_some', Option.some.injEq] at h
    have hmem := List.mem_of_find?_eq_some hf
    have hk := List.find?_some hf
    simp only [decide_eq_true_eq] at hk
    have : e = (k, v) := Prod.ext hk h
    rw [← this]
    exact hmem

/-- Writing one key does not change what another key reads. -/
theorem mapLookup_mapAssign_ne {κ ν : Type} [DecidableEq κ] (m : List (κ × ν)) (k k1 : κ)
    (v : ν) (hne : k1 ≠ k) : mapLookup (mapAssign m k v) k1 = mapLookup m k1 := by
  unfold mapLookup mapAssign
  have hk : ¬ (decide ((k, v).1 = k1) = true) := by
    simp only [decide_eq_true_eq]
    exact fun h => hne h.symm
  rw [List.find?_cons_of_neg (p := fun (e : κ × ν) => decide (e.1 = k1)) _ hk]
  congr 1
  induction m with
  | nil => rfl
  | cons e m ih =>
    by_cases he : e.1 = k
    · have hp : ¬ (decide (e.1 ≠ k) = true) := by simp [he]
      have hq : ¬ (decide (e.1 = k1) = true) := by
        simp only [decide_eq_true_eq, he]
        exact fun h => hne h.symm
      rw [List.filter_cons_of_neg (p := fun (e : κ × ν) => decide (e.1 ≠ k)) hp,
        List.find?_cons_of_neg (p := fun (e : κ × ν) => decide (e.1 = k1)) _ hq, ih]
    · have hp : decide (e.1 ≠ k) = true := by simp [he]
      rw [List.filter_cons_of_pos (p := fun (e : κ × ν) => decide (e.1 ≠ k)) hp]
      by_cases he1 : e.1 = k1
      · have hq : decide (e.1 = k1) = true := by simp [he1]
        rw [List.find?_cons_of_pos (p := fun (e : κ × ν) => decide (e.1 = k1)) _ hq,
          List.find?_cons_of_pos (p := fun (e : κ × ν) => decide (e.1 = k1)) _ hq]
      · have hq : ¬ (decide (e.1 = k1) = true) := by simp [he1]
        rw [List.find?_cons_of_neg (p := fun (e : κ × ν) => decide (e.1 = k1)) _ hq,
          List.find?_cons_of_neg (p := fun (e : κ × ν) => decide (e.1 = k1)) _ hq, ih]

/-- The increment of a counter below the bound is the next integer. -/
theorem incInt64_eq (x : Int) (h : x + 1 < 2 ^ 63) : incInt64 x = x + 1 := by
  unfold incInt64
  rw [if_pos h]

/-- Two different keys of a mock id map get different ids from two successive
interning steps, stated for any key type: `step` is `InsertNFS` or `InsertISCSI`
seen as a function of the map and the counter. -/
theorem mock_ids_differ {κ : Type} [DecidableEq κ] (map : List (κ × Int)) (last : Int)
    (x y : κ) (hxy : x ≠ y) (hnodup : (map.map (fun e => e.2)).Nodup)
    (hle : ∀ e ∈ map, e.2 ≤ last) (hbound : last < 2 ^ 62) :
    (match mapLookup map x with
      | some a =>
        (match mapLookup map y with
          | some b => a ≠ b
          | none => a ≠ incInt64 last)
      | none =>
        (match mapLookup (mapAssign map x (incInt64 last)) y with
          | some b => incInt64 last ≠ b
          | none => incInt64 last ≠ incInt64 (incInt64 last))) := by
  have h1 : incInt64 last = last + 1 := incInt64_eq last (by omega)
  have h2 : incInt64 (last + 1) = last + 2 := by
    rw [incInt64_eq (last + 1) (by omega)]; ring
  cases hx : mapLookup map x with
  | some a =>
    have hxa := mapLookup_eq_some map x a hx
    cases hy : mapLookup map y with
    | some b =>
      have hyb := mapLookup_eq_some map y b hy
      intro hab
      have := List.inj_on_of_nodup_map hnodup hxa hyb hab
      exact hxy (Prod.ext_iff.mp this).1
    | none =>
      have := hle _ hxa
      simp only [h1]
      simp only at this
      omega
  | none =>
    simp only [mapLookup_mapAssign_ne map x y (incInt64 last) (fun h => hxy h.symm)]
    cases hy : mapLookup map y with
    | some b =>
      have hyb := mapLookup_eq_some map y b hy
      have := hle _ hyb
      simp only [h1]
      simp only at this
      omega
    | none =>
      simp only [h1, h2]
      omega

/-- The existence query of `nfs` with a literal path selects the rows with that
address and that path. -/
theorem matchesNFS_literal (ip path : String) (a : Nat) (ha : inet_aton ip = some a)
    (hlit : noLikeMeta path = true) (r : NFSRow) :
    matchesNFS ip path r = true ↔ r.ip_addr = some a ∧ r.path = path := by
  unfold matchesNFS
  rw [Bool.and_eq_true, sqlLike_literal path hlit, ha]
  cases hr : r.ip_addr with
  | none => simp [sqlEqNat]
  | some b => simp [sqlEqNat]

/-- The existence query of `iscsi` with literal strings selects the rows with
these four columns. -/
theorem matchesISCSI_literal (portal iqn : String) (lun : Int) (fs : String)
    (h1 : noLikeMeta portal = true) (h2 : noLikeMeta iqn = true) (h3 : noLikeMeta fs = true)
    (r : ISCSIRow) :
    matchesISCSI portal iqn lun fs r = true ↔
      r.target_portal = portal ∧ r.iqn = iqn ∧ r.lun = lun ∧ r.fs_type = fs := by
  unfold matchesISCSI
  simp only [Bool.and_eq_true, sqlLike_literal portal h1, sqlLike_literal iqn h2,
    sqlLike_literal fs h3, decide_eq_true_eq, and_assoc]

/-- Appending a row with a generated id keeps the ids positive and distinct. -/
theorem keyed_append {α : Type} (rows : List α) (id : α → Int) (new : α)
    (hnew : id new = nextID (rows.map id))
    (hpos : ∀ r ∈ rows, 0 < id r) (hnodup : (rows.map id).Nodup) :
    (∀ r ∈ rows ++ [new], 0 < id r) ∧ ((rows ++ [new]).map id).Nodup := by
  constructor
  · intro r hr
    rw [List.mem_append, List.mem_singleton] at hr
    rcases hr with hr | rfl
    · exact hpos r hr
    · rw [hnew]; exact nextID_pos _
  · rw [List.map_append, List.map_singleton, List.nodup_append]
    refine ⟨hnodup, List.nodup_singleton _, ?_⟩
    intro x hx hx1
    rw [List.mem_singleton] at hx1
    have := lt_nextID (rows.map id) x hx
    rw [hx1, hnew] at this
    exact lt_irrefl _ this

/-- What `InsertNFS` with a literal path leaves: a keyed table that still has
every earlier row and has a row with the returned id, the address and the path. -/
theorem InsertNFS_spec (db : DB) (ip path : String) (a : Nat) (ha : inet_aton ip = some a)
    (hlit : noLikeMeta path = true) (hk : nfsKeyed db) :
    nfsKeyed (InsertNFS db ip path).1 ∧
    (∀ r ∈ db.nfs, r ∈ (InsertNFS db ip path).1.nfs) ∧
    ∃ r ∈ (InsertNFS db ip path).1.nfs,
      r.id = (InsertNFS db ip path).2 ∧ r.ip_addr = some a ∧ r.path = path := by
  cases hfind : db.nfs.find? (matchesNFS ip path) with
  | some r =>
    have hmem := List.mem_of_find?_eq_some hfind
    have hr : 0 < r.id := hk.1 r hmem
    have hm := (matchesNFS_literal ip path a ha hlit r).mp (List.find?_some hfind)
    rw [InsertNFS_found db ip path r hfind hr]
    exact ⟨hk, fun r hr => hr, r, hmem, rfl, hm⟩
  | none =>
    have hkey : db.nfs.any (fun r => sqlEqNat r.ip_addr (inet_aton ip) &&
        decide (r.path = path)) = false := by
      rw [Bool.eq_false_iff]
      intro hany
      rw [List.any_eq_true] at hany
      obtain ⟨r, hr, hm⟩ := hany
      rw [List.find?_eq_none] at hfind
      apply hfind r hr
      simp only [Bool.and_eq_true, decide_eq_true_eq] at hm
      simp only [matchesNFS, hm.1, Bool.true_and]
      rw [hm.2]
      exact sqlLike_self path (noBackslash_of_noLikeMeta path hlit)
    rw [InsertNFS_fresh db ip path hfind hkey]
    refine ⟨?_, ?_, ?_⟩
    · exact keyed_append db.nfs (fun r => r.id) _ rfl hk.1 hk.2
    · intro r hr
      exact List.mem_append_left _ hr
    · exact ⟨_, List.mem_append_right _ (List.mem_singleton_self _), rfl, ha, rfl⟩

/-- What `InsertISCSI` with literal strings leaves. -/
theorem InsertISCSI_spec (fuel : Nat) (db : DB) (portal iqn : String) (lun : Int)
    (fs : String) (h1 : noLikeMeta portal = true) (h2 : noLikeMeta iqn = true)
    (h3 : noLikeMeta fs = true) (hk : iscsiKeyed db) :
    ∃ db1 r, InsertISCSI (fuel + 1) db portal iqn lun fs = (.returned db1, r.id) ∧
      iscsiKeyed db1 ∧ (∀ q ∈ db.iscsi, q ∈ db1.iscsi) ∧ r ∈ db1.iscsi ∧
      r.target_portal = portal ∧ r.iqn = iqn ∧ r.lun = lun ∧ r.fs_type = fs := by
  cases hfind : db.iscsi.find? (matchesISCSI portal iqn lun fs) with
  | some r =>
    have hmem := List.mem_of_find?_eq_some hfind
    have hr : 0 < r.id := hk.1 r hmem
    have hm := (matchesISCSI_literal portal iqn lun fs h1 h2 h3 r).mp (List.find?_some hfind)
    exact ⟨db, r, InsertISCSI_found fuel db portal iqn lun fs r hfind hr, hk, fun q hq => hq,
      hmem, hm⟩
  | none =>
    have hkey : db.iscsi.any (fun r => decide (r.target_portal = portal) &&
        decide (r.iqn = iqn) && decide (r.lun = lun) && decide (r.fs_type = fs)) = false := by
      rw [Bool.eq_false_iff]
      intro hany
      rw [List.any_eq_true] at hany
      obtain ⟨r, hr, hm⟩ := hany
      rw [List.find?_eq_none] at hfind
      apply hfind r hr
      simp only [Bool.and_eq_true, decide_eq_true_eq] at hm
      obtain ⟨⟨⟨e1, e2⟩, e3⟩, e4⟩ := hm
      exact (matchesISCSI_literal portal iqn lun fs h1 h2 h3 r).mpr ⟨e1, e2, e3, e4⟩
    refine ⟨_, { id := nextID (db.iscsi.map (fun r => r.id)), target_portal := portal,
                 iqn := iqn, lun := lun, fs_type := fs },
      InsertISCSI_fresh fuel db portal iqn lun fs hfind hkey, ?_, ?_, ?_, rfl, rfl, rfl, rfl⟩
    · exact keyed_append db.iscsi (fun r => r.id) _ rfl hk.1 hk.2
    · intro q hq
      exact List.mem_append_left _ hq
    · exact List.mem_append_right _ (List.mem_singleton_self _)

/-- Two successive `InsertNFS` calls with literal paths whose (address, path)
pairs differ return different ids. -/
theorem InsertNFS_differ (db : DB) (ip1 p1 ip2 p2 : String) (a1 a2 : Nat)
    (ha1 : inet_aton ip1 = some a1) (ha2 : inet_aton ip2 = some a2)
    (h1 : noLikeMeta p1 = true) (h2 : noLikeMeta p2 = true)
    (hne : (a1, p1) ≠ (a2, p2)) (hk : nfsKeyed db) :
    (InsertNFS db ip1 p1).2 ≠ (InsertNFS (InsertNFS db ip1 p1).1 ip2 p2).2 := by
  obtain ⟨hk1, _, r1, hr1, hid1, hip1, hpath1⟩ := InsertNFS_spec db ip1 p1 a1 ha1 h1 hk
  obtain ⟨hk2, hsub, r2, hr2, hid2, hip2, hpath2⟩ :=
    InsertNFS_spec (InsertNFS db ip1 p1).1 ip2 p2 a2 ha2 h2 hk1
  intro heq
  have hids : r1.id = r2.id := by rw [hid1, hid2, heq]
  have hrr : r1 = r2 := List.inj_on_of_nodup_map hk2.2 (hsub r1 hr1) hr2 hids
  apply hne
  rw [hrr, hip2] at hip1
  rw [hrr, hpath2] at hpath1
  rw [Option.some.injEq] at hip1
  rw [hip1, hpath1]

/-- Two successive `InsertISCSI` calls with literal strings whose tuples differ
return different ids. -/
theorem InsertISCSI_differ (fuel : Nat) (db : DB) (portal1 iqn1 : String) (lun1 : Int)
    (fs1 portal2 iqn2 : String) (lun2 : Int) (fs2 : String)
    (h1 : noLikeMeta portal1 = true) (h2 : noLikeMeta iqn1 = true)
    (h3 : noLikeMeta fs1 = true) (h4 : noLikeMeta portal2 = true)
    (h5 : noLikeMeta iqn2 = true) (h6 : noLikeMeta fs2 = true)
    (hne : (portal1, iqn1, lun1, fs1) ≠ (portal2, iqn2, lun2, fs2)) (hk : iscsiKeyed db) :
    ∃ db1 id1 db2 id2,
      InsertISCSI (fuel + 1) db portal1 iqn1 lun1 fs1 = (.returned db1, id1) ∧
      InsertISCSI (fuel + 1) db1 portal2 iqn2 lun2 fs2 = (.returned db2, id2) ∧
      id1 ≠ id2 := by
  obtain ⟨db1, r1, hcall1, hk1, _, hr1, e1, e2, e3, e4⟩ :=
    InsertISCSI_spec fuel db portal1 iqn1 lun1 fs1 h1 h2 h3 hk
  obtain ⟨db2, r2, hcall2, hk2, hsub, hr2, f1, f2, f3, f4⟩ :=
    InsertISCSI_spec fuel db1 portal2 iqn2 lun2 fs2 h4 h5 h6 hk1
  refine ⟨db1, r1.id, db2, r2.id, hcall1, hcall2, ?_⟩
  intro hids
  have hrr : r1 = r2 := List.inj_on_of_nodup_map hk2.2 (hsub r1 hr1) hr2 hids
  apply hne
  rw [← e1, ← e2, ← e3, ← e4, ← f1, ← f2, ← f3, ← f4, hrr]

/-- Two successive mock `InsertNFS` calls with different pairs return different
ids. -/
theorem MockManager_InsertNFS_differ (m : MockManager) (ip1 p1 ip2 p2 : String)
    (hne : (ip1, p1) ≠ (ip2, p2)) (hc : m.consistent) (hb : m.lastNFSID < 2 ^ 62) :
    (m.InsertNFS ip1 p1).2 ≠ ((m.InsertNFS ip1 p1).1.InsertNFS ip2 p2).2 := by
  have hxy : (⟨ip1, p1⟩ : nfsID) ≠ ⟨ip2, p2⟩ := by
    intro h
    apply hne
    injection h with e1 e2
    rw [e1, e2]
  have key := mock_ids_differ m.nfsIDMap m.lastNFSID _ _ hxy hc.1.1 hc.1.2 hb
  unfold MockManager.InsertNFS
  cases hx : mapLookup m.nfsIDMap ⟨ip1, p1⟩ with
  | some a =>
    simp only [hx] at key ⊢
    cases hy : mapLookup m.nfsIDMap ⟨ip2, p2⟩ with
    | some b => simp only [hy] at key ⊢; exact key
    | none => simp only [hy] at key ⊢; exact key
  | none =>
    simp only [hx] at key ⊢
    cases hy : mapLookup (mapAssign m.nfsIDMap ⟨ip1, p1⟩ (incInt64 m.lastNFSID))
        ⟨ip2, p2⟩ with
    | some b => simp only [hy] at key ⊢; exact key
    | none => simp only [hy] at key ⊢; exact key

/-- Two successive mock `InsertISCSI` calls with different tuples return
different ids. -/
theorem MockManager_InsertISCSI_differ (m : MockManager) (portal1 iqn1 : String)
    (lun1 : Int) (fs1 portal2 iqn2 : String) (lun2 : Int) (fs2 : String)
    (hne : (portal1, iqn1, lun1, fs1) ≠ (portal2, iqn2, lun2, fs2)) (hc : m.consistent)
    (hb : m.lastISCSIID < 2 ^ 62) :
    (m.InsertISCSI portal1 iqn1 lun1 fs1).2 ≠
      ((m.InsertISCSI portal1 iqn1 lun1 fs1).1.InsertISCSI portal2 iqn2 lun2 fs2).2 := by
  have hxy : (⟨portal1, iqn1, lun1, fs1⟩ : iscsiID) ≠ ⟨portal2, iqn2, lun2, fs2⟩ := by
    intro h
    apply hne
    injection h with e1 e2 e3 e4
    rw [e1, e2, e3, e4]
  have key := mock_ids_differ m.iscsiIDMap m.lastISCSIID _ _ hxy hc.2.1 hc.2.2 hb
  unfold MockManager.InsertISCSI
  cases hx : mapLookup m.iscsiIDMap ⟨portal1, iqn1, lun1, fs1⟩ with
  | some a =>
    simp only [hx] at key ⊢
    cases hy : mapLookup m.iscsiIDMap ⟨portal2, iqn2, lun2, fs2⟩ with
    | some b => simp only [hy] at key ⊢; exact key
    | none => simp only [hy] at key ⊢; exact key
  | none =>
    simp only [hx] at key ⊢
    cases hy : mapLookup (mapAssign m.iscsiIDMap ⟨portal1, iqn1, lun1, fs1⟩
        (incInt64 m.lastISCSIID)) ⟨portal2, iqn2, lun2, fs2⟩ with
    | some b => simp only [hy] at key ⊢; exact key
    | none => simp only [hy] at key ⊢; exact key

/-- A new mock manager is consistent. -/
theorem MockManager_New_consistent (invalidRVs : Bool) :
    (MockManager.New invalidRVs).consistent := by
  simp [MockManager.New, MockManager.consistent]

/-- Writing a fresh, greater id into a mock id map keeps the ids distinct and
bounded by the new counter. -/
theorem mapAssign_consistent {κ : Type} [DecidableEq κ] (map : List (κ × Int)) (last : Int)
    (k : κ) (hnodup : (map.map (fun e => e.2)).Nodup) (hle : ∀ e ∈ map, e.2 ≤ last) :
    ((mapAssign map k (last + 1)).map (fun e => e.2)).Nodup ∧
      ∀ e ∈ mapAssign map k (last + 1), e.2 ≤ last + 1 := by
  unfold mapAssign
  constructor
  · rw [List.map_cons, List.nodup_cons]
    constructor
    · intro hmem
      rw [List.mem_map] at hmem
      obtain ⟨e, he, hval⟩ := hmem
      have := hle e (List.mem_of_mem_filter he)
      simp only at hval
      omega
    · exact hnodup.sublist (List.Sublist.map _ (List.filter_sublist _))
  · intro e he
    rw [List.mem_cons] at he
    rcases he with rfl | he
    · exact le_refl _
    · have := hle e (List.mem_of_mem_filter he)
      omega

/-- The mock `InsertNFS` keeps the manager consistent while the counter is
below the bound. -/
theorem MockManager_InsertNFS_consistent (m : MockManager) (ip path : String)
    (hc : m.consistent) (hb : m.lastNFSID < 2 ^ 62) :
    (m.InsertNFS ip path).1.consistent := by
  unfold MockManager.InsertNFS
  cases h : mapLookup m.nfsIDMap ⟨ip, path⟩ with
  | some id => exact hc
  | none =>
    simp only [incInt64_eq m.lastNFSID (by omega)]
    exact ⟨mapAssign_consistent m.nfsIDMap m.lastNFSID _ hc.1.1 hc.1.2, hc.2⟩

/-- The mock `InsertISCSI` keeps the manager consistent while the counter is
below the bound. -/
theorem MockManager_InsertISCSI_consistent (m : MockManager) (portal iqn : String)
    (lun : Int) (fs : String) (hc : m.consistent) (hb : m.lastISCSIID < 2 ^ 62) :
    (m.InsertISCSI portal iqn lun fs).1.consistent := by
  unfold MockManager.InsertISCSI
  cases h : mapLookup m.iscsiIDMap ⟨portal, iqn, lun, fs⟩ with
  | some id => exact hc
  | none =>
    simp only [incInt64_eq m.lastISCSIID (by omega)]
    exact ⟨hc.1, mapAssign_consistent m.iscsiIDMap m.lastISCSIID _ hc.2.1 hc.2.2⟩

/-- C13 (amended): two successive interning calls for different volume sources
return different ids
(1), (2) in the mock adapter, for all strings, on a consistent manager (as `New`
makes it and the methods keep it) whose counter is below 2^62;
(3) in the MySQL adapter for `InsertNFS`, when both server strings are addresses
that `INET_ATON` understands, both paths are free of the `LIKE` metacharacters
`%`, `_` and backslash, and the (address number, path) pairs differ;
(4) in the MySQL adapter for `InsertISCSI`, when the target portals, iqns and
file system types are free of `LIKE` metacharacters and the tuples differ;
in (3) and (4) the stored ids are positive and distinct, as the generated key
makes them. -/
theorem distinct_backends_distinct_ids (fuel : Nat) (m : MockManager) (db : DB)
    (ip1 p1 ip2 p2 : String) (a1 a2 : Nat)
    (portal1 iqn1 : String) (lun1 : Int) (fs1 portal2 iqn2 : String) (lun2 : Int)
    (fs2 : String) :
    (m.consistent → m.lastNFSID < 2 ^ 62 → (ip1, p1) ≠ (ip2, p2) →
      (m.InsertNFS ip1 p1).2 ≠ ((m.InsertNFS ip1 p1).1.InsertNFS ip2 p2).2) ∧
    (m.consistent → m.lastISCSIID < 2 ^ 62 →
      (portal1, iqn1, lun1, fs1) ≠ (portal2, iqn2, lun2, fs2) →
      (m.InsertISCSI portal1 iqn1 lun1 fs1).2 ≠
        ((m.InsertISCSI portal1 iqn1 lun1 fs1).1.InsertISCSI portal2 iqn2 lun2 fs2).2) ∧
    (nfsKeyed db → inet_aton ip1 = some a1 → inet_aton ip2 = some a2 →
      noLikeMeta p1 = true → noLikeMeta p2 = true → (a1, p1) ≠ (a2, p2) →
      (InsertNFS db ip1 p1).2 ≠ (InsertNFS (InsertNFS db ip1 p1).1 ip2 p2).2) ∧
    (iscsiKeyed db → noLikeMeta portal1 = true → noLikeMeta iqn1 = true →
      noLikeMeta fs1 = true → noLikeMeta portal2 = true → noLikeMeta iqn2 = true →
      noLikeMeta fs2 = true → (portal1, iqn1, lun1, fs1) ≠ (portal2, iqn2, lun2, fs2) →
      ∃ db1 id1 db2 id2,
        InsertISCSI (fuel + 1) db portal1 iqn1 lun1 fs1 = (.returned db1, id1) ∧
        InsertISCSI (fuel + 1) db1 portal2 iqn2 lun2 fs2 = (.returned db2, id2) ∧
        id1 ≠ id2) := by
  refine ⟨?_, ?_, ?_, ?_⟩
  · exact fun hc hb hne => MockManager_InsertNFS_differ m ip1 p1 ip2 p2 hne hc hb
  · exact fun hc hb hne =>
      MockManager_InsertISCSI_differ m portal1 iqn1 lun1 fs1 portal2 iqn2 lun2 fs2 hne hc hb
  · exact fun hk ha1 ha2 h1 h2 hne => InsertNFS_differ db ip1 p1 ip2 p2 a1 a2 ha1 ha2 h1 h2 hne hk
  · exact fun hk h1 h2 h3 h4 h5 h6 hne =>
      InsertISCSI_differ fuel db portal1 iqn1 lun1 fs1 portal2 iqn2 lun2 fs2 h1 h2 h3 h4 h5 h6
        hne hk

/-- The amended C13 on a new mock manager and on a store that holds one NFS
export and one iSCSI target: two exports of one server and two targets that
differ in the lun get different ids. -/
theorem distinct_backends_distinct_ids_witness :
    ((MockManager.New false).InsertNFS "10.0.0.1" "/exports/a_c").2 ≠
      (((MockManager.New false).InsertNFS "10.0.0.1" "/exports/a_c").1.InsertNFS "10.0.0.1"
        "/exports/abc").2 ∧
    ((MockManager.New false).InsertISCSI "10.0.0.2:3260" "iqn.2016-01.com.example:disk" 0
        "ext4").2 ≠
      (((MockManager.New false).InsertISCSI "10.0.0.2:3260" "iqn.2016-01.com.example:disk" 0
        "ext4").1.InsertISCSI "10.0.0.2:3260" "iqn.2016-01.com.example:disk" 1 "ext4").2 ∧
    (InsertNFS storeBackends "10.0.0.1" "/exports/a").2 ≠
      (InsertNFS (InsertNFS storeBackends "10.0.0.1" "/exports/a").1 "10.0.0.1"
        "/exports/b").2 ∧
    (∃ db1 id1 db2 id2,
      InsertISCSI 1 storeBackends "10.0.0.2:3260" "iqn.2016-01.com.example:disk" 0 "ext4" =
        (.returned db1, id1) ∧
      InsertISCSI 1 db1 "10.0.0.2:3260" "iqn.2016-01.com.example:disk" 1 "ext4" =
        (.returned db2, id2) ∧ id1 ≠ id2) :=
  ⟨(distinct_backends_distinct_ids 0 (MockManager.New false) storeBackends
      "10.0.0.1" "/exports/a_c" "10.0.0.1" "/exports/abc" 167772161 167772161
      "10.0.0.2:3260" "iqn.2016-01.com.example:disk" 0 "ext4"
      "10.0.0.2:3260" "iqn.2016-01.com.example:disk" 1 "ext4").1
      (by decide) (by decide) (by decide),
    (distinct_backends_distinct_ids 0 (MockManager.New false) storeBackends
      "10.0.0.1" "/exports/a_c" "10.0.0.1" "/exports/abc" 167772161 167772161
      "10.0.0.2:3260" "iqn.2016-01.com.example:disk" 0 "ext4"
      "10.0.0.2:3260" "iqn.2016-01.com.example:disk" 1 "ext4").2.1
      (by decide) (by decide) (by decide),
    (distinct_backends_distinct_ids 0 (MockManager.New false) storeBackends
      "10.0.0.1" "/exports/a" "10.0.0.1" "/exports/b" 167772161 167772161
      "10.0.0.2:3260" "iqn.2016-01.com.example:disk" 0 "ext4"
      "10.0.0.2:3260" "iqn.2016-01.com.example:disk" 1 "ext4").2.2.1
      (by decide) (by decide) (by decide) (by decide) (by decide) (by decide),
    (distinct_backends_distinct_ids 0 (MockManager.New false) storeBackends
      "10.0.0.1" "/exports/a" "10.0.0.1" "/exports/b" 167772161 167772161
      "10.0.0.2:3260" "iqn.2016-01.com.example:disk" 0 "ext4"
      "10.0.0.2:3260" "iqn.2016-01.com.example:disk" 1 "ext4").2.2.2
      (by decide) (by decide) (by decide) (by decide) (by decide) (by decide) (by decide)
      (by decide)⟩

/-- C13 fails as stated in the MySQL adapter.
(1) After `InsertNFS("10.0.0.1", "/exports/abc")` returned id 1, the call for the
other path `/exports/a_c` returns 1 too: its existence query matches the stored
path with `LIKE`, and no row is added.
(2) After `InsertISCSI` for the file system type `ext4` returned id 1, the call
for the type `ext_` returns 1 too.
(3) The server strings `10.0.0.1` and `10.0.0.01` differ, but `INET_ATON` reads
the same address from both, and the second call returns the id of the first. -/
theorem distinct_backends_distinct_ids_counterexample :
    ((InsertNFS DB.empty "10.0.0.1" "/exports/abc").2 = 1 ∧
      InsertNFS (InsertNFS DB.empty "10.0.0.1" "/exports/abc").1 "10.0.0.1" "/exports/a_c" =
        ((InsertNFS DB.empty "10.0.0.1" "/exports/abc").1, 1)) ∧
    (InsertISCSI 1 DB.empty "10.0.0.2:3260" "iqn.2016-01.com.example:disk" 0 "ext4" =
        (.returned
          { DB.empty with
            iscsi := [{ id := 1, target_portal := "10.0.0.2:3260",
                        iqn := "iqn.2016-01.com.example:disk", lun := 0,
                        fs_type := "ext4" }] }, 1) ∧
      InsertISCSI 1
          { DB.empty with
            iscsi := [{ id := 1, target_portal := "10.0.0.2:3260",
                        iqn := "iqn.2016-01.com.example:disk", lun := 0,
                        fs_type := "ext4" }] }
          "10.0.0.2:3260" "iqn.2016-01.com.example:disk" 0 "ext_" =
        (.returned
          { DB.empty with
            iscsi := [{ id := 1, target_portal := "10.0.0.2:3260",
                        iqn := "iqn.2016-01.com.example:disk", lun := 0,
                        fs_type := "ext4" }] }, 1)) ∧
    ((InsertNFS DB.empty "10.0.0.1" "/exports/abc").2 = 1 ∧
      InsertNFS (InsertNFS DB.empty "10.0.0.1" "/exports/abc").1 "10.0.0.01" "/exports/abc" =
        ((InsertNFS DB.empty "10.0.0.1" "/exports/abc").1, 1)) := by
  decide

/-! ## C21 and C22: mount rows that survive the deletion of their pod -/

/-- The checkpoint upsert leaves the rows of every other key as they were. -/
theorem upsertRVRows_filter_other (table : List RVRow) (R S rv rv2 : String) :
    (upsertRVRows table R S rv rv2).filter (fun r => ¬ (r.resource = R ∧ r.namespace_ = S)) =
      table.filter (fun r => ¬ (r.resource = R ∧ r.namespace_ = S)) := by
  have hmap : ∀ t : List RVRow,
      (t.map (fun r => if r.resource = R ∧ r.namespace_ = S
          then { r with resource_version := rv2 } else r)).filter
        (fun r => ¬ (r.resource = R ∧ r.namespace_ = S)) =
      t.filter (fun r => ¬ (r.resource = R ∧ r.namespace_ = S)) := by
    intro t
    induction t with
    | nil => rfl
    | cons r rest ih =>
      by_cases hr : r.resource = R ∧ r.namespace_ = S
      · simp only [List.map_cons, hr, and_self, if_true, List.filter_cons, not_true_eq_false,
          decide_False, Bool.false_eq_true, if_false]
        exact ih
      · simp only [List.map_cons, hr, if_false, List.filter_cons, not_false_eq_true,
          decide_True, if_true, List.cons.injEq, true_and]
        exact ih
  unfold upsertRVRows
  split
  · exact hmap table
  · simp [List.filter_append]

/-- No mount row of the pod is selected by `clearBadPodMount` when every PVC a
mount row of the pod references was created at `D` or before. -/
theorem no_bad_mount (db : DB) (U : String) (D : Time)
    (hgood : ∀ m ∈ db.pod_mount, m.pod_uid = U → ∀ u ∈ m.pvc_uid, ∀ q ∈ db.pvc, q.uid = u →
      ∀ c ∈ q.create_time, c ≤ D) :
    db.pod_mount.any (isBadPodMount db.pvc U D) = false := by
  rw [Bool.eq_false_iff]
  intro hany
  rw [List.any_eq_true] at hany
  obtain ⟨m, hm, hbad⟩ := hany
  obtain ⟨hU, u, hu, q, hq, hqu, c, hc, hlt⟩ := (isBadPodMount_iff db.pvc U D m).mp hbad
  have := hgood m hm hU u (by simp [hu]) q hq hqu c (by simp [hc])
  exact absurd hlt (not_lt.mpr this)

/-- The store `DeletePod` leaves when it removes no mount row. -/
theorem DeletePod_no_bad_mount (fuel : Nat) (db : DB) (U : String) (D : Time)
    (watcher_ns rv : String)
    (hgood : ∀ m ∈ db.pod_mount, m.pod_uid = U → ∀ u ∈ m.pvc_uid, ∀ q ∈ db.pvc, q.uid = u →
      ∀ c ∈ q.create_time, c ≤ D) :
    DeletePod (fuel + 1) db U D watcher_ns rv =
      .returned
        { db with
          pod := db.pod.map (fun p => if p.uid = U then { p with delete_time := some D } else p),
          resource_version := upsertRVRows db.resource_version Pods watcher_ns rv rv } := by
  rw [DeletePod_returns, no_bad_mount db U D hgood]
  simp only [Bool.false_eq_true, if_false]

/-- C21: when every PVC that a mount row of pod `U` references was created at
`D` or before, `DeletePod(U, D)` returns and the store differs from the old one
in two places only: the `delete_time` of the pod rows with uid `U` is `D`, and
the checkpoint table is the upsert of the pod checkpoint of the watcher's
scope, which leaves the rows of every other (resource, scope) as they were.
Table `pod_mount` is the same list of rows, and so are `pvc`, `pv`,
`container`, `nfs` and `iscsi`. -/
theorem DeletePod_keeps_correct_mounts (fuel : Nat) (db : DB) (U : String) (D : Time)
    (watcher_ns rv : String)
    (hgood : ∀ m ∈ db.pod_mount, m.pod_uid = U → ∀ u ∈ m.pvc_uid, ∀ q ∈ db.pvc, q.uid = u →
      ∀ c ∈ q.create_time, c ≤ D) :
    DeletePod (fuel + 1) db U D watcher_ns rv =
      .returned
        { db with
          pod := db.pod.map (fun p => if p.uid = U then { p with delete_time := some D } else p),
          resource_version := upsertRVRows db.resource_version Pods watcher_ns rv rv } ∧
    (upsertRVRows db.resource_version Pods watcher_ns rv rv).filter
        (fun r => ¬ (r.resource = Pods ∧ r.namespace_ = watcher_ns)) =
      db.resource_version.filter (fun r => ¬ (r.resource = Pods ∧ r.namespace_ = watcher_ns)) := by
  exact ⟨DeletePod_no_bad_mount fuel db U D watcher_ns rv hgood,
    upsertRVRows_filter_other _ _ _ _ _⟩

/-- C21 on the store of `TestFixPodMount` with the pod deleted at 2: both mount
rows reference claims created at 2 or before, and both stay. -/
theorem DeletePod_keeps_correct_mounts_witness :
    DeletePod 1 storeFixPodMount "pod-1" 2 "ns" "9" =
      .returned
        { storeFixPodMount with
          pod := storeFixPodMount.pod.map (fun p =>
            if p.uid = "pod-1" then { p with delete_time := some 2 } else p),
          resource_version := upsertRVRows storeFixPodMount.resource_version Pods "ns" "9" "9" } ∧
    (upsertRVRows storeFixPodMount.resource_version Pods "ns" "9" "9").filter
        (fun r => ¬ (r.resource = Pods ∧ r.namespace_ = "ns")) =
      storeFixPodMount.resource_version.filter
        (fun r => ¬ (r.resource = Pods ∧ r.namespace_ = "ns")) :=
  DeletePod_keeps_correct_mounts 0 storeFixPodMount "pod-1" 2 "ns" "9" (by decide)

/-- `InsertPVC` does not promote the mount rows of a pod all of whose rows have
a `delete_time`. -/
theorem isPromoted_deleted (pod : List PodRow) (N U : String) (m : MountRow)
    (hdel : ∀ p ∈ pod, p.uid = U → p.delete_time ≠ none) (hm : m.pod_uid = U) :
    isPromoted pod N m = false := by
  rw [Bool.eq_false_iff]
  intro h
  simp only [isPromoted, Bool.and_eq_true, List.any_eq_true, decide_eq_true_eq] at h
  obtain ⟨_, p, hp, hu, hd⟩ := h
  exact hdel p hp (by rw [← hu, hm]) hd

/-- An update that changes no row of pod `U` leaves the rows of `U` as they were. -/
theorem filter_map_unchanged (rows : List MountRow) (U : String) (f : MountRow → MountRow)
    (hkeep : ∀ m, m.pod_uid = U → f m = m) (huid : ∀ m, (f m).pod_uid = m.pod_uid) :
    (rows.map f).filter (fun m => m.pod_uid = U) = rows.filter (fun m => m.pod_uid = U) := by
  induction rows with
  | nil => rfl
  | cons m rest ih =>
    by_cases hm : m.pod_uid = U
    · simp only [List.map_cons, List.filter_cons, huid, hm, decide_True, if_true, hkeep m hm, ih]
    · simp only [List.map_cons, List.filter_cons, huid, hm, decide_False, Bool.false_eq_true,
        if_false, ih]

/-- C22 (amended): the mount rows of a deleted pod that are not erroneous stay.
When every PVC that a mount row of pod `U` references was created at `D` or
before (in particular when the rows of `U` are name-only stubs), `DeletePod(U, D)`
returns and leaves table `pod_mount` as it was, and an `InsertPVC` processed
after it, whatever its uid, name and create_time, returns and leaves the mount
rows of `U` as they were: it does not promote the rows of a deleted pod. -/
theorem DeletePod_then_late_PVC (fuel : Nat) (db : DB) (U : String) (D : Time)
    (watcher_ns rv V N : String) (T : Time) (ns : String) (storage : Int)
    (modes : List String) (json watcherNS rv2 : String)
    (hgood : ∀ m ∈ db.pod_mount, m.pod_uid = U → ∀ u ∈ m.pvc_uid, ∀ q ∈ db.pvc, q.uid = u →
      ∀ c ∈ q.create_time, c ≤ D) :
    ∃ db1 db2, DeletePod (fuel + 1) db U D watcher_ns rv = .returned db1 ∧
      InsertPVC (fuel + 1) db1 V N T ns storage modes json watcherNS rv2 = .returned db2 ∧
      db1.pod_mount = db.pod_mount ∧
      db2.pod_mount.filter (fun m => m.pod_uid = U) =
        db.pod_mount.filter (fun m => m.pod_uid = U) := by
  refine ⟨_, _, (DeletePod_no_bad_mount fuel db U D watcher_ns rv hgood),
    InsertPVC_returns fuel _ V N T ns storage modes json watcherNS rv2, rfl, ?_⟩
  simp only []
  apply filter_map_unchanged
  · intro m hm
    rw [isPromoted_deleted _ N U m ?_ hm]
    · rfl
    · intro p hp hu
      rw [List.mem_map] at hp
      obtain ⟨p0, _, rfl⟩ := hp
      by_cases h0 : p0.uid = U
      · simp [h0]
      · simp only [h0, if_false] at hu
  · intro m
    split <;> rfl

/-- The amended C22 on the scenario of the claim: the first three events (claim
`foo` created at 0 and deleted at 1, pod created at 2) leave the store
`storeStub`; there the pod's only mount row has no `pvc_uid`, and it survives
`DeletePod` at 3 and the insert of the second claim `foo` created at 3. -/
theorem DeletePod_then_late_PVC_witness :
    (((InsertPVC 1 DB.empty "pvc-old" "foo" 0 "ns" 200 ["ReadWriteOnce"] "{}" "ns" "1").next
        (fun d => DeletePVC 1 d "pvc-old" 1 "ns" "2")).next
        (fun d => InsertPod 1 d "pod-1" "p" 2 "ns" [exampleContainer "c" ["foo"]] "{}" "ns"
          "3")) = .returned storeStub ∧
    ∃ db1 db2, DeletePod 1 storeStub "pod-1" 3 "ns" "4" = .returned db1 ∧
      InsertPVC 1 db1 "pvc-new" "foo" 3 "ns" 200 ["ReadWriteOnce"] "{}" "ns" "5" =
        .returned db2 ∧
      db1.pod_mount = storeStub.pod_mount ∧
      db2.pod_mount.filter (fun m => m.pod_uid = "pod-1") =
        storeStub.pod_mount.filter (fun m => m.pod_uid = "pod-1") :=
  ⟨by decide,
   DeletePod_then_late_PVC 0 storeStub "pod-1" 3 "ns" "4" "pvc-new" "foo" 3 "ns" 200
     ["ReadWriteOnce"] "{}" "ns" "5" (by decide)⟩

/-- C22 fails as stated: the five events of the scenario, from the empty store.
After `DeletePod`, and still after the insert of the late claim, the pod has one
mount row, the stub without `pvc_uid`, not zero rows. -/
theorem DeletePod_then_late_PVC_counterexample :
    ((((InsertPVC 1 DB.empty "pvc-old" "foo" 0 "ns" 200 ["ReadWriteOnce"] "{}" "ns" "1").next
        (fun d => DeletePVC 1 d "pvc-old" 1 "ns" "2")).next
        (fun d => InsertPod 1 d "pod-1" "p" 2 "ns" [exampleContainer "c" ["foo"]] "{}" "ns"
          "3")).next
        (fun d => DeletePod 1 d "pod-1" 3 "ns" "4")).mounts =
      some [{ pod_uid := "pod-1", pvc_uid := none, container_name := "c", pvc_name := "foo",
              read_only := false }] ∧
    (((((InsertPVC 1 DB.empty "pvc-old" "foo" 0 "ns" 200 ["ReadWriteOnce"] "{}" "ns" "1").next
        (fun d => DeletePVC 1 d "pvc-old" 1 "ns" "2")).next
        (fun d => InsertPod 1 d "pod-1" "p" 2 "ns" [exampleContainer "c" ["foo"]] "{}" "ns"
          "3")).next
        (fun d => DeletePod 1 d "pod-1" 3 "ns" "4")).next
        (fun d => InsertPVC 1 d "pvc-new" "foo" 3 "ns" 200 ["ReadWriteOnce"] "{}" "ns"
          "5")).mounts =
      some [{ pod_uid := "pod-1", pvc_uid := none, container_name := "c", pvc_name := "foo",
              read_only := false }] := by
  decide

/-! ## C23 and C29: what `handlePVs` calls -/

/-- C23 (amended): the calls of `handlePVs` on a manager `dbm` in state `s`, for
every volume object.
ADDED (1, 2, 3): the interning call for the NFS source when the spec has one,
else for the iSCSI source when it has one, else none; when it returned, `InsertPV`
with the id it returned and the backend type (id 0 and the empty type without
such a source); when that returned, `BindPVC(pv uid, claim uid, now)` exactly
when the object has a claim reference.  A call that does not return is the last
one.  (3) With the MySQL adapter and with the mock the `InsertPV` of a volume
without source does not return, so it is the only call, with or without claim
reference.  (4) With the mock both interning calls and `InsertPV` with their
type return, so the whole sequence is made.
MODIFIED with phase Bound (5, 6): `BindPVC(pv uid, claim uid, now)` when the
object has a claim reference, and a panic without any call when it has none.
MODIFIED with phase Available (7): the interning call as above, then, when it
returned, `UpdatePV`.
MODIFIED with any other phase (8): no call. -/
theorem handlePVs_dispatch {σ : Type} (dbm : DBManager σ) (now : Time) (p : PVResource)
    (json : String) (s : σ) (fuel : Nat) (db : DB) (m : MockManager) :
    (∀ nfs, p.NFS = some nfs →
      (∀ msg, dbm.call (.InsertNFS nfs.Server nfs.Path) s = .ended msg →
        handlePVs dbm now .Added p json s = .calls [.InsertNFS nfs.Server nfs.Path]) ∧
      (∀ s1 id, dbm.call (.InsertNFS nfs.Server nfs.Path) s = .returned s1 id →
        (∀ msg, dbm.call (.InsertPV p.UID p.Name p.CreationTimestamp id .NFS p.Capacity
            p.AccessModes json p.ResourceVersion) s1 = .ended msg →
          handlePVs dbm now .Added p json s =
            .calls [.InsertNFS nfs.Server nfs.Path,
              .InsertPV p.UID p.Name p.CreationTimestamp id .NFS p.Capacity p.AccessModes
                json p.ResourceVersion]) ∧
        (∀ s2 v, dbm.call (.InsertPV p.UID p.Name p.CreationTimestamp id .NFS p.Capacity
            p.AccessModes json p.ResourceVersion) s1 = .returned s2 v →
          handlePVs dbm now .Added p json s =
            .calls (.InsertNFS nfs.Server nfs.Path ::
              .InsertPV p.UID p.Name p.CreationTimestamp id .NFS p.Capacity p.AccessModes
                json p.ResourceVersion ::
              (match p.ClaimRef with
               | some claimUID => [.BindPVC p.UID claimUID now p.ResourceVersion]
               | none => []))))) ∧
    (∀ iscsi, p.NFS = none → p.ISCSI = some iscsi →
      (∀ msg, dbm.call (.InsertISCSI iscsi.TargetPortal iscsi.IQN iscsi.Lun iscsi.FSType) s =
          .ended msg →
        handlePVs dbm now .Added p json s =
          .calls [.InsertISCSI iscsi.TargetPortal iscsi.IQN iscsi.Lun iscsi.FSType]) ∧
      (∀ s1 id, dbm.call (.InsertISCSI iscsi.TargetPortal iscsi.IQN iscsi.Lun iscsi.FSType) s =
          .returned s1 id →
        (∀ msg, dbm.call (.InsertPV p.UID p.Name p.CreationTimestamp id .ISCSI p.Capacity
            p.AccessModes json p.ResourceVersion) s1 = .ended msg →
          handlePVs dbm now .Added p json s =
            .calls [.InsertISCSI iscsi.TargetPortal iscsi.IQN iscsi.Lun iscsi.FSType,
              .InsertPV p.UID p.Name p.CreationTimestamp id .ISCSI p.Capacity p.AccessModes
                json p.ResourceVersion]) ∧
        (∀ s2 v, dbm.call (.InsertPV p.UID p.Name p.CreationTimestamp id .ISCSI p.Capacity
            p.AccessModes json p.ResourceVersion) s1 = .returned s2 v →
          handlePVs dbm now .Added p json s =
            .calls (.InsertISCSI iscsi.TargetPortal iscsi.IQN iscsi.Lun iscsi.FSType ::
              .InsertPV p.UID p.Name p.CreationTimestamp id .ISCSI p.Capacity p.AccessModes
                json p.ResourceVersion ::
              (match p.ClaimRef with
               | some claimUID => [.BindPVC p.UID claimUID now p.ResourceVersion]
               | none => []))))) ∧
    (p.NFS = none → p.ISCSI = none →
      (∀ msg, dbm.call (.InsertPV p.UID p.Name p.CreationTimestamp 0 .unset p.Capacity
          p.AccessModes json p.ResourceVersion) s = .ended msg →
        handlePVs dbm now .Added p json s =
          .calls [.InsertPV p.UID p.Name p.CreationTimestamp 0 .unset p.Capacity p.AccessModes
            json p.ResourceVersion]) ∧
      (∀ s2 v, dbm.call (.InsertPV p.UID p.Name p.CreationTimestamp 0 .unset p.Capacity
          p.AccessModes json p.ResourceVersion) s = .returned s2 v →
        handlePVs dbm now .Added p json s =
          .calls (.InsertPV p.UID p.Name p.CreationTimestamp 0 .unset p.Capacity p.AccessModes
              json p.ResourceVersion ::
            (match p.ClaimRef with
             | some claimUID => [.BindPVC p.UID claimUID now p.ResourceVersion]
             | none => []))) ∧
      handlePVs (mysqlManager (fuel + 1)) now .Added p json db =
        .calls [.InsertPV p.UID p.Name p.CreationTimestamp 0 .unset p.Capacity p.AccessModes
          json p.ResourceVersion] ∧
      handlePVs mockManager now .Added p json m =
        .calls [.InsertPV p.UID p.Name p.CreationTimestamp 0 .unset p.Capacity p.AccessModes
          json p.ResourceVersion]) ∧
    ((∀ nfs, p.NFS = some nfs →
      handlePVs mockManager now .Added p json m =
        .calls (.InsertNFS nfs.Server nfs.Path ::
          .InsertPV p.UID p.Name p.CreationTimestamp (m.InsertNFS nfs.Server nfs.Path).2 .NFS
            p.Capacity p.AccessModes json p.ResourceVersion ::
          (match p.ClaimRef with
           | some claimUID => [.BindPVC p.UID claimUID now p.ResourceVersion]
           | none => []))) ∧
     (∀ iscsi, p.NFS = none → p.ISCSI = some iscsi →
      handlePVs mockManager now .Added p json m =
        .calls (.InsertISCSI iscsi.TargetPortal iscsi.IQN iscsi.Lun iscsi.FSType ::
          .InsertPV p.UID p.Name p.CreationTimestamp
            (m.InsertISCSI iscsi.TargetPortal iscsi.IQN iscsi.Lun iscsi.FSType).2 .ISCSI
            p.Capacity p.AccessModes json p.ResourceVersion ::
          (match p.ClaimRef with
           | some claimUID => [.BindPVC p.UID claimUID now p.ResourceVersion]
           | none => [])))) ∧
    (∀ claimUID, p.Phase = api.VolumeBound → p.ClaimRef = some claimUID →
      handlePVs dbm now .Modified p json s =
        .calls [.BindPVC p.UID claimUID now p.ResourceVersion]) ∧
    (p.Phase = api.VolumeBound → p.ClaimRef = none →
      handlePVs dbm now .Modified p json s =
        .panic [] "ClaimRef is null when volume is bound; this is unexpected") ∧
    (p.Phase = api.VolumeAvailable →
      (∀ nfs, p.NFS = some nfs →
        (∀ msg, dbm.call (.InsertNFS nfs.Server nfs.Path) s = .ended msg →
          handlePVs dbm now .Modified p json s = .calls [.InsertNFS nfs.Server nfs.Path]) ∧
        (∀ s1 id, dbm.call (.InsertNFS nfs.Server nfs.Path) s = .returned s1 id →
          handlePVs dbm now .Modified p json s =
            .calls [.InsertNFS nfs.Server nfs.Path,
              .UpdatePV p.UID id .NFS p.Capacity p.AccessModes json p.ResourceVersion])) ∧
      (∀ iscsi, p.NFS = none → p.ISCSI = some iscsi →
        (∀ msg, dbm.call (.InsertISCSI iscsi.TargetPortal iscsi.IQN iscsi.Lun iscsi.FSType) s =
            .ended msg →
          handlePVs dbm now .Modified p json s =
            .calls [.InsertISCSI iscsi.TargetPortal iscsi.IQN iscsi.Lun iscsi.FSType]) ∧
        (∀ s1 id,
          dbm.call (.InsertISCSI iscsi.TargetPortal iscsi.IQN iscsi.Lun iscsi.FSType) s =
            .returned s1 id →
          handlePVs dbm now .Modified p json s =
            .calls [.InsertISCSI iscsi.TargetPortal iscsi.IQN iscsi.Lun iscsi.FSType,
              .UpdatePV p.UID id .ISCSI p.Capacity p.AccessModes json p.ResourceVersion])) ∧
      (p.NFS = none → p.ISCSI = none →
        handlePVs dbm now .Modified p json s =
          .calls [.UpdatePV p.UID 0 .unset p.Capacity p.AccessModes json p.ResourceVersion])) ∧
    (p.Phase ≠ api.VolumeBound → p.Phase ≠ api.VolumeAvailable →
      handlePVs dbm now .Modified p json s = .calls []) := by
  have hne : api.VolumeAvailable ≠ api.VolumeBound := by decide
  refine ⟨?_, ?_, ?_, ⟨?_, ?_⟩, ?_, ?_, ?_, ?_⟩
  · intro nfs h
    refine ⟨?_, ?_⟩
    · intro msg hc
      simp only [handlePVs, internBackend, h, hc]
    · intro s1 id hc
      refine ⟨?_, ?_⟩
      · intro msg hp
        simp only [handlePVs, internBackend, insertPVCall, h, hc, hp]
        rfl
      · intro s2 v hp
        simp only [handlePVs, internBackend, insertPVCall, bindCalls, h, hc, hp]
        cases p.ClaimRef <;> rfl
  · intro iscsi h1 h2
    refine ⟨?_, ?_⟩
    · intro msg hc
      simp only [handlePVs, internBackend, h1, h2, hc]
    · intro s1 id hc
      refine ⟨?_, ?_⟩
      · intro msg hp
        simp only [handlePVs, internBackend, insertPVCall, h1, h2, hc, hp]
        rfl
      · intro s2 v hp
        simp only [handlePVs, internBackend, insertPVCall, bindCalls, h1, h2, hc, hp]
        cases p.ClaimRef <;> rfl
  · intro h1 h2
    refine ⟨?_, ?_, ?_, ?_⟩
    · intro msg hp
      simp only [handlePVs, internBackend, insertPVCall, h1, h2, hp]
      rfl
    · intro s2 v hp
      simp only [handlePVs, internBackend, insertPVCall, bindCalls, h1, h2, hp]
      cases p.ClaimRef <;> rfl
    · simp only [handlePVs, internBackend, insertPVCall, h1, h2]
      rfl
    · simp only [handlePVs, internBackend, insertPVCall, h1, h2]
      rfl
  · intro nfs h
    simp only [handlePVs, internBackend, insertPVCall, bindCalls, h]
    cases p.ClaimRef <;> rfl
  · intro iscsi h1 h2
    simp only [handlePVs, internBackend, insertPVCall, bindCalls, h1, h2]
    cases p.ClaimRef <;> rfl
  · intro c h1 h2
    simp only [handlePVs, h1, h2, if_true]
  · intro h1 h2
    simp only [handlePVs, h1, h2, if_true]
  · intro h
    refine ⟨?_, ?_, ?_⟩
    · intro nfs h1
      refine ⟨?_, ?_⟩
      · intro msg hc
        simp only [handlePVs, internBackend, h, hne, h1, hc, if_false, if_true]
      · intro s1 id hc
        simp only [handlePVs, internBackend, updatePVCall, h, hne, h1, hc, if_false, if_true]
        rfl
    · intro iscsi h1 h2
      refine ⟨?_, ?_⟩
      · intro msg hc
        simp only [handlePVs, internBackend, h, hne, h1, h2, hc, if_false, if_true]
      · intro s1 id hc
        simp only [handlePVs, internBackend, updatePVCall, h, hne, h1, h2, hc, if_false,
          if_true]
        rfl
    · intro h1 h2
      simp only [handlePVs, internBackend, updatePVCall, h, hne, h1, h2, if_false, if_true]
      rfl
  · intro h1 h2
    simp only [handlePVs, h1, h2, if_false]

/-- The amended C23 on the volume of `TestPreexistingBind`, an NFS volume that
carries a claim reference, with the MySQL adapter on the empty store: the ADDED
event interns the export with id 1, inserts the volume and binds; the MODIFIED
event with phase Bound binds. -/
theorem handlePVs_dispatch_witness :
    handlePVs (mysqlManager 1) 9 .Added examplePV "{}" DB.empty =
      .calls [.InsertNFS "10.0.0.1" "/exports/a",
        .InsertPV "pv-1" "preexisting-nfs" 1 1 .NFS 1048576 ["ReadWriteOnce"] "{}" "42",
        .BindPVC "pv-1" "pvc-1" 9 "42"] ∧
    handlePVs (mysqlManager 1) 9 .Modified examplePV "{}" DB.empty =
      .calls [.BindPVC "pv-1" "pvc-1" 9 "42"] :=
  ⟨(((handlePVs_dispatch (mysqlManager 1) 9 examplePV "{}" DB.empty 0 DB.empty
        (MockManager.New false)).1 { Server := "10.0.0.1", Path := "/exports/a" } rfl).2
      (InsertNFS DB.empty "10.0.0.1" "/exports/a").1 1 rfl).2 _ 0 rfl,
   (handlePVs_dispatch (mysqlManager 1) 9 examplePV "{}" DB.empty 0 DB.empty
      (MockManager.New false)).2.2.2.2.1 "pvc-1" rfl rfl⟩

/-- C23 fails as stated on two objects.  A MODIFIED event with phase Bound for
a volume without claim reference: the handler panics and calls nothing, so
there is no `BindPVC`.  An ADDED event for a volume with a claim reference and
neither an NFS nor an iSCSI source: nothing is interned, and with the MySQL
adapter as with the mock `InsertPV` is the first and the last call, so there is
no `BindPVC` either. -/
theorem handlePVs_dispatch_counterexample :
    handlePVs (mysqlManager 1) 9 .Modified { examplePV with ClaimRef := none } "{}" DB.empty =
      .panic [] "ClaimRef is null when volume is bound; this is unexpected" ∧
    handlePVs (mysqlManager 1) 9 .Added { examplePV with NFS := none } "{}" DB.empty =
      .calls [.InsertPV "pv-1" "preexisting-nfs" 1 0 .unset 1048576 ["ReadWriteOnce"] "{}"
        "42"] ∧
    handlePVs mockManager 9 .Added { examplePV with NFS := none } "{}" (MockManager.New false) =
      .calls [.InsertPV "pv-1" "preexisting-nfs" 1 0 .unset 1048576 ["ReadWriteOnce"] "{}"
        "42"] := by
  decide

/-- C29: a volume with neither an NFS nor an iSCSI source.  For an ADDED event
`handlePVs` first calls `InsertPV`, on every manager, and for a MODIFIED event
with phase Available it calls `UpdatePV`, with backend id 0 and the empty backend
type.  With that type the MySQL `InsertPV` and `UpdatePV` and the mock `InsertPV`
and `UpdatePV` end in `log.Fatal`, on every store and every other argument, and
nothing is stored; so with either adapter the `InsertPV` is the only call of the
handler.  The handler passes the empty type exactly when the spec has neither
source. -/
theorem handlePVs_unknown_backend {σ : Type} (dbm : DBManager σ) (s : σ) (now : Time)
    (p : PVResource) (json : String) (fuel : Nat) (db : DB) (m : MockManager)
    (uid name : String) (createTime : Time) (backendID storage : Int)
    (accessModes : List String) (rv : String) :
    (∃ rest, handlePVs dbm now .Added { p with NFS := none, ISCSI := none } json s =
      .calls (.InsertPV p.UID p.Name p.CreationTimestamp 0 .unset p.Capacity p.AccessModes
          json p.ResourceVersion :: rest)) ∧
    handlePVs (mysqlManager (fuel + 1)) now .Added { p with NFS := none, ISCSI := none } json
        db =
      .calls [.InsertPV p.UID p.Name p.CreationTimestamp 0 .unset p.Capacity p.AccessModes
        json p.ResourceVersion] ∧
    handlePVs mockManager now .Added { p with NFS := none, ISCSI := none } json m =
      .calls [.InsertPV p.UID p.Name p.CreationTimestamp 0 .unset p.Capacity p.AccessModes
        json p.ResourceVersion] ∧
    handlePVs dbm now .Modified
        { p with NFS := none, ISCSI := none, Phase := api.VolumeAvailable } json s =
      .calls [.UpdatePV p.UID 0 .unset p.Capacity p.AccessModes json p.ResourceVersion] ∧
    InsertPV (fuel + 1) db uid name createTime backendID .unset storage accessModes json rv =
      .fatal "Unknown backend type" ∧
    UpdatePV fuel db uid backendID .unset storage accessModes json rv =
      .fatal "Unrecognized backend type for update" ∧
    m.InsertPV uid name createTime backendID .unset storage accessModes json rv =
      .fatal "Unrecognized backend type when inserting PV" ∧
    m.UpdatePV uid backendID .unset storage accessModes json rv =
      .fatal "Unrecognized backend type when inserting PV" ∧
    ((∃ s1 id, (internBackend dbm p s).2 = some (s1, id, .unset)) ↔
      p.NFS = none ∧ p.ISCSI = none) := by
  refine ⟨?_, rfl, rfl, rfl, rfl, rfl, rfl, rfl, ?_⟩
  · simp only [handlePVs, internBackend]
    cases dbm.call (insertPVCall { p with NFS := none, ISCSI := none } 0 .unset json) s with
    | returned s2 v => exact ⟨_, rfl⟩
    | ended msg => exact ⟨_, rfl⟩
  · unfold internBackend
    cases h1 : p.NFS with
    | some nfs =>
      cases hc : dbm.call (.InsertNFS nfs.Server nfs.Path) s <;> simp [hc]
    | none =>
      cases h2 : p.ISCSI with
      | some iscsi =>
        cases hc : dbm.call (.InsertISCSI iscsi.TargetPortal iscsi.IQN iscsi.Lun iscsi.FSType)
          s <;> simp [hc]
      | none => simp

/-! ## C27: the mounts `handlePods` extracts -/

/-- The loop that fills `pvcNames`, started from any map: a name is mapped to a
claim name when the map had it or a volume of that name has that claim source. -/
theorem pvcNames_foldl_some (volumes : List api.Volume) (m0 : String → Option String)
    (n c : String)
    (h : volumes.foldl
        (fun m vol =>
          match vol.PersistentVolumeClaim with
          | some claimName => fun n => if n = vol.Name then some claimName else m n
          | none => m) m0 n = some c) :
    (∃ v ∈ volumes, v.Name = n ∧ v.PersistentVolumeClaim = some c) ∨ m0 n = some c := by
  induction volumes generalizing m0 with
  | nil => exact Or.inr h
  | cons v rest ih =>
    rw [List.foldl_cons] at h
    rcases ih _ h with ⟨w, hw, hn, hc⟩ | hm
    · exact Or.inl ⟨w, List.mem_cons_of_mem _ hw, hn, hc⟩
    · cases hv : v.PersistentVolumeClaim with
      | none =>
        simp only [hv] at hm
        exact Or.inr hm
      | some claim =>
        simp only [hv] at hm
        by_cases hn : n = v.Name
        · simp only [hn, if_true, Option.some.injEq] at hm
          exact Or.inl ⟨v, List.mem_cons_self _ _, hn.symm, by rw [hv, hm]⟩
        · simp only [hn, if_false] at hm
          exact Or.inr hm

/-- The loop that fills `pvcNames`, started from any map: a name is in the
result exactly when the map had it or a volume of that name has a claim source. -/
theorem pvcNames_foldl_isSome (volumes : List api.Volume) (m0 : String → Option String)
    (n : String) :
    (volumes.foldl
        (fun m vol =>
          match vol.PersistentVolumeClaim with
          | some claimName => fun n => if n = vol.Name then some claimName else m n
          | none => m) m0 n).isSome =
      (volumes.any (fun v => decide (v.Name = n) && v.PersistentVolumeClaim.isSome) ||
        (m0 n).isSome) := by
  induction volumes generalizing m0 with
  | nil => simp
  | cons v rest ih =>
    rw [List.foldl_cons, ih, List.any_cons]
    cases hv : v.PersistentVolumeClaim with
    | none => simp
    | some claim =>
      by_cases hn : n = v.Name
      · simp [hn]
      · have hn1 : ¬ (v.Name = n) := fun h => hn h.symm
        simp [hn, hn1]

/-- A name that `pvcNames` maps to a claim name is the name of a volume with
that claim source. -/
theorem pvcNames_some (volumes : List api.Volume) (n c : String)
    (h : pvcNames volumes n = some c) :
    ∃ v ∈ volumes, v.Name = n ∧ v.PersistentVolumeClaim = some c := by
  rcases pvcNames_foldl_some volumes (fun _ => none) n c h with h1 | h1
  · exact h1
  · simp at h1

/-- The names `pvcNames` maps are the names of the volumes with a claim source. -/
theorem pvcNames_isSome (volumes : List api.Volume) (n : String) :
    (pvcNames volumes n).isSome =
      volumes.any (fun v => decide (v.Name = n) && v.PersistentVolumeClaim.isSome) := by
  unfold pvcNames
  rw [pvcNames_foldl_isSome]
  simp

/-- The elements `filterMap` keeps, paired with their images. -/
theorem forall₂_filter_filterMap {α β : Type} (f : α → Option β) (l : List α) :
    List.Forall₂ (fun x y => f x = some y) (l.filter (fun x => (f x).isSome)) (l.filterMap f) := by
  induction l with
  | nil => exact List.Forall₂.nil
  | cons x rest ih =>
    cases hx : f x with
    | none =>
      simp only [List.filter_cons, hx, Option.isSome_none, Bool.false_eq_true, if_false,
        List.filterMap_cons]
      exact ih
    | some y =>
      simp only [List.filter_cons, hx, Option.isSome_some, if_true, List.filterMap_cons]
      exact List.Forall₂.cons hx ih

/-- C27: for an ADDED pod event `handlePods` makes one call, `InsertPod`, with
the uid, name, creation time, namespace and resource version of the object and
a list of container descriptions that pairs off with the containers of the pod
spec, in order: each description has the name and the image of its container
and the command words joined with spaces, and its `PVCMounts` pair off, in
order, with those volume mounts of the container whose name is the name of a
pod volume with a claim source; each has `ReadOnly` copied from the volume
mount and as `Name` the claim name of a pod volume of that name.  Mounts of
volumes without claim source have no entry. -/
theorem handlePods_mount_extraction (namespace_ : String) (p : PodResource) (json : String) :
    ∃ containers,
      handlePods namespace_ .Added p json =
        .calls [.InsertPod p.UID p.Name p.CreationTimestamp p.Namespace containers json
          namespace_ p.ResourceVersion] ∧
      List.Forall₂ (fun (c : api.Container) (d : ContainerDesc) =>
          d.Name = c.Name ∧ d.Image = c.Image ∧ d.Command = GetCommandString c.Command ∧
          List.Forall₂ (fun (mount : api.VolumeMount) (pm : VolumeMount) =>
              pm.ReadOnly = mount.ReadOnly ∧
              ∃ v ∈ p.Volumes, v.Name = mount.Name ∧ v.PersistentVolumeClaim = some pm.Name)
            (c.VolumeMounts.filter (fun mount =>
              p.Volumes.any (fun v =>
                decide (v.Name = mount.Name) && v.PersistentVolumeClaim.isSome)))
            d.PVCMounts)
        p.Containers containers := by
  refine ⟨podContainers p, rfl, ?_⟩
  unfold podContainers
  rw [List.forall₂_map_right_iff]
  apply List.forall₂_same.mpr
  intro c _
  refine ⟨rfl, rfl, rfl, ?_⟩
  simp only []
  have h := forall₂_filter_filterMap
    (fun (mount : api.VolumeMount) => (pvcNames p.Volumes mount.Name).map
      (fun pvcName => ({ Name := pvcName, ReadOnly := mount.ReadOnly } : VolumeMount)))
    c.VolumeMounts
  simp only [Option.isSome_map', pvcNames_isSome] at h
  refine List.Forall₂.imp ?_ h
  intro mount pm hpm
  cases hn : pvcNames p.Volumes mount.Name with
  | none => simp [hn] at hpm
  | some claim =>
    simp only [hn, Option.map_some', Option.some.injEq] at hpm
    subst hpm
    exact ⟨rfl, pvcNames_some p.Volumes mount.Name claim hn⟩

/-- The pod of the example: the first container mounts a volume without claim
source and the claim-backed volume `data`, the second mounts `data` read-only;
the descriptions carry the claim name `foo`, not the volume name. -/
theorem handlePods_examplePod :
    handlePods "ns" .Added examplePod "{}" =
      .calls [.InsertPod "pod-1" "p" 3 "ns"
        [{ Name := "c1", Image := "img", Command := "/bin/sh -c",
           PVCMounts := [{ Name := "foo", ReadOnly := false }] },
         { Name := "c2", Image := "img", Command := "",
           PVCMounts := [{ Name := "foo", ReadOnly := true }] }]
        "{}" "ns" "17"] := by
  decide

/-! ## C26: the resume token -/

/-- `GetRV` with a literal resource type and scope reads the stored checkpoint. -/
theorem GetRV_storedCheckpoint (db : DB) (R S : String) (hR : noLikeMeta R = true)
    (hS : noLikeMeta S = true) : GetRV db R S = storedCheckpoint db R S := by
  rw [GetRV_literal db R S hR hS]
  unfold storedCheckpoint
  cases db.resource_version.find? (fun r => decide (r.resource = R ∧ r.namespace_ = S)) <;> rfl

/-- C26 (amended): `getRV` of a watcher whose manager is the MySQL adapter.
(1) With `initialize` set the result is the empty string, for every manager and
every state: the manager is not asked.
(2) For persistent volumes the result is the stored checkpoint of
(persistentvolumes, `default`), whatever the namespace of the watcher is.
(3) For pods and claims the result is the stored checkpoint of (resource type,
watcher namespace) when the namespace contains none of the `LIKE`
metacharacters `%`, `_` and backslash.
The stored checkpoint is the empty string when no row has that key. -/
theorem getRV_lookup {R : Type} (w : Watcher DB R) (hdbm : w.GetRV = GetRV) (db : DB) :
    (∀ (σ : Type) (v : Watcher σ R) (s : σ) (resource : ResourceType),
      v.getRV s resource true = "") ∧
    w.getRV db PVs false = storedCheckpoint db PVs PVNamespace ∧
    (noLikeMeta w.namespace_ = true →
      w.getRV db Pods false = storedCheckpoint db Pods w.namespace_ ∧
      w.getRV db PVCs false = storedCheckpoint db PVCs w.namespace_) ∧
    (∀ (resource : ResourceType) (S : String),
      (∀ r ∈ db.resource_version, ¬ (r.resource = resource ∧ r.namespace_ = S)) →
      storedCheckpoint db resource S = "") := by
  refine ⟨fun σ v s resource => rfl, ?_, ?_, ?_⟩
  · simp only [Watcher.getRV, Bool.false_eq_true, if_false, if_true, hdbm]
    exact GetRV_storedCheckpoint db PVs PVNamespace (by decide) (by decide)
  · intro hns
    have h1 : ¬ (Pods = PVs) := by decide
    have h2 : ¬ (PVCs = PVs) := by decide
    simp only [Watcher.getRV, Bool.false_eq_true, if_false, h1, h2, hdbm]
    exact ⟨GetRV_storedCheckpoint db Pods _ (by decide) hns,
      GetRV_storedCheckpoint db PVCs _ (by decide) hns⟩
  · intro resource S hnone
    unfold storedCheckpoint
    have : db.resource_version.find? (fun r => decide (r.resource = resource ∧ r.namespace_ = S))
        = none := by
      rw [List.find?_eq_none]
      intro r hr
      simpa using hnone r hr
    rw [this]

/-- The amended C26 for the watcher of namespace `ns` on a store whose pod
checkpoint of `ns` is `7`. -/
theorem getRV_lookup_witness :
    (mysqlWatcher "ns").getRV storeReplay Pods false = "7" ∧
    (mysqlWatcher "ns").getRV storeReplay PVCs false = "" ∧
    (mysqlWatcher "ns").getRV storeAfterBind PVs false = "401" :=
  ⟨((getRV_lookup (mysqlWatcher "ns") rfl storeReplay).2.2.1 (by decide)).1.trans (by decide),
   ((getRV_lookup (mysqlWatcher "ns") rfl storeReplay).2.2.1 (by decide)).2.trans (by decide),
   (getRV_lookup (mysqlWatcher "ns") rfl storeAfterBind).2.1.trans (by decide)⟩

/-- C26 fails as stated for a watcher namespace with a `LIKE` metacharacter: the
store holds a pod checkpoint for the scope `abc` only, so no checkpoint is
stored for the scope `a_c`; yet the watcher of namespace `a_c` gets `1`, since
`GetRV` compares the scope with `LIKE`. -/
theorem getRV_lookup_counterexample :
    storedCheckpoint storeScopes Pods "a_c" = "" ∧
    (mysqlWatcher "a_c").getRV storeScopes Pods false = "1" := by
  decide

/-! ## C28: a later claim of the same name -/

/-- Whether `InsertPVC` promotes a mount row depends on the claim name and the
pod of the row only. -/
theorem isPromoted_congr (pod : List PodRow) (N : String) (m m1 : MountRow)
    (hname : m1.pvc_name = m.pvc_name) (hpod : m1.pod_uid = m.pod_uid) :
    isPromoted pod N m1 = isPromoted pod N m := by
  simp only [isPromoted, hname, hpod]

/-- A mount row named `N` of a live pod is promoted, when `N` has no backslash. -/
theorem isPromoted_of_live (pod : List PodRow) (N : String) (m : MountRow)
    (hN : noBackslash N = true) (hname : m.pvc_name = N)
    (hlive : ∃ p ∈ pod, p.uid = m.pod_uid ∧ p.delete_time = none) :
    isPromoted pod N m = true := by
  obtain ⟨p, hp, hu, hd⟩ := hlive
  simp only [isPromoted, Bool.and_eq_true, List.any_eq_true, decide_eq_true_eq]
  refine ⟨?_, p, hp, hu.symm, hd⟩
  rw [hname]
  exact sqlLike_self N hN

/-- C28 (amended): for a claim name `N` without a backslash, two successive
`InsertPVC` calls for the claims `U1` and `U2` of name `N`, with any create
times `T1` and `T2`, both return; after the first every mount row named `N` of a
live pod has pvc_uid `U1`, whatever it had before, and after the second every
such row has pvc_uid `U2`, the claim inserted last, however `T1` and `T2`
compare.  The other columns of the mount rows and their order do not change. -/
theorem InsertPVC_overwrites_resolved (fuel : Nat) (db : DB) (U1 U2 N : String)
    (T1 T2 : Time) (ns : String) (storage : Int) (modes : List String)
    (json watcherNS rv1 rv2 : String) (hN : noBackslash N = true) :
    ∃ db1 db2,
      InsertPVC (fuel + 1) db U1 N T1 ns storage modes json watcherNS rv1 = .returned db1 ∧
      InsertPVC (fuel + 1) db1 U2 N T2 ns storage modes json watcherNS rv2 = .returned db2 ∧
      List.Forall₂ (fun m m1 =>
          m1.pod_uid = m.pod_uid ∧ m1.pvc_name = m.pvc_name ∧
          m1.container_name = m.container_name ∧ m1.read_only = m.read_only ∧
          (m.pvc_name = N → (∃ p ∈ db.pod, p.uid = m.pod_uid ∧ p.delete_time = none) →
            m1.pvc_uid = some U1))
        db.pod_mount db1.pod_mount ∧
      List.Forall₂ (fun m m2 =>
          m2.pod_uid = m.pod_uid ∧ m2.pvc_name = m.pvc_name ∧
          m2.container_name = m.container_name ∧ m2.read_only = m.read_only ∧
          (m.pvc_name = N → (∃ p ∈ db.pod, p.uid = m.pod_uid ∧ p.delete_time = none) →
            m2.pvc_uid = some U2))
        db.pod_mount db2.pod_mount := by
  refine ⟨_, _, InsertPVC_returns fuel db U1 N T1 ns storage modes json watcherNS rv1,
    InsertPVC_returns fuel _ U2 N T2 ns storage modes json watcherNS rv2, ?_, ?_⟩
  · simp only []
    rw [List.forall₂_map_right_iff]
    apply List.forall₂_same.mpr
    intro m _
    by_cases hpr : isPromoted db.pod N m = true
    · simp only [hpr, if_true, true_and]
      exact fun _ _ => trivial
    · simp only [hpr, Bool.false_eq_true, if_false, true_and]
      intro hname hlive
      exact absurd (isPromoted_of_live db.pod N m hN hname hlive) hpr
  · simp only [List.map_map]
    rw [List.forall₂_map_right_iff]
    apply List.forall₂_same.mpr
    intro m _
    have hsame : isPromoted db.pod N
        (if isPromoted db.pod N m = true then { m with pvc_uid := some U1 } else m) =
        isPromoted db.pod N m := by
      apply isPromoted_congr <;> split <;> rfl
    simp only [Function.comp, hsame]
    by_cases hpr : isPromoted db.pod N m = true
    · simp only [hpr, if_true, true_and]
      exact fun _ _ => trivial
    · simp only [hpr, Bool.false_eq_true, if_false, true_and]
      intro hname hlive
      exact absurd (isPromoted_of_live db.pod N m hN hname hlive) hpr

/-- The amended C28 on a store with a live and a deleted pod that mount `foo`:
the claim created at 5 is inserted first, the claim created at 3 last, and
the row of the live pod ends with the claim inserted last. -/
theorem InsertPVC_overwrites_resolved_witness :
    (∃ db1 db2,
      InsertPVC 1 storeLateClaim "pvc-a" "foo" 5 "ns" 200 ["ReadWriteOnce"] "{}" "ns" "5" =
        .returned db1 ∧
      InsertPVC 1 db1 "pvc-b" "foo" 3 "ns" 200 ["ReadWriteOnce"] "{}" "ns" "6" =
        .returned db2 ∧
      List.Forall₂ (fun m m1 =>
          m1.pod_uid = m.pod_uid ∧ m1.pvc_name = m.pvc_name ∧
          m1.container_name = m.container_name ∧ m1.read_only = m.read_only ∧
          (m.pvc_name = "foo" →
            (∃ p ∈ storeLateClaim.pod, p.uid = m.pod_uid ∧ p.delete_time = none) →
            m1.pvc_uid = some "pvc-a"))
        storeLateClaim.pod_mount db1.pod_mount ∧
      List.Forall₂ (fun m m2 =>
          m2.pod_uid = m.pod_uid ∧ m2.pvc_name = m.pvc_name ∧
          m2.container_name = m.container_name ∧ m2.read_only = m.read_only ∧
          (m.pvc_name = "foo" →
            (∃ p ∈ storeLateClaim.pod, p.uid = m.pod_uid ∧ p.delete_time = none) →
            m2.pvc_uid = some "pvc-b"))
        storeLateClaim.pod_mount db2.pod_mount) ∧
    ((InsertPVC 1 storeLateClaim "pvc-a" "foo" 5 "ns" 200 ["ReadWriteOnce"] "{}" "ns" "5").next
        (fun d => InsertPVC 1 d "pvc-b" "foo" 3 "ns" 200 ["ReadWriteOnce"] "{}" "ns"
          "6")).mounts =
      some [{ pod_uid := "pod-1", pvc_uid := some "pvc-b", container_name := "c",
              pvc_name := "foo", read_only := false },
            { pod_uid := "pod-2", pvc_uid := none, container_name := "c",
              pvc_name := "foo", read_only := false }] :=
  ⟨InsertPVC_overwrites_resolved 0 storeLateClaim "pvc-a" "pvc-b" "foo" 5 3 "ns" 200
     ["ReadWriteOnce"] "{}" "ns" "5" "6" (by decide),
   by decide⟩

/-- C28 fails as stated for a name with a backslash: the live pod `pod-1` has a
mount row named `a\b` that is resolved to `pvc-old`.  `InsertPVC` of the claim
`pvc-new` with that name selects rows with `pvc_name LIKE 'a\b'`, a pattern that
matches `ab` and not the name itself, and the row keeps `pvc-old`. -/
theorem InsertPVC_overwrites_resolved_counterexample :
    storeResolvedBackslash.pod.any (fun p => p.uid = "pod-1" ∧ p.delete_time = none) = true ∧
    (InsertPVC 1 storeResolvedBackslash "pvc-new" "a\\b" 5 "ns" 200 ["ReadWriteOnce"] "{}" "ns"
        "5").mounts =
      some [{ pod_uid := "pod-1", pvc_uid := some "pvc-old", container_name := "c",
              pvc_name := "a\\b", read_only := false }] := by
  decide

/-! ## C24, C25 and C30: `Watch`, `Stop` and `Destroy` -/

/-- A deleted key reads as absent. -/
theorem mapLookup_mapDelete_self {κ ν : Type} [DecidableEq κ] (m : List (κ × ν)) (k : κ) :
    mapLookup (mapDelete m k) k = none := by
  unfold mapLookup mapDelete
  have : (m.filter (fun e => decide (e.1 ≠ k))).find? (fun e => decide (e.1 = k)) = none := by
    rw [List.find?_eq_none]
    intro e he
    have := (List.mem_filter.mp he).2
    simpa using this
  rw [this]
  rfl

/-- Deleting one key does not change what another key reads. -/
theorem mapLookup_mapDelete_ne {κ ν : Type} [DecidableEq κ] (m : List (κ × ν)) (k k1 : κ)
    (hne : k1 ≠ k) : mapLookup (mapDelete m k) k1 = mapLookup m k1 := by
  unfold mapLookup mapDelete
  congr 1
  induction m with
  | nil => rfl
  | cons e m ih =>
    by_cases he : e.1 = k
    · have hp : ¬ (decide (e.1 ≠ k) = true) := by simp [he]
      have hq : ¬ (decide (e.1 = k1) = true) := by
        simp only [decide_eq_true_eq, he]
        exact fun h => hne h.symm
      rw [List.filter_cons_of_neg (p := fun (e : κ × ν) => decide (e.1 ≠ k)) hp,
        List.find?_cons_of_neg (p := fun (e : κ × ν) => decide (e.1 = k1)) _ hq, ih]
    · have hp : decide (e.1 ≠ k) = true := by simp [he]
      rw [List.filter_cons_of_pos (p := fun (e : κ × ν) => decide (e.1 ≠ k)) hp]
      by_cases he1 : e.1 = k1
      · have hq : decide (e.1 = k1) = true := by simp [he1]
        rw [List.find?_cons_of_pos (p := fun (e : κ × ν) => decide (e.1 = k1)) _ hq,
          List.find?_cons_of_pos (p := fun (e : κ × ν) => decide (e.1 = k1)) _ hq]
      · have hq : ¬ (decide (e.1 = k1) = true) := by simp [he1]
        rw [List.find?_cons_of_neg (p := fun (e : κ × ν) => decide (e.1 = k1)) _ hq,
          List.find?_cons_of_neg (p := fun (e : κ × ν) => decide (e.1 = k1)) _ hq, ih]

/-- C24 (the code at the failing input, and where the claim holds).
`Stop(r)` for a resource that is not in the map returns an error and leaves the
watcher as it was.  For a resource in the map whose channel is open it closes
that channel, removes the resource from the map, leaves every other entry as it
was and returns nil.  For a resource in the map whose channel is already
closed it panics: after `Watch(PVCs)` and `Destroy`, which closes the channel
and keeps the entry, `Stop(PVCs)` panics. -/
theorem Stop_contract (w : WatcherState) (r : ResourceType) :
    (mapLookup w.stopChannels r = none →
      w.Stop r = .returned w (some ("Attempted to stop nonexistent watch on resource " ++ r))) ∧
    (∀ ch, mapLookup w.stopChannels r = some ch → ch ∉ w.closed →
      ∃ w1, w.Stop r = .returned w1 none ∧ w1.closed = ch :: w.closed ∧
        mapLookup w1.stopChannels r = none ∧
        (∀ r1, r1 ≠ r → mapLookup w1.stopChannels r1 = mapLookup w.stopChannels r1) ∧
        w1.made = w.made ∧ w1.goroutines = w.goroutines ∧ w1.destroyed = w.destroyed) ∧
    (∀ ch, mapLookup w.stopChannels r = some ch → ch ∈ w.closed →
      w.Stop r = .panic "close of closed channel") ∧
    WatcherState.run [.Watch PVCs false, .Destroy] NewWatcher =
      .returned { stopChannels := [(PVCs, 0)], made := 1, closed := [0],
                  goroutines := [(PVCs, false, 0)], destroyed := 1 } none ∧
    WatcherState.run [.Watch PVCs false, .Destroy, .Stop PVCs] NewWatcher =
      .panic "close of closed channel" := by
  refine ⟨?_, ?_, ?_, by decide, by decide⟩
  · intro h
    simp only [WatcherState.Stop, h]
  · intro ch h hopen
    refine ⟨{ w with closed := ch :: w.closed, stopChannels := mapDelete w.stopChannels r },
      ?_, rfl, mapLookup_mapDelete_self _ _, fun r1 hr1 => mapLookup_mapDelete_ne _ _ _ hr1,
      rfl, rfl, rfl⟩
    simp only [WatcherState.Stop, h, hopen, if_false]
  · intro ch h hclosed
    simp only [WatcherState.Stop, h, hclosed, if_true]

/-- C25 (the code at the failing input).  For a resource type other than pods,
persistentvolumes and persistentvolumeclaims `getHandler` returns an error, and
`Watch` returns that error when the type is not in the map; but it has stored
the new stop channel under the type before it looked up the handler, so every
later `Watch` for the type finds the entry and returns nil.  On a new watcher:
the first `Watch("bogus")` returns the error, the second returns nil. -/
theorem Watch_unsupported_twice (w : WatcherState) (resource : ResourceType) (init : Bool) :
    (resource ≠ Pods → resource ≠ PVs → resource ≠ PVCs →
      getHandler resource = .error ("Unable to handle resource type " ++ resource ++ "\n") ∧
      (mapLookup w.stopChannels resource = none →
        ∃ w1, w.Watch resource init =
            .returned w1 (some ("Unable to handle resource type " ++ resource ++ "\n")) ∧
          mapLookup w1.stopChannels resource = some w.made ∧
          w1.Watch resource init = .returned w1 none)) ∧
    ((∃ ch, mapLookup w.stopChannels resource = some ch) →
      w.Watch resource init = .returned w none) ∧
    NewWatcher.Watch "bogus" false =
      .returned { stopChannels := [("bogus", 0)], made := 1, closed := [], goroutines := [],
                  destroyed := 0 } (some "Unable to handle resource type bogus\n") ∧
    WatcherState.Watch { stopChannels := [("bogus", 0)], made := 1, closed := [],
                         goroutines := [], destroyed := 0 } "bogus" false =
      .returned { stopChannels := [("bogus", 0)], made := 1, closed := [], goroutines := [],
                  destroyed := 0 } none := by
  refine ⟨?_, ?_, by decide, by decide⟩
  · intro h1 h2 h3
    have hh : getHandler resource =
        .error ("Unable to handle resource type " ++ resource ++ "\n") := by
      simp only [getHandler, h1, h2, h3, if_false]
    refine ⟨hh, ?_⟩
    intro hnone
    refine ⟨{ w with made := w.made + 1,
                     stopChannels := mapAssign w.stopChannels resource w.made }, ?_, ?_, ?_⟩
    · simp only [WatcherState.Watch, hnone, hh]
    · exact mapLookup_mapAssign _ _ _
    · simp only [WatcherState.Watch, mapLookup_mapAssign]
  · rintro ⟨ch, hch⟩
    simp only [WatcherState.Watch, hch]

/-- A new watcher is well formed. -/
theorem NewWatcher_wf : NewWatcher.wf := by
  simp [NewWatcher, WatcherState.wf]

/-- `Watch` on a well-formed watcher returns and keeps it well formed. -/
theorem Watch_wf (w : WatcherState) (hw : w.wf) (r : ResourceType) (init : Bool) :
    ∃ w1 e, w.Watch r init = .returned w1 e ∧ w1.wf := by
  obtain ⟨h1, h2, h3⟩ := hw
  have hwf : ∀ g, WatcherState.wf
      ⟨mapAssign w.stopChannels r w.made, w.made + 1, w.closed, g, w.destroyed⟩ := by
    intro g
    refine ⟨?_, ?_, ?_⟩
    · intro e he
      simp only [mapAssign, List.mem_cons] at he
      rcases he with rfl | he
      · exact ⟨Nat.lt_succ_self _, fun hc => lt_irrefl _ (h3 _ hc)⟩
      · have := h1 e (List.mem_of_mem_filter he)
        exact ⟨Nat.lt_succ_of_lt this.1, this.2⟩
    · simp only [mapAssign, List.map_cons, List.nodup_cons]
      constructor
      · intro hmem
        rw [List.mem_map] at hmem
        obtain ⟨e, he, hval⟩ := hmem
        have := (h1 e (List.mem_of_mem_filter he)).1
        rw [hval] at this
        exact lt_irrefl _ this
      · exact h2.sublist (List.Sublist.map _ (List.filter_sublist _))
    · intro c hc
      exact Nat.lt_succ_of_lt (h3 c hc)
  unfold WatcherState.Watch
  cases hl : mapLookup w.stopChannels r with
  | some ch => exact ⟨w, none, rfl, h1, h2, h3⟩
  | none =>
    simp only []
    cases getHandler r with
    | error e => exact ⟨_, _, rfl, hwf _⟩
    | ok k => exact ⟨_, _, rfl, hwf _⟩

/-- `Stop` on a well-formed watcher returns and keeps it well formed. -/
theorem Stop_wf (w : WatcherState) (hw : w.wf) (r : ResourceType) :
    ∃ w1 e, w.Stop r = .returned w1 e ∧ w1.wf := by
  obtain ⟨h1, h2, h3⟩ := hw
  unfold WatcherState.Stop
  cases hl : mapLookup w.stopChannels r with
  | none => exact ⟨w, _, rfl, h1, h2, h3⟩
  | some ch =>
    have hmem := mapLookup_eq_some w.stopChannels r ch hl
    have hopen : ch ∉ w.closed := (h1 _ hmem).2
    simp only [hopen, if_false]
    refine ⟨_, _, rfl, ?_, ?_, ?_⟩
    · intro e he
      have he' := List.mem_filter.mp he
      have hne : e.1 ≠ r := by simpa using he'.2
      refine ⟨(h1 e he'.1).1, ?_⟩
      intro hc
      rw [List.mem_cons] at hc
      rcases hc with hc | hc
      · have := List.inj_on_of_nodup_map h2 he'.1 hmem hc
        exact hne (by rw [this])
      · exact (h1 e he'.1).2 hc
    · exact h2.sublist (List.Sublist.map _ (List.filter_sublist _))
    · intro c hc
      rw [List.mem_cons] at hc
      rcases hc with rfl | hc
      · exact (h1 _ hmem).1
      · exact h3 c hc

/-- Closing distinct open channels one after the other does not panic. -/
theorem closeAll_some (l closed : List Chan) (hnodup : l.Nodup)
    (hopen : ∀ c ∈ l, c ∉ closed) : ∃ cl, closeAll l closed = some cl := by
  induction l generalizing closed with
  | nil => exact ⟨closed, rfl⟩
  | cons c rest ih =>
    have hc : c ∉ closed := hopen c (List.mem_cons_self _ _)
    rw [List.nodup_cons] at hnodup
    simp only [closeAll, hc, if_false]
    apply ih _ hnodup.2
    intro d hd hmem
    rw [List.mem_cons] at hmem
    rcases hmem with rfl | hmem
    · exact hnodup.1 hd
    · exact hopen d (List.mem_cons_of_mem _ hd) hmem

/-- `Destroy` on a well-formed watcher returns. -/
theorem Destroy_returns (w : WatcherState) (hw : w.wf) :
    ∃ w1, w.Destroy = .returned w1 none := by
  obtain ⟨h1, h2, _⟩ := hw
  obtain ⟨cl, hcl⟩ := closeAll_some (w.stopChannels.map (fun e => e.2)) w.closed h2 (by
    intro c hc
    rw [List.mem_map] at hc
    obtain ⟨e, he, rfl⟩ := hc
    exact (h1 e he).2)
  exact ⟨{ w with closed := cl, destroyed := w.destroyed + 1 },
    by simp only [WatcherState.Destroy, hcl]⟩

/-- A sequence of `Watch` and `Stop` calls on a well-formed watcher does not
panic and leaves it well formed. -/
theorem run_Watch_Stop (calls : List WatcherCall) (hno : ∀ c ∈ calls, c ≠ .Destroy)
    (w : WatcherState) (hw : w.wf) :
    ∃ w1 e, WatcherState.run calls w = .returned w1 e ∧ w1.wf := by
  induction calls generalizing w with
  | nil => exact ⟨w, none, rfl, hw⟩
  | cons c rest ih =>
    have hrest : ∀ d ∈ rest, d ≠ .Destroy := fun d hd => hno d (List.mem_cons_of_mem _ hd)
    cases c with
    | Watch r init =>
      obtain ⟨w1, e, hcall, hw1⟩ := Watch_wf w hw r init
      obtain ⟨w2, e2, hrun, hw2⟩ := ih hrest w1 hw1
      exact ⟨w2, e2, by simp only [WatcherState.run, WatcherState.call, hcall, hrun], hw2⟩
    | Stop r =>
      obtain ⟨w1, e, hcall, hw1⟩ := Stop_wf w hw r
      obtain ⟨w2, e2, hrun, hw2⟩ := ih hrest w1 hw1
      exact ⟨w2, e2, by simp only [WatcherState.run, WatcherState.call, hcall, hrun], hw2⟩
    | Destroy => exact absurd rfl (hno _ (List.mem_cons_self _ _))

/-- C30 (the code at the failing inputs, and where the claim holds).  After
`Watch(pods)` and `Destroy`, a second `Destroy` panics, and so does `Stop(pods)`:
`Destroy` closes the channels of the map and keeps the entries, so the next
call that closes the channels of the map closes a closed channel.  Any sequence
of `Watch` and `Stop` calls on a new watcher returns without panic, and a
`Destroy` after it returns as well. -/
theorem stop_channel_closed_twice (calls : List WatcherCall) :
    WatcherState.run [.Watch Pods false, .Destroy, .Destroy] NewWatcher =
      .panic "close of closed channel" ∧
    WatcherState.run [.Watch Pods false, .Destroy, .Stop Pods] NewWatcher =
      .panic "close of closed channel" ∧
    ((∀ c ∈ calls, c ≠ .Destroy) →
      ∃ w e, WatcherState.run calls NewWatcher = .returned w e ∧
        ∃ w1, w.Destroy = .returned w1 none) := by
  refine ⟨by decide, by decide, ?_⟩
  intro hno
  obtain ⟨w, e, hrun, hw⟩ := run_Watch_Stop calls hno NewWatcher NewWatcher_wf
  exact ⟨w, e, hrun, Destroy_returns w hw⟩

end KubeVolTracker
